import Mathlib

/-!
A verification development for the PySpike piecewise-function algebra
(`pyspike/PieceWiseConstFunc.py`, `pyspike/function.py`).

The Python code is shallowly embedded: numpy float arrays become `List ℚ`,
numpy scalar operations become exact rational arithmetic, fallible
operations (assertions, out-of-range indexing) return `Except PyErr`.
The embedding follows the source line by line; spec-side formulas (named
`...Claim...`) are written from the natural-language specification and
are compared against the embedded code by theorems.
-/

namespace PySpike

/-- Errors a Python call can raise in the embedded fragment:
`assertFail` models a failed `assert` (the spec's OutOfDomainError /
DomainMismatchError / InsufficientInputError sites), `indexErr` models an
out-of-bounds numpy scalar index access (Python `IndexError`). -/
inductive PyErr where
  | assertFail
  | indexErr
  deriving DecidableEq, Repr

/-- Python scalar indexing `l[i]` on a numpy array: a negative index is
taken from the end, an index out of `[-len, len)` raises `IndexError`. -/
def pyget (l : List ℚ) (i : Int) : Except PyErr ℚ :=
  let k : Int := if i < 0 then i + l.length else i
  if 0 ≤ k ∧ k < (l.length : Int) then .ok (l.getD k.toNat 0) else .error .indexErr

/-- Normalize a Python slice bound for a sequence of length `n`:
negative bounds count from the end, then the bound is clamped to `[0, n]`. -/
def pynorm (n : ℕ) (i : Int) : ℕ :=
  min (if i < 0 then i + n else i).toNat n

/-- Python slicing `l[i:j]` (step 1): both bounds normalized by `pynorm`,
the result being the elements from `lo` (inclusive) to `hi` (exclusive). -/
def pyslice (l : List ℚ) (i j : Int) : List ℚ :=
  let lo := pynorm l.length i
  let hi := pynorm l.length j
  (l.drop lo).take (hi - lo)

/-- `np.searchsorted(x, v, side='right')` on a sorted array: the number of
entries `≤ v`, i.e. the insertion index keeping `x` sorted with `v` placed
after equal entries. -/
def ssRight (x : List ℚ) (v : ℚ) : ℕ :=
  x.countP (fun t => decide (t ≤ v))

/-- `np.searchsorted(x, v, side='left')` on a sorted array: the number of
entries `< v`. -/
def ssLeft (x : List ℚ) (v : ℚ) : ℕ :=
  x.countP (fun t => decide (t < v))

/-- Python `int(q)` on a float: truncation toward zero. -/
def pyint (q : ℚ) : Int :=
  q.num.tdiv q.den

instance {ε α : Type} [DecidableEq ε] [DecidableEq α] : DecidableEq (Except ε α) :=
  fun a b =>
    match a, b with
    | .ok u, .ok v =>
      if h : u = v then .isTrue (by rw [h]) else .isFalse (by intro c; cases c; exact h rfl)
    | .error u, .error v =>
      if h : u = v then .isTrue (by rw [h]) else .isFalse (by intro c; cases c; exact h rfl)
    | .ok _, .error _ => .isFalse (by intro c; cases c)
    | .error _, .ok _ => .isFalse (by intro c; cases c)

/-- The `interval` argument accepted by `integral` / `avrg`:
`None`, a single pair, or a sequence of pairs. -/
inductive Interval where
  | none
  | pair (a b : ℚ)
  | seq (ps : List (ℚ × ℚ))

/-! ## PieceWiseConstFunc (contents level) -/

/-- A piece-wise constant function: breakpoints `x` (length N+1) and
interval values `y` (length N), as in `PieceWiseConstFunc.__init__`. -/
structure PieceWiseConstFunc where
  x : List ℚ
  y : List ℚ

/-- `PieceWiseConstFunc.integral(None)`:
`np.sum((self.x[1:]-self.x[:-1]) * self.y)`. -/
def PieceWiseConstFunc.integralNone (f : PieceWiseConstFunc) : ℚ :=
  (List.zipWith (· * ·)
    (List.zipWith (fun u v => u - v)
      (pyslice f.x 1 f.x.length) (pyslice f.x 0 (-1)))
    f.y).sum

/-- `PieceWiseConstFunc.integral(interval)` for a pair `[a,b]`: locate
`start_ind`/`end_ind` by `searchsorted`, assert
`start_ind > 0 and end_ind < len(x)`, sum the fully covered intervals from
slices, then add the two boundary corrections (accesses in the source's
evaluation order, so the first out-of-range index decides the error). -/
def PieceWiseConstFunc.integralPair (f : PieceWiseConstFunc) (a b : ℚ) :
    Except PyErr ℚ :=
  let s : Int := ssRight f.x a
  let e : Int := (ssLeft f.x b : Int) - 1
  if 0 < s ∧ e < (f.x.length : Int) then do
    let full := (List.zipWith (· * ·)
      (List.zipWith (fun u v => u - v)
        (pyslice f.x (s+1) (e+1)) (pyslice f.x s e))
      (pyslice f.y s e)).sum
    let xs ← pyget f.x s
    let ysm ← pyget f.y (s-1)
    let xe ← pyget f.x e
    let ye ← pyget f.y e
    .ok (full + (xs - a) * ysm + (b - xe) * ye)
  else .error .assertFail

/-- `PieceWiseConstFunc.integral`, all argument shapes.  A sequence
argument is not accepted by this method (its `avrg` loops over the pairs
itself); passing one would fail the tuple unpacking `interval[0]`,
modelled as an index error on the empty case and as unpacking of the
first pair otherwise (the of the source unreachable for the claims). -/
def PieceWiseConstFunc.integral (f : PieceWiseConstFunc) (ival : Interval) :
    Except PyErr ℚ :=
  match ival with
  | .none => .ok f.integralNone
  | .pair a b => f.integralPair a b
  | .seq ps =>
    match ps with
    | [] => .error .indexErr
    | p :: _ => f.integralPair p.1 p.2

/-- Loop body of `PieceWiseConstFunc.avrg` over a sequence of intervals:
`a += self.integral(ival); int_length += ival[1] - ival[0]`. -/
def PieceWiseConstFunc.avrgSeqLoop (f : PieceWiseConstFunc)
    (ps : List (ℚ × ℚ)) (acc len : ℚ) : Except PyErr (ℚ × ℚ) :=
  match ps with
  | [] => .ok (acc, len)
  | p :: rest => do
    let v ← f.integralPair p.1 p.2
    f.avrgSeqLoop rest (acc + v) (len + (p.2 - p.1))

/-- `PieceWiseConstFunc.avrg`: whole-domain average
`integral() / (x[-1]-x[0])`, single-pair average `integral(pair)/(b-a)`,
and for a sequence of pairs the summed integrals divided by the summed
lengths (single division at the end). -/
def PieceWiseConstFunc.avrg (f : PieceWiseConstFunc) (ival : Interval) :
    Except PyErr ℚ :=
  match ival with
  | .none => do
    let xl ← pyget f.x (-1)
    let x0 ← pyget f.x 0
    .ok (f.integralNone / (xl - x0))
  | .pair a b => do
    let v ← f.integralPair a b
    .ok (v / (b - a))
  | .seq ps =>
    match ps with
    | [] => .error .indexErr
    | _ :: _ => do
      let r ← f.avrgSeqLoop ps 0 0
      .ok (r.1 / r.2)

/-- The spec's formula for the piece-wise constant sub-interval integral
(claim C1): sum over the fully covered intervals `[start_ind, end_ind)`
of `(x[i+1]-x[i])*y[i]`, plus `(x[start_ind]-a)*y[start_ind-1]` and
`(b-x[end_ind])*y[end_ind]`. -/
def pwcIntegralClaim (x y : List ℚ) (a b : ℚ) : ℚ :=
  let s := ssRight x a
  let e := ssLeft x b - 1
  (∑ i in Finset.Ico s e, (x.getD (i+1) 0 - x.getD i 0) * y.getD i 0)
    + (x.getD s 0 - a) * y.getD (s-1) 0
    + (b - x.getD e 0) * y.getD e 0

/-! ## PieceWiseLinFunc (contents level) -/

/-- `intermediate_value(x0, x1, y0, y1, x)` from
`PieceWiseLinFunc.integral`: the value of the linear function through
`(x0,y0)` and `(x1,y1)` at `x`, i.e. `y0 + (y1-y0)*(x-x0)/(x1-x0)`. -/
def intermediate_value (x0 x1 y0 y1 xq : ℚ) : ℚ :=
  y0 + (y1 - y0) * (xq - x0) / (x1 - x0)

/-- A piece-wise linear function: breakpoints `x` (length N+1), left
endpoint values `y1` and right endpoint values `y2` (length N each). -/
structure PieceWiseLinFunc where
  x : List ℚ
  y1 : List ℚ
  y2 : List ℚ

/-- `PieceWiseLinFunc.integral(None)`:
`np.sum((self.x[1:]-self.x[:-1]) * 0.5*(self.y1+self.y2))`. -/
def PieceWiseLinFunc.integralNone (f : PieceWiseLinFunc) : ℚ :=
  (List.zipWith (· * ·)
    ((List.zipWith (fun u v => u - v)
      (pyslice f.x 1 f.x.length) (pyslice f.x 0 (-1))).map (· * (1/2)))
    (List.zipWith (· + ·) f.y1 f.y2)).sum

/-- `PieceWiseLinFunc.integral(interval)` for a pair `[a,b]`: trapezoid
sum over the fully covered intervals plus the two boundary corrections
computed by `intermediate_value` (scalar accesses in the source's
evaluation order). -/
def PieceWiseLinFunc.integralPair (f : PieceWiseLinFunc) (a b : ℚ) :
    Except PyErr ℚ :=
  let s : Int := ssRight f.x a
  let e : Int := (ssLeft f.x b : Int) - 1
  if 0 < s ∧ e < (f.x.length : Int) then do
    let full := (List.zipWith (· * ·)
      ((List.zipWith (fun u v => u - v)
        (pyslice f.x (s+1) (e+1)) (pyslice f.x s e)).map (· * (1/2)))
      (List.zipWith (· + ·) (pyslice f.y1 s e) (pyslice f.y2 s e))).sum
    let xs ← pyget f.x s
    let y2sm ← pyget f.y2 (s-1)
    let xsm ← pyget f.x (s-1)
    let y1sm ← pyget f.y1 (s-1)
    let corr1 := (xs - a) * (1/2) * (y2sm + intermediate_value xsm xs y1sm y2sm a)
    let xe ← pyget f.x e
    let y1e ← pyget f.y1 e
    let xe1 ← pyget f.x (e+1)
    let y2e ← pyget f.y2 e
    let corr2 := (b - xe) * (1/2) * (y1e + intermediate_value xe xe1 y1e y2e b)
    .ok (full + corr1 + corr2)
  else .error .assertFail

/-- `PieceWiseLinFunc.integral`, all argument shapes (see
`PieceWiseConstFunc.integral` for the sequence case). -/
def PieceWiseLinFunc.integral (f : PieceWiseLinFunc) (ival : Interval) :
    Except PyErr ℚ :=
  match ival with
  | .none => .ok f.integralNone
  | .pair a b => f.integralPair a b
  | .seq ps =>
    match ps with
    | [] => .error .indexErr
    | p :: _ => f.integralPair p.1 p.2

/-- Loop body of `PieceWiseLinFunc.avrg` over a sequence of intervals. -/
def PieceWiseLinFunc.avrgSeqLoop (f : PieceWiseLinFunc)
    (ps : List (ℚ × ℚ)) (acc len : ℚ) : Except PyErr (ℚ × ℚ) :=
  match ps with
  | [] => .ok (acc, len)
  | p :: rest => do
    let v ← f.integralPair p.1 p.2
    f.avrgSeqLoop rest (acc + v) (len + (p.2 - p.1))

/-- `PieceWiseLinFunc.avrg`: same structure as the piece-wise constant
version. -/
def PieceWiseLinFunc.avrg (f : PieceWiseLinFunc) (ival : Interval) :
    Except PyErr ℚ :=
  match ival with
  | .none => do
    let xl ← pyget f.x (-1)
    let x0 ← pyget f.x 0
    .ok (f.integralNone / (xl - x0))
  | .pair a b => do
    let v ← f.integralPair a b
    .ok (v / (b - a))
  | .seq ps =>
    match ps with
    | [] => .error .indexErr
    | _ :: _ => do
      let r ← f.avrgSeqLoop ps 0 0
      .ok (r.1 / r.2)

/-- The spec's formula for the piece-wise linear sub-interval integral
(claim C4): trapezoid sum over the fully covered intervals, plus a left
boundary term averaging the containing interval's value interpolated at
`a` with that interval's right endpoint value over width `x[start_ind]-a`,
plus the symmetric right boundary term at `b`. -/
def pwlIntegralClaim (x y1 y2 : List ℚ) (a b : ℚ) : ℚ :=
  let s := ssRight x a
  let e := ssLeft x b - 1
  (∑ i in Finset.Ico s e,
      (x.getD (i+1) 0 - x.getD i 0) * (1/2) * (y1.getD i 0 + y2.getD i 0))
    + (x.getD s 0 - a) * (1/2) *
        (intermediate_value (x.getD (s-1) 0) (x.getD s 0)
          (y1.getD (s-1) 0) (y2.getD (s-1) 0) a + y2.getD (s-1) 0)
    + (b - x.getD e 0) * (1/2) *
        (y1.getD e 0 + intermediate_value (x.getD e 0) (x.getD (e+1) 0)
          (y1.getD e 0) (y2.getD e 0) b)

/-! ## DiscreteFunction (contents level) -/

/-- A discrete weighted function: points `x`, accumulated values `y` and
accumulated multiplicities `mp` (length N each). -/
structure DiscreteFunction where
  x : List ℚ
  y : List ℚ
  mp : List ℚ

/-- One direction of the window expansion in
`DiscreteFunction.get_plottable_data`: walk along the `(y, mp)` pairs,
taking whole values while the accumulated multiplicity stays below
`expected`, a fractional contribution `y[j]*(expected-acc)/mp[j]` from the
pair that crosses the threshold, and stopping silently at the end of the
list.  The same loop body serves rightward (on a suffix) and leftward (on
a reversed prefix) in the source. -/
def sideAcc (pairs : List (ℚ × ℚ)) (expected yAcc mpAcc : ℚ) : ℚ × ℚ :=
  match pairs with
  | [] => (yAcc, mpAcc)
  | (yj, mpj) :: rest =>
    if mpAcc + mpj < expected then sideAcc rest expected (yAcc + yj) (mpAcc + mpj)
    else (yAcc + yj * (expected - mpAcc) / mpj, mpAcc + (expected - mpAcc))

/-- Body of the `for i in xrange(len(y_plot))` loop of
`DiscreteFunction.get_plottable_data` for `averaging_window_size > 0`:
if `mp[i] >= expected_mp` the value is `y[i]/mp[i]`; otherwise the window
expands to the right (indices `i+1, i+2, ...`) and then to the left
(indices `i-1, ..., 0`), sharing the value accumulator, and the result is
`y/(mp_l+mp_r-mp[i])`. -/
def DiscreteFunction.smoothAt (f : DiscreteFunction) (expected : ℚ) (i : ℕ) : ℚ :=
  let yi := f.y.getD i 0
  let mpi := f.mp.getD i 0
  if expected ≤ mpi then yi / mpi
  else
    let pr := sideAcc ((f.y.zip f.mp).drop (i+1)) expected yi mpi
    let pl := sideAcc (((f.y.zip f.mp).take i).reverse) expected pr.1 mpi
    pl.1 / (pl.2 + pr.2 - mpi)

/-- `DiscreteFunction.get_plottable_data(averaging_window_size)`: for a
positive window size the smoothed profile with target multiplicity
`expected_mp = (averaging_window_size+1) * int(self.mp[0])`, otherwise
the pointwise quotient `y/mp`.  (`self.mp[0]` is embedded as
`getD 0`; the empty-function `IndexError` is outside the claims.) -/
def DiscreteFunction.get_plottable_data (f : DiscreteFunction) (k : ℕ) :
    List ℚ × List ℚ :=
  if 0 < k then
    let expected : ℚ := ((k : ℚ) + 1) * (pyint (f.mp.getD 0 0) : ℚ)
    (f.x, (List.range f.y.length).map (fun i => f.smoothAt expected i))
  else
    (f.x, List.zipWith (fun u v => u / v) f.y f.mp)

/-- `get_indices` from `DiscreteFunction.integral`: locate the index range
of a query interval with `side='right'` on the left bound and
`side='left'` on the right bound, asserting
`start_ind > 0 and end_ind < len(x)`. -/
def DiscreteFunction.get_indices (f : DiscreteFunction) (a b : ℚ) :
    Except PyErr (ℕ × ℕ) :=
  let s := ssRight f.x a
  let e := ssLeft f.x b
  if 0 < s ∧ e < f.x.length then .ok (s, e) else .error .assertFail

/-- Loop of the multi-interval branch of `DiscreteFunction.integral`:
accumulate `np.sum(y[start_ind:end_ind])` and
`np.sum(mp[start_ind:end_ind])` over the given intervals. -/
def DiscreteFunction.integralSeqLoop (f : DiscreteFunction)
    (ps : List (ℚ × ℚ)) (v m : ℚ) : Except PyErr (ℚ × ℚ) :=
  match ps with
  | [] => .ok (v, m)
  | p :: rest => do
    let r ← f.get_indices p.1 p.2
    f.integralSeqLoop rest (v + (pyslice f.y r.1 r.2).sum)
      (m + (pyslice f.mp r.1 r.2).sum)

/-- `DiscreteFunction.integral`: whole-domain value
`np.sum(y[1:-1]) / np.sum(mp[1:-1])`, single interval
`sum(y[s:e])/sum(mp[s:e])`, and for several intervals the summed values
divided by the summed multiplicities (single division at the end). -/
def DiscreteFunction.integral (f : DiscreteFunction) (ival : Interval) :
    Except PyErr ℚ :=
  match ival with
  | .none => .ok ((pyslice f.y 1 (-1)).sum / (pyslice f.mp 1 (-1)).sum)
  | .pair a b => do
    let r ← f.get_indices a b
    .ok ((pyslice f.y r.1 r.2).sum / (pyslice f.mp r.1 r.2).sum)
  | .seq ps =>
    match ps with
    | [] => .error .indexErr
    | _ :: _ => do
      let r ← f.integralSeqLoop ps 0 0
      .ok (r.1 / r.2)

/-- `DiscreteFunction.avrg`: `return self.integral(interval)`. -/
def DiscreteFunction.avrg (f : DiscreteFunction) (ival : Interval) :
    Except PyErr ℚ :=
  f.integral ival

/-- Spec-side window expansion for claim C5: the side accumulators start
from zero and the threshold test adds the point's own multiplicity
(`own`), matching the claim's wording that each side accumulates while
its multiplicity stays below `expected_mp` and then takes the fractional
contribution `y[j]*(expected_mp - acc)/mp[j]`. -/
def claimSide (pairs : List (ℚ × ℚ)) (own expected yAcc mpAcc : ℚ) : ℚ × ℚ :=
  match pairs with
  | [] => (yAcc, mpAcc)
  | (yj, mpj) :: rest =>
    if own + mpAcc + mpj < expected then
      claimSide rest own expected (yAcc + yj) (mpAcc + mpj)
    else (yAcc + yj * (expected - (own + mpAcc)) / mpj,
          mpAcc + (expected - (own + mpAcc)))

/-- Spec-side smoothed value for claim C5: `y[i]/mp[i]` when the point
already carries the target multiplicity, otherwise
`(own value + left accumulation + right accumulation)` divided by
`(own multiplicity + left + right accumulated multiplicities)`, the own
multiplicity counted exactly once. -/
def claimSmoothAt (y mp : List ℚ) (expected : ℚ) (i : ℕ) : ℚ :=
  let yi := y.getD i 0
  let mpi := mp.getD i 0
  if expected ≤ mpi then yi / mpi
  else
    let r := claimSide ((y.zip mp).drop (i+1)) mpi expected 0 0
    let l := claimSide (((y.zip mp).take i).reverse) mpi expected 0 0
    (yi + l.1 + r.1) / (mpi + l.2 + r.2)

/-! ## Object / array-storage model

Claims C8 and C9 are about aliasing: `np.array(...)` in the constructors
copies the supplied arrays, `mul_scalar` mutates an array in place
(`self.y *= fac`), and `add` rebinds the object's attributes to freshly
built arrays.  Numpy array storage is modelled as a heap of rational
arrays addressed by allocation index; each function object holds the
indices of its arrays. -/

/-- The array store: one numpy array per allocation index. -/
structure Heap where
  arrs : List (List ℚ)

/-- Dereference an array index. -/
def Heap.read (h : Heap) (i : ℕ) : List ℚ :=
  h.arrs.getD i []

/-- In-place overwrite of the array at index `i`. -/
def Heap.write (h : Heap) (i : ℕ) (v : List ℚ) : Heap :=
  ⟨h.arrs.set i v⟩

/-- Allocate a fresh array holding `v`; returns the new heap and the
fresh index. -/
def Heap.alloc (h : Heap) (v : List ℚ) : Heap × ℕ :=
  (⟨h.arrs ++ [v]⟩, h.arrs.length)

/-- `np.allclose(u, v, atol=eps, rtol=0.0)` on same-shaped arrays:
all entries within `eps` of each other.  (The claims only compare
same-length arrays; shape broadcasting is out of scope.) -/
def allclose (u v : List ℚ) (eps : ℚ) : Bool :=
  u.length == v.length &&
    (List.zipWith (fun a b => decide (|a - b| ≤ eps)) u v).all id

/-- A `PieceWiseConstFunc` object: references to its `x` and `y` arrays. -/
structure PwcObj where
  xId : ℕ
  yId : ℕ

instance : Inhabited PwcObj := ⟨⟨0, 0⟩⟩

/-- `PieceWiseConstFunc.__init__(x, y)`: `np.array` copies both supplied
contents into fresh arrays. -/
def PwcObj.init (h : Heap) (xv yv : List ℚ) : Heap × PwcObj :=
  let ax := h.alloc xv
  let ay := ax.1.alloc yv
  (ay.1, ⟨ax.2, ay.2⟩)

/-- `PieceWiseConstFunc.copy()`: construct a new object from the current
contents (hence fresh arrays). -/
def PwcObj.copy (h : Heap) (o : PwcObj) : Heap × PwcObj :=
  PwcObj.init h (h.read o.xId) (h.read o.yId)

/-- `PieceWiseConstFunc.mul_scalar(fac)`: `self.y *= fac`, an in-place
update of the `y` array. -/
def PwcObj.mul_scalar (h : Heap) (o : PwcObj) (fac : ℚ) : Heap :=
  h.write o.yId ((h.read o.yId).map (· * fac))

/-- `PieceWiseConstFunc.almost_equal(other, decimal)` with
`eps = 10^(-decimal)`. -/
def PwcObj.almost_equal (h : Heap) (o p : PwcObj) (eps : ℚ) : Bool :=
  allclose (h.read o.xId) (h.read p.xId) eps &&
    allclose (h.read o.yId) (h.read p.yId) eps

/-- `PieceWiseConstFunc.add(f)`: assert equal domain endpoints
(`self.x[0] == f.x[0]`, `self.x[-1] == f.x[-1]`), then rebind `self.x`,
`self.y` to the arrays produced by the backend merge `impl`.  The merge
backend (`cython_add` / `python_backend`) is not part of this repository
fragment, so it is an explicit parameter. -/
def PwcObj.add (h : Heap) (o f : PwcObj)
    (impl : List ℚ → List ℚ → List ℚ → List ℚ → List ℚ × List ℚ) :
    Except PyErr (Heap × PwcObj) :=
  match pyget (h.read o.xId) 0, pyget (h.read f.xId) 0 with
  | .error e, _ => .error e
  | .ok _, .error e => .error e
  | .ok a0, .ok b0 =>
    if a0 = b0 then
      match pyget (h.read o.xId) (-1), pyget (h.read f.xId) (-1) with
      | .error e, _ => .error e
      | .ok _, .error e => .error e
      | .ok a1, .ok b1 =>
        if a1 = b1 then
          let r := impl (h.read o.xId) (h.read o.yId) (h.read f.xId) (h.read f.yId)
          let ax := h.alloc r.1
          let ay := ax.1.alloc r.2
          .ok (ay.1, ⟨ax.2, ay.2⟩)
        else .error .assertFail
    else .error .assertFail

/-- A `PieceWiseLinFunc` object: references to its `x`, `y1`, `y2` arrays. -/
structure PwlObj where
  xId : ℕ
  y1Id : ℕ
  y2Id : ℕ

instance : Inhabited PwlObj := ⟨⟨0, 0, 0⟩⟩

/-- `PieceWiseLinFunc.__init__(x, y1, y2)`. -/
def PwlObj.init (h : Heap) (xv y1v y2v : List ℚ) : Heap × PwlObj :=
  let ax := h.alloc xv
  let a1 := ax.1.alloc y1v
  let a2 := a1.1.alloc y2v
  (a2.1, ⟨ax.2, a1.2, a2.2⟩)

/-- `PieceWiseLinFunc.copy()`. -/
def PwlObj.copy (h : Heap) (o : PwlObj) : Heap × PwlObj :=
  PwlObj.init h (h.read o.xId) (h.read o.y1Id) (h.read o.y2Id)

/-- `PieceWiseLinFunc.mul_scalar(fac)`: `self.y1 *= fac; self.y2 *= fac`. -/
def PwlObj.mul_scalar (h : Heap) (o : PwlObj) (fac : ℚ) : Heap :=
  let h1 := h.write o.y1Id ((h.read o.y1Id).map (· * fac))
  h1.write o.y2Id ((h1.read o.y2Id).map (· * fac))

/-- `PieceWiseLinFunc.almost_equal(other, decimal)`. -/
def PwlObj.almost_equal (h : Heap) (o p : PwlObj) (eps : ℚ) : Bool :=
  allclose (h.read o.xId) (h.read p.xId) eps &&
    allclose (h.read o.y1Id) (h.read p.y1Id) eps &&
      allclose (h.read o.y2Id) (h.read p.y2Id) eps

/-- `PieceWiseLinFunc.add(f)` with a parametric merge backend. -/
def PwlObj.add (h : Heap) (o f : PwlObj)
    (impl : List ℚ → List ℚ → List ℚ → List ℚ → List ℚ → List ℚ →
      List ℚ × List ℚ × List ℚ) : Except PyErr (Heap × PwlObj) :=
  match pyget (h.read o.xId) 0, pyget (h.read f.xId) 0 with
  | .error e, _ => .error e
  | .ok _, .error e => .error e
  | .ok a0, .ok b0 =>
    if a0 = b0 then
      match pyget (h.read o.xId) (-1), pyget (h.read f.xId) (-1) with
      | .error e, _ => .error e
      | .ok _, .error e => .error e
      | .ok a1, .ok b1 =>
        if a1 = b1 then
          let r := impl (h.read o.xId) (h.read o.y1Id) (h.read o.y2Id)
            (h.read f.xId) (h.read f.y1Id) (h.read f.y2Id)
          let ax := h.alloc r.1
          let a1a := ax.1.alloc r.2.1
          let a2a := a1a.1.alloc r.2.2
          .ok (a2a.1, ⟨ax.2, a1a.2, a2a.2⟩)
        else .error .assertFail
    else .error .assertFail

/-- A `DiscreteFunction` object: references to its `x`, `y`, `mp` arrays. -/
structure DiscObj where
  xId : ℕ
  yId : ℕ
  mpId : ℕ

instance : Inhabited DiscObj := ⟨⟨0, 0, 0⟩⟩

/-- `DiscreteFunction.__init__(x, y, multiplicity)`. -/
def DiscObj.init (h : Heap) (xv yv mv : List ℚ) : Heap × DiscObj :=
  let ax := h.alloc xv
  let ay := ax.1.alloc yv
  let am := ay.1.alloc mv
  (am.1, ⟨ax.2, ay.2, am.2⟩)

/-- `DiscreteFunction.copy()`. -/
def DiscObj.copy (h : Heap) (o : DiscObj) : Heap × DiscObj :=
  DiscObj.init h (h.read o.xId) (h.read o.yId) (h.read o.mpId)

/-- `DiscreteFunction.mul_scalar(fac)`: `self.y *= fac` (`mp` untouched). -/
def DiscObj.mul_scalar (h : Heap) (o : DiscObj) (fac : ℚ) : Heap :=
  h.write o.yId ((h.read o.yId).map (· * fac))

/-- `DiscreteFunction.almost_equal(other, decimal)`. -/
def DiscObj.almost_equal (h : Heap) (o p : DiscObj) (eps : ℚ) : Bool :=
  allclose (h.read o.xId) (h.read p.xId) eps &&
    allclose (h.read o.yId) (h.read p.yId) eps &&
      allclose (h.read o.mpId) (h.read p.mpId) eps

/-- `DiscreteFunction.add(f)` with a parametric merge backend. -/
def DiscObj.add (h : Heap) (o f : DiscObj)
    (impl : List ℚ → List ℚ → List ℚ → List ℚ → List ℚ → List ℚ →
      List ℚ × List ℚ × List ℚ) : Except PyErr (Heap × DiscObj) :=
  match pyget (h.read o.xId) 0, pyget (h.read f.xId) 0 with
  | .error e, _ => .error e
  | .ok _, .error e => .error e
  | .ok a0, .ok b0 =>
    if a0 = b0 then
      match pyget (h.read o.xId) (-1), pyget (h.read f.xId) (-1) with
      | .error e, _ => .error e
      | .ok _, .error e => .error e
      | .ok a1, .ok b1 =>
        if a1 = b1 then
          let r := impl (h.read o.xId) (h.read o.yId) (h.read o.mpId)
            (h.read f.xId) (h.read f.yId) (h.read f.mpId)
          let ax := h.alloc r.1
          let ay := ax.1.alloc r.2.1
          let am := ay.1.alloc r.2.2
          .ok (am.1, ⟨ax.2, ay.2, am.2⟩)
        else .error .assertFail
    else .error .assertFail

/-! ## average_profile -/

/-- The `for i in xrange(1, len(profiles)): avrg_profile.add(profiles[i])`
loop of `average_profile`, threading the heap and the (attribute-rebound)
accumulator object. -/
def foldAdd (h : Heap) (o : PwcObj) (ps : List PwcObj)
    (impl : List ℚ → List ℚ → List ℚ → List ℚ → List ℚ × List ℚ) :
    Except PyErr (Heap × PwcObj) :=
  match ps with
  | [] => .ok (h, o)
  | p :: rest => do
    let r ← PwcObj.add h o p impl
    foldAdd r.1 r.2 rest impl

/-- `average_profile(profiles)` instantiated at the piece-wise constant
kind (the source function is duck-typed over the three profile kinds;
each kind gets its own instantiation of the same body):
`assert len(profiles) > 1`, copy the first profile, fold the remaining
profiles in by `add` in sequence order, then `mul_scalar(1.0/len)`. -/
def average_profile (h : Heap) (ps : List PwcObj)
    (impl : List ℚ → List ℚ → List ℚ → List ℚ → List ℚ × List ℚ) :
    Except PyErr (Heap × PwcObj) :=
  match ps with
  | [] => .error .assertFail
  | [_] => .error .assertFail
  | p0 :: rest => do
    let c := PwcObj.copy h p0
    let r ← foldAdd c.1 c.2 rest impl
    let h2 := PwcObj.mul_scalar r.1 r.2 (1 / (ps.length : ℚ))
    .ok (h2, r.2)

/-- The `add` fold of `average_profile` at the piece-wise linear kind. -/
def foldAddPwl (h : Heap) (o : PwlObj) (ps : List PwlObj)
    (impl : List ℚ → List ℚ → List ℚ → List ℚ → List ℚ → List ℚ →
      List ℚ × List ℚ × List ℚ) :
    Except PyErr (Heap × PwlObj) :=
  match ps with
  | [] => .ok (h, o)
  | p :: rest => do
    let r ← PwlObj.add h o p impl
    foldAddPwl r.1 r.2 rest impl

/-- `average_profile(profiles)` instantiated at the piece-wise linear
kind: same source body as `average_profile`. -/
def average_profilePwl (h : Heap) (ps : List PwlObj)
    (impl : List ℚ → List ℚ → List ℚ → List ℚ → List ℚ → List ℚ →
      List ℚ × List ℚ × List ℚ) :
    Except PyErr (Heap × PwlObj) :=
  match ps with
  | [] => .error .assertFail
  | [_] => .error .assertFail
  | p0 :: rest => do
    let c := PwlObj.copy h p0
    let r ← foldAddPwl c.1 c.2 rest impl
    let h2 := PwlObj.mul_scalar r.1 r.2 (1 / (ps.length : ℚ))
    .ok (h2, r.2)

/-- The `add` fold of `average_profile` at the discrete weighted kind. -/
def foldAddDisc (h : Heap) (o : DiscObj) (ps : List DiscObj)
    (impl : List ℚ → List ℚ → List ℚ → List ℚ → List ℚ → List ℚ →
      List ℚ × List ℚ × List ℚ) :
    Except PyErr (Heap × DiscObj) :=
  match ps with
  | [] => .ok (h, o)
  | p :: rest => do
    let r ← DiscObj.add h o p impl
    foldAddDisc r.1 r.2 rest impl

/-- `average_profile(profiles)` instantiated at the discrete weighted
kind: same source body as `average_profile`. -/
def average_profileDisc (h : Heap) (ps : List DiscObj)
    (impl : List ℚ → List ℚ → List ℚ → List ℚ → List ℚ → List ℚ →
      List ℚ × List ℚ × List ℚ) :
    Except PyErr (Heap × DiscObj) :=
  match ps with
  | [] => .error .assertFail
  | [_] => .error .assertFail
  | p0 :: rest => do
    let c := DiscObj.copy h p0
    let r ← foldAddDisc c.1 c.2 rest impl
    let h2 := DiscObj.mul_scalar r.1 r.2 (1 / (ps.length : ℚ))
    .ok (h2, r.2)

/-- Contents-level merge step used to state what `average_profile`
computes: `add` replaces the accumulator's `(x, y)` contents with the
backend's output on the two operands' contents. -/
def addContents (impl : List ℚ → List ℚ → List ℚ → List ℚ → List ℚ × List ℚ)
    (c d : List ℚ × List ℚ) : List ℚ × List ℚ :=
  impl c.1 c.2 d.1 d.2

/-- Contents-level `mul_scalar` at the piece-wise constant kind:
scale the `y` contents. -/
def mulContents (fac : ℚ) (c : List ℚ × List ℚ) : List ℚ × List ℚ :=
  (c.1, c.2.map (· * fac))

/-- Contents-level merge step for the three-array kinds (linear and
discrete): `add` replaces the accumulator's contents with the backend's
output on the two operands' contents. -/
def addContents3
    (impl : List ℚ → List ℚ → List ℚ → List ℚ → List ℚ → List ℚ →
      List ℚ × List ℚ × List ℚ)
    (c d : List ℚ × List ℚ × List ℚ) : List ℚ × List ℚ × List ℚ :=
  impl c.1 c.2.1 c.2.2 d.1 d.2.1 d.2.2

/-- Contents-level `mul_scalar` at the piece-wise linear kind:
`self.y1 *= fac; self.y2 *= fac`. -/
def mulContentsPwl (fac : ℚ) (c : List ℚ × List ℚ × List ℚ) :
    List ℚ × List ℚ × List ℚ :=
  (c.1, c.2.1.map (· * fac), c.2.2.map (· * fac))

/-- Contents-level `mul_scalar` at the discrete weighted kind:
`self.y *= fac`, the multiplicities untouched. -/
def mulContentsDisc (fac : ℚ) (c : List ℚ × List ℚ × List ℚ) :
    List ℚ × List ℚ × List ℚ :=
  (c.1, c.2.1.map (· * fac), c.2.2)

/-- Observe a fallible heap operation: `none` if it raised, otherwise the
given view of its result.  Used to state heap-independence facts that
hold whether or not the operation succeeds. -/
def exMap {β : Type} (r : Except PyErr β) (f : β → List ℚ) : Option (List ℚ) :=
  r.toOption.map f

/-- Whether a fallible heap operation succeeded. -/
def exOk {β : Type} (r : Except PyErr β) : Bool :=
  match r with
  | .ok _ => true
  | .error _ => false

/-! ## Helper lemmas: indexing, slicing, searchsorted bounds -/

theorem getD_eq_getElem (l : List ℚ) (n : ℕ) (h : n < l.length) : l.getD n 0 = l[n] := by
  simp [List.getD_eq_getElem?_getD, List.getElem?_eq_getElem h]

theorem pyget_nat (l : List ℚ) (n : ℕ) (h : n < l.length) :
    pyget l (n : Int) = .ok (l.getD n 0) := by
  have h1 : ¬((n : Int) < 0) := by omega
  simp only [pyget, h1, if_false]
  rw [if_pos ⟨by omega, by omega⟩]
  simp

theorem pyget_negOne (l : List ℚ) (h : l ≠ []) :
    pyget l (-1) = .ok (l.getD (l.length - 1) 0) := by
  have hl : 0 < l.length := List.length_pos.mpr h
  have h1 : ((-1 : Int) < 0) := by omega
  simp only [pyget, h1, if_true]
  rw [if_pos ⟨by omega, by omega⟩]
  have h2 : (-1 + (l.length : Int)).toNat = l.length - 1 := by omega
  rw [h2]

theorem pynorm_nat (n k : ℕ) (h : k ≤ n) : pynorm n (k : Int) = k := by
  have h1 : ¬((k : Int) < 0) := by omega
  simp only [pynorm, h1, if_false]
  omega

theorem pynorm_negOne (n : ℕ) : pynorm n (-1) = n - 1 := by
  have h1 : ((-1 : Int) < 0) := by omega
  simp only [pynorm, h1, if_true]
  omega

theorem pyslice_nat (l : List ℚ) (lo hi : ℕ) (hlo : lo ≤ l.length) (hhi : hi ≤ l.length) :
    pyslice l (lo : Int) (hi : Int) = (l.drop lo).take (hi - lo) := by
  simp only [pyslice, pynorm_nat l.length lo hlo, pynorm_nat l.length hi hhi]

theorem pyslice_negOne (l : List ℚ) (lo : ℕ) (hlo : lo ≤ l.length) :
    pyslice l (lo : Int) (-1) = (l.drop lo).take (l.length - 1 - lo) := by
  simp only [pyslice, pynorm_nat l.length lo hlo, pynorm_negOne]

theorem pyget_zero (l : List ℚ) (h : 0 < l.length) : pyget l 0 = .ok (l.getD 0 0) := by
  have h0 := pyget_nat l 0 h
  simpa using h0

theorem pyslice_one_negOne (l : List ℚ) (h : 1 ≤ l.length) :
    pyslice l 1 (-1) = (l.drop 1).take (l.length - 1 - 1) := by
  have h0 := pyslice_negOne l 1 h
  simpa using h0

theorem zipWith_map_same {α β γ : Type} (f : α → α → β) (g h : γ → α) (l : List γ) :
    List.zipWith f (l.map g) (l.map h) = l.map (fun i => f (g i) (h i)) := by
  induction l with
  | nil => rfl
  | cons a t ih => simp [ih]

theorem sum_map_range (f : ℕ → ℚ) (n : ℕ) :
    ((List.range n).map f).sum = ∑ i in Finset.range n, f i := by
  induction n with
  | zero => simp
  | succ n ih => simp [List.range_succ, Finset.sum_range_succ, ih]

theorem drop_take_map (l : List ℚ) (s n : ℕ) (h : s + n ≤ l.length) :
    (l.drop s).take n = (List.range n).map (fun i => l.getD (s + i) 0) := by
  apply List.ext_getElem
  · simp
    omega
  · intro i h1 h2
    have hi : i < n := by
      simp only [List.length_map, List.length_range] at h2
      exact h2
    have hsi : s + i < l.length := by omega
    simp only [List.getElem_take, List.getElem_drop, List.getElem_map, List.getElem_range]
    rw [getD_eq_getElem l (s+i) hsi]

theorem sum_prod_slices (x w : List ℚ) (s n : ℕ)
    (h1 : s + n + 1 ≤ x.length) (h2 : s + n ≤ w.length) :
    (List.zipWith (· * ·)
      (List.zipWith (fun u v => u - v) ((x.drop (s+1)).take n) ((x.drop s).take n))
      ((w.drop s).take n)).sum
    = ∑ i in Finset.range n, (x.getD (s+1+i) 0 - x.getD (s+i) 0) * w.getD (s+i) 0 := by
  rw [drop_take_map x (s+1) n (by omega), drop_take_map x s n (by omega),
    drop_take_map w s n h2, zipWith_map_same, zipWith_map_same, sum_map_range]

theorem ssRight_pos (x : List ℚ) (a : ℚ) (hx : x ≠ []) (h : x.getD 0 0 ≤ a) :
    0 < ssRight x a := by
  rw [ssRight, List.countP_pos_iff]
  have hl : 0 < x.length := List.length_pos.mpr hx
  refine ⟨x[0], List.getElem_mem _, ?_⟩
  rw [getD_eq_getElem x 0 hl] at h
  simpa using h

theorem ssRight_lt (x : List ℚ) (a : ℚ) (hx : x ≠ [])
    (h : ¬ (x.getD (x.length - 1) 0 ≤ a)) : ssRight x a < x.length := by
  have hl : 0 < x.length := List.length_pos.mpr hx
  have hle := List.countP_le_length (p := fun t => decide (t ≤ a)) (l := x)
  rcases Nat.lt_or_ge (ssRight x a) x.length with h1 | h1
  · exact h1
  · exfalso
    have heq : ssRight x a = x.length := le_antisymm hle h1
    rw [ssRight, List.countP_eq_length] at heq
    have := heq (x.getD (x.length - 1) 0) (by
      rw [getD_eq_getElem x _ (by omega)]
      exact List.getElem_mem _)
    simp only [decide_eq_true_eq] at this
    exact h this

theorem ssLeft_pos (x : List ℚ) (b : ℚ) (hx : x ≠ []) (h : x.getD 0 0 < b) :
    0 < ssLeft x b := by
  rw [ssLeft, List.countP_pos_iff]
  have hl : 0 < x.length := List.length_pos.mpr hx
  refine ⟨x[0], List.getElem_mem _, ?_⟩
  rw [getD_eq_getElem x 0 hl] at h
  simpa using h

theorem ssLeft_lt (x : List ℚ) (b : ℚ) (hx : x ≠ [])
    (h : ¬ (x.getD (x.length - 1) 0 < b)) : ssLeft x b < x.length := by
  have hl : 0 < x.length := List.length_pos.mpr hx
  have hle := List.countP_le_length (p := fun t => decide (t < b)) (l := x)
  rcases Nat.lt_or_ge (ssLeft x b) x.length with h1 | h1
  · exact h1
  · exfalso
    have heq : ssLeft x b = x.length := le_antisymm hle h1
    rw [ssLeft, List.countP_eq_length] at heq
    have := heq (x.getD (x.length - 1) 0) (by
      rw [getD_eq_getElem x _ (by omega)]
      exact List.getElem_mem _)
    simp only [decide_eq_true_eq] at this
    exact h this

theorem ssRight_le_ssLeft (x : List ℚ) (a b : ℚ) (h : a < b) :
    ssRight x a ≤ ssLeft x b := by
  apply List.countP_mono_left
  intro t _ ht
  simp only [decide_eq_true_eq] at *
  linarith

/-- Core of claim C1: under the data-model invariants and for a genuine
query interval inside the domain, the embedded sub-interval integral of a
piece-wise constant function returns exactly the spec's formula. -/
theorem pwc_integralPair_eq_claim (x y : List ℚ) (a b : ℚ)
    (_hchain : List.Chain' (· < ·) x)
    (hlen : x.length = y.length + 1) (hy : 1 ≤ y.length)
    (h0a : x.getD 0 0 ≤ a) (hab : a < b)
    (hbN : b ≤ x.getD (x.length - 1) 0) :
    PieceWiseConstFunc.integralPair ⟨x, y⟩ a b = .ok (pwcIntegralClaim x y a b) := by
  have hx : x ≠ [] := List.length_pos.mp (by omega)
  set sN := ssRight x a with hsN
  set eL := ssLeft x b with heL
  have s_pos : 0 < sN := ssRight_pos x a hx h0a
  have s_lt : sN < x.length := ssRight_lt x a hx (by intro hc; linarith)
  have eL_pos : 0 < eL := ssLeft_pos x b hx (by linarith)
  have eL_lt : eL < x.length := ssLeft_lt x b hx (by intro hc; linarith)
  have s_le : sN ≤ eL := ssRight_le_ssLeft x a b hab
  set eN := eL - 1 with heN
  have heNeL : eN + 1 = eL := by omega
  have hcast : (eL : Int) - 1 = ((eN : ℕ) : Int) := by omega
  have hcond : (0 : Int) < (sN : Int) ∧ ((eN : ℕ) : Int) < (x.length : Int) := by
    constructor <;> omega
  set n := eN - sN with hn
  have hsn1 : sN + 1 ≤ x.length := by omega
  have hen1 : eN + 1 ≤ x.length := by omega
  have hsnl : sN ≤ x.length := by omega
  have henl : eN ≤ x.length := by omega
  have hsny : sN ≤ y.length := by omega
  have heny : eN ≤ y.length := by omega
  simp only [PieceWiseConstFunc.integralPair, ← hsN, ← heL, hcast]
  rw [if_pos hcond]
  have e1 : ((sN : Int) + 1) = (((sN + 1 : ℕ)) : Int) := by omega
  have e2 : (((eN : ℕ)) : Int) + 1 = (((eN + 1 : ℕ)) : Int) := by omega
  rw [e1, e2, pyslice_nat x (sN+1) (eN+1) hsn1 hen1,
    pyslice_nat x sN eN hsnl henl, pyslice_nat y sN eN hsny heny]
  have htake : eN + 1 - (sN + 1) = n := by omega
  have htake2 : eN - sN = n := by omega
  rw [htake, htake2]
  have hfull := sum_prod_slices x y sN n (by omega) (by omega)
  rw [hfull]
  have e3 : ((sN : Int)) - 1 = (((sN - 1 : ℕ)) : Int) := by omega
  rw [pyget_nat x sN s_lt, e3, pyget_nat y (sN - 1) (by omega),
    pyget_nat x eN (by omega), pyget_nat y eN (by omega)]
  simp only [Except.bind, Bind.bind]
  simp only [pwcIntegralClaim, ← hsN, ← heL, ← heN]
  rw [Finset.sum_Ico_eq_sum_range]
  rw [htake2]
  have hco : ∑ i in Finset.range n, (x.getD (sN+1+i) 0 - x.getD (sN+i) 0) * y.getD (sN+i) 0
      = ∑ k in Finset.range n, (x.getD (sN+k+1) 0 - x.getD (sN+k) 0) * y.getD (sN+k) 0 := by
    apply Finset.sum_congr rfl
    intro i _
    rw [Nat.add_right_comm sN 1 i]
  rw [hco]

/-- C1 (amended): for every piece-wise constant function with strictly
increasing breakpoints and a query interval `[a,b]` inside the domain
(`x[0] ≤ a < b ≤ x[-1]`), `integral([a,b])` returns the sum over the
fully covered intervals `[start_ind, end_ind)` of `(x[i+1]-x[i])*y[i]`
plus `(x[start_ind]-a)*y[start_ind-1]` and `(b-x[end_ind])*y[end_ind]`;
in particular for `x=[0,1,2,3]`, `y=[1,2,3]`, `integral([0.5, 2.5])`
equals 4.0 (not 3.5 as the claim stated). -/
theorem c1_pwc_subinterval_integral :
    (∀ (x y : List ℚ) (a b : ℚ),
      List.Chain' (· < ·) x →
      x.length = y.length + 1 → 1 ≤ y.length →
      x.getD 0 0 ≤ a → a < b → b ≤ x.getD (x.length - 1) 0 →
      PieceWiseConstFunc.integral ⟨x, y⟩ (.pair a b) = .ok (pwcIntegralClaim x y a b))
    ∧ PieceWiseConstFunc.integral ⟨[0,1,2,3], [1,2,3]⟩ (.pair (1/2) (5/2)) = .ok 4 := by
  constructor
  · intro x y a b hchain hlen hy h0a hab hbN
    exact pwc_integralPair_eq_claim x y a b hchain hlen hy h0a hab hbN
  · with_unfolding_all decide

/-- C1 witness: the general statement applied at the concrete function
`x=[0,1,2,3]`, `y=[1,2,3]` and interval `[0.5, 2.5]`. -/
theorem c1_pwc_subinterval_integral_witness :
    PieceWiseConstFunc.integral ⟨[0,1,2,3], [1,2,3]⟩ (.pair (1/2) (5/2))
      = .ok (pwcIntegralClaim [0,1,2,3] [1,2,3] (1/2) (5/2)) :=
  c1_pwc_subinterval_integral.1 [0,1,2,3] [1,2,3] (1/2) (5/2)
    (by norm_num [List.chain'_cons]) (by with_unfolding_all decide)
    (by with_unfolding_all decide) (by with_unfolding_all decide)
    (by with_unfolding_all decide) (by with_unfolding_all decide)

/-- C1 counterexample: `integral([0.5, 2.5])` on `x=[0,1,2,3]`,
`y=[1,2,3]` does not equal the claimed 3.5 (the code returns 4.0:
`0.5*1 + 1*2 + 0.5*3 = 4`). -/
theorem c1_counterexample :
    PieceWiseConstFunc.integral ⟨[0,1,2,3], [1,2,3]⟩ (.pair (1/2) (5/2)) ≠ .ok (7/2) := by
  with_unfolding_all decide

/-- C2: on `x=[0,1,2,3]`, `y=[1,2,3]` with right bound `3.5 > x[-1]`, the
piece-wise constant `integral` passes its domain assertion (the code
checks the vacuous `end_ind < len(x)` instead of the spec's
`end_ind < len(x)-1`) and then fails with an `IndexError` reading `y[3]`,
not with the OutOfDomainError the claim requires; the discrete-function
`integral` on the same interval does fail its assertion. -/
theorem c2_out_of_domain_is_index_error :
    PieceWiseConstFunc.integral ⟨[0,1,2,3], [1,2,3]⟩ (.pair (1/2) (7/2))
        = .error .indexErr
    ∧ DiscreteFunction.integral ⟨[0,1,2,3], [1,2,3], [1,1,1]⟩ (.pair (1/2) (7/2))
        = .error .assertFail := by
  constructor
  · with_unfolding_all decide
  · with_unfolding_all decide


theorem sum_trap_slices (x w1 w2 : List ℚ) (s n : ℕ)
    (h1 : s + n + 1 ≤ x.length) (h2 : s + n ≤ w1.length) (h3 : s + n ≤ w2.length) :
    (List.zipWith (· * ·)
      ((List.zipWith (fun u v => u - v)
        ((x.drop (s+1)).take n) ((x.drop s).take n)).map (· * (1/2)))
      (List.zipWith (· + ·) ((w1.drop s).take n) ((w2.drop s).take n))).sum
    = ∑ i in Finset.range n,
        (x.getD (s+1+i) 0 - x.getD (s+i) 0) * (1/2) * (w1.getD (s+i) 0 + w2.getD (s+i) 0) := by
  rw [drop_take_map x (s+1) n (by omega), drop_take_map x s n (by omega),
    drop_take_map w1 s n h2, drop_take_map w2 s n h3,
    zipWith_map_same, List.map_map, zipWith_map_same, zipWith_map_same, sum_map_range]
  apply Finset.sum_congr rfl
  intro i _
  simp [Function.comp]

/-- Core of claim C4: under the data-model invariants and for a genuine
query interval inside the domain, the embedded sub-interval integral of a
piece-wise linear function returns exactly the spec's trapezoid-plus-
interpolated-boundary formula. -/
theorem pwl_integralPair_eq_claim (x y1 y2 : List ℚ) (a b : ℚ)
    (_hchain : List.Chain' (· < ·) x)
    (hlen : x.length = y1.length + 1) (hlen2 : y2.length = y1.length)
    (hy : 1 ≤ y1.length)
    (h0a : x.getD 0 0 ≤ a) (hab : a < b)
    (hbN : b ≤ x.getD (x.length - 1) 0) :
    PieceWiseLinFunc.integralPair ⟨x, y1, y2⟩ a b
      = .ok (pwlIntegralClaim x y1 y2 a b) := by
  have hx : x ≠ [] := List.length_pos.mp (by omega)
  set sN := ssRight x a with hsN
  set eL := ssLeft x b with heL
  have s_pos : 0 < sN := ssRight_pos x a hx h0a
  have s_lt : sN < x.length := ssRight_lt x a hx (by intro hc; linarith)
  have eL_pos : 0 < eL := ssLeft_pos x b hx (by linarith)
  have eL_lt : eL < x.length := ssLeft_lt x b hx (by intro hc; linarith)
  have s_le : sN ≤ eL := ssRight_le_ssLeft x a b hab
  set eN := eL - 1 with heN
  have heNeL : eN + 1 = eL := by omega
  have hcast : (eL : Int) - 1 = ((eN : ℕ) : Int) := by omega
  have hcond : (0 : Int) < (sN : Int) ∧ ((eN : ℕ) : Int) < (x.length : Int) := by
    constructor <;> omega
  set n := eN - sN with hn
  simp only [PieceWiseLinFunc.integralPair, ← hsN, ← heL, hcast]
  rw [if_pos hcond]
  have e1 : ((sN : Int) + 1) = (((sN + 1 : ℕ)) : Int) := by omega
  have e2 : (((eN : ℕ)) : Int) + 1 = (((eN + 1 : ℕ)) : Int) := by omega
  rw [e1, e2, pyslice_nat x (sN+1) (eN+1) (by omega) (by omega),
    pyslice_nat x sN eN (by omega) (by omega),
    pyslice_nat y1 sN eN (by omega) (by omega),
    pyslice_nat y2 sN eN (by omega) (by omega)]
  have htake : eN + 1 - (sN + 1) = n := by omega
  have htake2 : eN - sN = n := by omega
  rw [htake, htake2]
  rw [sum_trap_slices x y1 y2 sN n (by omega) (by omega) (by omega)]
  have e3 : ((sN : Int)) - 1 = (((sN - 1 : ℕ)) : Int) := by omega
  rw [pyget_nat x sN s_lt, e3, pyget_nat y2 (sN - 1) (by omega),
    pyget_nat x (sN - 1) (by omega), pyget_nat y1 (sN - 1) (by omega),
    pyget_nat x eN (by omega), pyget_nat y1 eN (by omega),
    pyget_nat x (eN + 1) (by omega), pyget_nat y2 eN (by omega)]
  simp only [Except.bind, Bind.bind]
  simp only [pwlIntegralClaim, ← hsN, ← heL, ← heN]
  rw [Finset.sum_Ico_eq_sum_range, htake2]
  have hco : ∑ i in Finset.range n,
        (x.getD (sN+1+i) 0 - x.getD (sN+i) 0) * (1/2) * (y1.getD (sN+i) 0 + y2.getD (sN+i) 0)
      = ∑ k in Finset.range n,
        (x.getD (sN+k+1) 0 - x.getD (sN+k) 0) * (1/2) * (y1.getD (sN+k) 0 + y2.getD (sN+k) 0) := by
    apply Finset.sum_congr rfl
    intro i _
    rw [Nat.add_right_comm sN 1 i]
  congr 1
  rw [hco]
  ring


/-- C4: for every piece-wise linear function (strictly increasing
breakpoints, matching lengths) and every query interval `[a,b]` with
`x[0] ≤ a < b ≤ x[-1]`, `integral([a,b])` sums the fully covered
intervals by the trapezoid formula `(x[i+1]-x[i])*0.5*(y1[i]+y2[i])` and
corrects the boundaries by linear interpolation with
`y0 + (y1-y0)*(x-x0)/(x1-x0)`: at the left edge the containing interval's
value interpolated at `a` averaged with that interval's right endpoint
value over width `x[start_ind]-a`, symmetrically at the right edge. -/
theorem c4_pwl_subinterval_integral :
    ∀ (x y1 y2 : List ℚ) (a b : ℚ),
      List.Chain' (· < ·) x →
      x.length = y1.length + 1 → y2.length = y1.length → 1 ≤ y1.length →
      x.getD 0 0 ≤ a → a < b → b ≤ x.getD (x.length - 1) 0 →
      PieceWiseLinFunc.integral ⟨x, y1, y2⟩ (.pair a b)
        = .ok (pwlIntegralClaim x y1 y2 a b) := by
  intro x y1 y2 a b hchain hlen hlen2 hy h0a hab hbN
  exact pwl_integralPair_eq_claim x y1 y2 a b hchain hlen hlen2 hy h0a hab hbN

/-- C4 witness: the general statement applied to the concrete function
`x=[0,1,2]`, `y1=[0,1]`, `y2=[1,3]` and interval `[0.5, 1.5]`. -/
theorem c4_pwl_subinterval_integral_witness :
    PieceWiseLinFunc.integral ⟨[0,1,2], [0,1], [1,3]⟩ (.pair (1/2) (3/2))
      = .ok (pwlIntegralClaim [0,1,2] [0,1] [1,3] (1/2) (3/2)) :=
  c4_pwl_subinterval_integral [0,1,2] [0,1] [1,3] (1/2) (3/2)
    (by norm_num [List.chain'_cons]) (by with_unfolding_all decide)
    (by with_unfolding_all decide) (by with_unfolding_all decide)
    (by with_unfolding_all decide) (by with_unfolding_all decide)
    (by with_unfolding_all decide)


/-- C7: for every discrete weighted function with at least three points,
`integral(None)` returns the sum of `y` over the interior points
(excluding the first and last entries) divided by the sum of `mp` over
the same interior range. -/
theorem c7_disc_integral_none :
    ∀ (x y mp : List ℚ),
      3 ≤ x.length → y.length = x.length → mp.length = x.length →
      DiscreteFunction.integral ⟨x, y, mp⟩ .none
        = .ok ((∑ i in Finset.Ico 1 (x.length - 1), y.getD i 0)
             / (∑ i in Finset.Ico 1 (x.length - 1), mp.getD i 0)) := by
  intro x y mp hx hy hmp
  simp only [DiscreteFunction.integral]
  rw [pyslice_one_negOne y (by omega), pyslice_one_negOne mp (by omega),
    drop_take_map y 1 (y.length - 1 - 1) (by omega),
    drop_take_map mp 1 (mp.length - 1 - 1) (by omega),
    sum_map_range, sum_map_range,
    Finset.sum_Ico_eq_sum_range, Finset.sum_Ico_eq_sum_range]
  have h1 : y.length - 1 - 1 = x.length - 1 - 1 := by omega
  have h2 : mp.length - 1 - 1 = x.length - 1 - 1 := by omega
  rw [h1, h2]

/-- C7 witness: the interior-weighted mean evaluated on the concrete
function `x=[0,1,2,3,4]`, `y=[0,1,1,1,0]`, `mp=[1,2,1,2,1]`. -/
theorem c7_disc_integral_none_witness :
    DiscreteFunction.integral ⟨[0,1,2,3,4], [0,1,1,1,0], [1,2,1,2,1]⟩ .none
      = .ok ((∑ i in Finset.Ico 1 (List.length [(0:ℚ),1,2,3,4] - 1),
            List.getD [(0:ℚ),1,1,1,0] i 0)
           / (∑ i in Finset.Ico 1 (List.length [(0:ℚ),1,2,3,4] - 1),
            List.getD [(1:ℚ),2,1,2,1] i 0)) :=
  c7_disc_integral_none [0,1,2,3,4] [0,1,1,1,0] [1,2,1,2,1]
    (by with_unfolding_all decide) (by with_unfolding_all decide)
    (by with_unfolding_all decide)

/-- C10: for every discrete weighted function and every interval argument
shape (`None`, one pair, or a sequence of pairs), `avrg(interval)` returns
exactly `integral(interval)` - the discrete average is the
multiplicity-weighted mean itself, with no further normalization. -/
theorem c10_disc_avrg_eq_integral :
    ∀ (f : DiscreteFunction) (ival : Interval),
      DiscreteFunction.avrg f ival = DiscreteFunction.integral f ival := by
  intro f ival
  rfl

/-- C3 (amended): for every piece-wise constant and piece-wise linear
function whose whole-domain average exists and whose domain has nonzero
length, `integral(None) = avrg(None) * (x[-1]-x[0])` exactly; for
discrete weighted functions `avrg(None)` instead equals `integral(None)`
itself (no length factor), since `avrg` simply forwards to `integral`. -/
theorem c3_integral_avrg_relation :
    (∀ (x y : List ℚ) (v : ℚ),
      PieceWiseConstFunc.avrg ⟨x, y⟩ .none = .ok v →
      x.getD (x.length - 1) 0 - x.getD 0 0 ≠ 0 →
      PieceWiseConstFunc.integral ⟨x, y⟩ .none
        = .ok (v * (x.getD (x.length - 1) 0 - x.getD 0 0)))
    ∧ (∀ (x y1 y2 : List ℚ) (v : ℚ),
      PieceWiseLinFunc.avrg ⟨x, y1, y2⟩ .none = .ok v →
      x.getD (x.length - 1) 0 - x.getD 0 0 ≠ 0 →
      PieceWiseLinFunc.integral ⟨x, y1, y2⟩ .none
        = .ok (v * (x.getD (x.length - 1) 0 - x.getD 0 0)))
    ∧ (∀ (f : DiscreteFunction),
      DiscreteFunction.avrg f .none = DiscreteFunction.integral f .none) := by
  refine ⟨?_, ?_, ?_⟩
  · intro x y v hav hd
    by_cases hx : x = []
    · subst hx
      simp [PieceWiseConstFunc.avrg, pyget, Except.bind, Bind.bind] at hav
    · have hlen : 0 < x.length := List.length_pos.mpr hx
      simp only [PieceWiseConstFunc.avrg] at hav
      rw [pyget_negOne x hx, pyget_zero x hlen] at hav
      simp only [Except.bind, Bind.bind, Except.ok.injEq] at hav
      simp only [PieceWiseConstFunc.integral, Except.ok.injEq]
      rw [← hav, div_mul_cancel₀ _ hd]
  · intro x y1 y2 v hav hd
    by_cases hx : x = []
    · subst hx
      simp [PieceWiseLinFunc.avrg, pyget, Except.bind, Bind.bind] at hav
    · have hlen : 0 < x.length := List.length_pos.mpr hx
      simp only [PieceWiseLinFunc.avrg] at hav
      rw [pyget_negOne x hx, pyget_zero x hlen] at hav
      simp only [Except.bind, Bind.bind, Except.ok.injEq] at hav
      simp only [PieceWiseLinFunc.integral, Except.ok.injEq]
      rw [← hav, div_mul_cancel₀ _ hd]
  · intro f
    rfl

/-- C3 witness: the constant part on `x=[0,2]`, `y=[3]` (average 3 over
a length-2 domain, integral 6), the linear part on `x=[0,2]`, `y1=[1]`,
`y2=[3]` (average 2, integral 4), and the discrete part on the function
`x=[0,1,2]`, `y=[0,5,0]`, `mp=[1,1,1]`. -/
theorem c3_integral_avrg_relation_witness :
    PieceWiseConstFunc.integral ⟨[0,2], [3]⟩ .none
      = .ok (3 * (List.getD [(0:ℚ),2] (List.length [(0:ℚ),2] - 1) 0 - List.getD [(0:ℚ),2] 0 0))
    ∧ PieceWiseLinFunc.integral ⟨[0,2], [1], [3]⟩ .none
      = .ok (2 * (List.getD [(0:ℚ),2] (List.length [(0:ℚ),2] - 1) 0 - List.getD [(0:ℚ),2] 0 0))
    ∧ DiscreteFunction.avrg ⟨[0,1,2], [0,5,0], [1,1,1]⟩ .none
      = DiscreteFunction.integral ⟨[0,1,2], [0,5,0], [1,1,1]⟩ .none :=
  ⟨c3_integral_avrg_relation.1 [0,2] [3] 3
      (by with_unfolding_all decide) (by with_unfolding_all decide),
   c3_integral_avrg_relation.2.1 [0,2] [1] [3] 2
      (by with_unfolding_all decide) (by with_unfolding_all decide),
   c3_integral_avrg_relation.2.2 ⟨[0,1,2], [0,5,0], [1,1,1]⟩⟩

/-- C3 counterexample: for the discrete weighted function `x=[0,1,2,3,4]`,
`y=[0,1,1,1,0]`, `mp=[1,1,1,1,1]`, both `integral(None)` and `avrg(None)`
are 1, but `avrg(None)*(x[-1]-x[0]) = 1*4 = 4 ≠ 1`, so the claim's
identity fails for the discrete kind. -/
theorem c3_counterexample :
    DiscreteFunction.integral ⟨[0,1,2,3,4], [0,1,1,1,0], [1,1,1,1,1]⟩ .none = .ok 1
    ∧ DiscreteFunction.avrg ⟨[0,1,2,3,4], [0,1,1,1,0], [1,1,1,1,1]⟩ .none = .ok 1
    ∧ (1 : ℚ) ≠ 1 * (4 - 0) := by
  refine ⟨?_, ?_, ?_⟩ <;> with_unfolding_all decide


theorem pwc_avrgSeqLoop_spec (f : PieceWiseConstFunc) (I : ℚ × ℚ → ℚ) :
    ∀ (ps : List (ℚ × ℚ)) (acc len : ℚ),
      (∀ p ∈ ps, f.integralPair p.1 p.2 = .ok (I p)) →
      f.avrgSeqLoop ps acc len
        = .ok (acc + (ps.map I).sum, len + (ps.map (fun p => p.2 - p.1)).sum) := by
  intro ps
  induction ps with
  | nil =>
    intro acc len _
    simp [PieceWiseConstFunc.avrgSeqLoop]
  | cons p rest ih =>
    intro acc len h
    simp only [PieceWiseConstFunc.avrgSeqLoop]
    rw [h p (by simp)]
    simp only [Except.bind, Bind.bind]
    rw [ih (acc + I p) (len + (p.2 - p.1)) (fun q hq => h q (by simp [hq]))]
    simp only [List.map_cons, List.sum_cons, Except.ok.injEq, Prod.mk.injEq]
    constructor <;> ring

theorem pwl_avrgSeqLoop_spec (f : PieceWiseLinFunc) (I : ℚ × ℚ → ℚ) :
    ∀ (ps : List (ℚ × ℚ)) (acc len : ℚ),
      (∀ p ∈ ps, f.integralPair p.1 p.2 = .ok (I p)) →
      f.avrgSeqLoop ps acc len
        = .ok (acc + (ps.map I).sum, len + (ps.map (fun p => p.2 - p.1)).sum) := by
  intro ps
  induction ps with
  | nil =>
    intro acc len _
    simp [PieceWiseLinFunc.avrgSeqLoop]
  | cons p rest ih =>
    intro acc len h
    simp only [PieceWiseLinFunc.avrgSeqLoop]
    rw [h p (by simp)]
    simp only [Except.bind, Bind.bind]
    rw [ih (acc + I p) (len + (p.2 - p.1)) (fun q hq => h q (by simp [hq]))]
    simp only [List.map_cons, List.sum_cons, Except.ok.injEq, Prod.mk.injEq]
    constructor <;> ring

/-- C6: for every piece-wise constant or piece-wise linear function and
every non-empty sequence of interval pairs whose individual integrals
succeed, `avrg(sequence)` returns the sum of the per-pair integrals
divided by the sum of the pair lengths - one weighted average with a
single division, not an average of per-interval averages. -/
theorem c6_avrg_sequence_aggregation :
    ∀ (cx cy lx ly1 ly2 : List ℚ) (ps : List (ℚ × ℚ)) (I J : ℚ × ℚ → ℚ),
      ps ≠ [] →
      (∀ p ∈ ps, PieceWiseConstFunc.integralPair ⟨cx, cy⟩ p.1 p.2 = .ok (I p)) →
      (∀ p ∈ ps, PieceWiseLinFunc.integralPair ⟨lx, ly1, ly2⟩ p.1 p.2 = .ok (J p)) →
      PieceWiseConstFunc.avrg ⟨cx, cy⟩ (.seq ps)
          = .ok ((ps.map I).sum / (ps.map (fun p => p.2 - p.1)).sum)
      ∧ PieceWiseLinFunc.avrg ⟨lx, ly1, ly2⟩ (.seq ps)
          = .ok ((ps.map J).sum / (ps.map (fun p => p.2 - p.1)).sum) := by
  intro cx cy lx ly1 ly2 ps I J hne hI hJ
  match ps, hne with
  | p :: rest, _ =>
    constructor
    · simp only [PieceWiseConstFunc.avrg]
      rw [pwc_avrgSeqLoop_spec ⟨cx, cy⟩ I (p :: rest) 0 0 hI]
      simp only [Except.bind, Bind.bind, zero_add]
    · simp only [PieceWiseLinFunc.avrg]
      rw [pwl_avrgSeqLoop_spec ⟨lx, ly1, ly2⟩ J (p :: rest) 0 0 hJ]
      simp only [Except.bind, Bind.bind, zero_add]

/-- C6 witness: the aggregation applied to the constant function
`x=[0,1,2,3]`, `y=[1,2,3]`, the linear function `x=[0,1,2]`, `y1=[0,1]`,
`y2=[1,3]`, and the two intervals `[0.5, 1.5]` and `[1.5, 2]`, with the
per-pair integral values read back from the embedded integrals. -/
theorem c6_avrg_sequence_aggregation_witness :
    PieceWiseConstFunc.avrg ⟨[0,1,2,3], [1,2,3]⟩ (.seq [(mkRat 1 2, mkRat 3 2), (mkRat 3 2, 2)])
        = .ok ((([(mkRat 1 2, mkRat 3 2), (mkRat 3 2, 2)]).map
            (fun p => (PieceWiseConstFunc.integralPair ⟨[0,1,2,3], [1,2,3]⟩ p.1 p.2).toOption.getD 0)).sum
          / (([(mkRat 1 2, mkRat 3 2), (mkRat 3 2, 2)]).map (fun p => p.2 - p.1)).sum)
    ∧ PieceWiseLinFunc.avrg ⟨[0,1,2], [0,1], [1,3]⟩ (.seq [(mkRat 1 2, mkRat 3 2), (mkRat 3 2, 2)])
        = .ok ((([(mkRat 1 2, mkRat 3 2), (mkRat 3 2, 2)]).map
            (fun p => (PieceWiseLinFunc.integralPair ⟨[0,1,2], [0,1], [1,3]⟩ p.1 p.2).toOption.getD 0)).sum
          / (([(mkRat 1 2, mkRat 3 2), (mkRat 3 2, 2)]).map (fun p => p.2 - p.1)).sum) :=
  c6_avrg_sequence_aggregation [0,1,2,3] [1,2,3] [0,1,2] [0,1] [1,3]
    [(mkRat 1 2, mkRat 3 2), (mkRat 3 2, 2)]
    (fun p => (PieceWiseConstFunc.integralPair ⟨[0,1,2,3], [1,2,3]⟩ p.1 p.2).toOption.getD 0)
    (fun p => (PieceWiseLinFunc.integralPair ⟨[0,1,2], [0,1], [1,3]⟩ p.1 p.2).toOption.getD 0)
    (by with_unfolding_all decide)
    (by with_unfolding_all decide)
    (by with_unfolding_all decide)


theorem sideAcc_eq_claimSide (own expected : ℚ) :
    ∀ (pairs : List (ℚ × ℚ)) (a b c : ℚ),
      sideAcc pairs expected (c + a) (own + b)
        = (c + (claimSide pairs own expected a b).1,
           own + (claimSide pairs own expected a b).2) := by
  intro pairs
  induction pairs with
  | nil =>
    intro a b c
    simp [sideAcc, claimSide]
  | cons p rest ih =>
    intro a b c
    obtain ⟨yj, mpj⟩ := p
    simp only [sideAcc, claimSide]
    by_cases hc : own + b + mpj < expected
    · rw [if_pos hc, if_pos hc]
      have h1 : c + a + yj = c + (a + yj) := by ring
      have h2 : own + b + mpj = own + (b + mpj) := by ring
      rw [h1, h2, ih (a + yj) (b + mpj) c]
    · rw [if_neg hc, if_neg hc]
      simp only [Prod.mk.injEq]
      constructor <;> ring

theorem smoothAt_eq_claim (x y mp : List ℚ) (expected : ℚ) (i : ℕ) :
    DiscreteFunction.smoothAt ⟨x, y, mp⟩ expected i
      = claimSmoothAt y mp expected i := by
  simp only [DiscreteFunction.smoothAt, claimSmoothAt]
  by_cases hc : expected ≤ mp.getD i 0
  · rw [if_pos hc, if_pos hc]
  · rw [if_neg hc, if_neg hc]
    have hr := sideAcc_eq_claimSide (mp.getD i 0) expected
      ((y.zip mp).drop (i+1)) 0 0 (y.getD i 0)
    rw [add_zero, add_zero] at hr
    rw [hr]
    have hl := sideAcc_eq_claimSide (mp.getD i 0) expected
      (((y.zip mp).take i).reverse) 0 0
      (y.getD i 0 + (claimSide ((y.zip mp).drop (i+1)) (mp.getD i 0) expected 0 0).1)
    rw [add_zero, add_zero] at hl
    rw [hl]
    congr 1
    · ring
    · ring

/-- C5 (amended): for every discrete weighted function and window size
`k > 0`, `get_plottable_data` keeps the x array and computes each output
value by the claim's window expansion with target multiplicity
`expected_mp = (k+1) * int(mp[0])` - i.e. `mp[0]` truncated to an
integer, the one deviation from the claim as written: if
`mp[i] >= expected_mp` the output is `y[i]/mp[i]`, otherwise each side
accumulates full neighbors while below `expected_mp`, takes the
fractional contribution `y[j]*(expected_mp-acc)/mp[j]` from the crossing
neighbor, stops silently at the array ends, and the output is the
accumulated value over the accumulated multiplicity with the own
multiplicity counted once. -/
theorem c5_smoothing_window :
    ∀ (x y mp : List ℚ) (k : ℕ),
      0 < k →
      (DiscreteFunction.get_plottable_data ⟨x, y, mp⟩ k).1 = x
      ∧ (DiscreteFunction.get_plottable_data ⟨x, y, mp⟩ k).2
        = (List.range y.length).map (fun i =>
            claimSmoothAt y mp (((k:ℚ) + 1) * (pyint (mp.getD 0 0) : ℚ)) i) := by
  intro x y mp k hk
  constructor
  · simp [DiscreteFunction.get_plottable_data, hk]
  · simp only [DiscreteFunction.get_plottable_data, if_pos hk]
    apply List.map_congr_left
    intro i _
    exact smoothAt_eq_claim x y mp (((k:ℚ) + 1) * (pyint (mp.getD 0 0) : ℚ)) i

/-- C5 witness: the smoothing applied to the spec's concrete scenario
`x=[0,1,2,3,4]`, `y=[0,1,1,1,0]`, `mp=[1,1,1,1,1]` with window `k=1`. -/
theorem c5_smoothing_window_witness :
    (DiscreteFunction.get_plottable_data ⟨[0,1,2,3,4], [0,1,1,1,0], [1,1,1,1,1]⟩ 1).1
        = [0,1,2,3,4]
    ∧ (DiscreteFunction.get_plottable_data ⟨[0,1,2,3,4], [0,1,1,1,0], [1,1,1,1,1]⟩ 1).2
        = (List.range (List.length [(0:ℚ),1,1,1,0])).map (fun i =>
            claimSmoothAt [0,1,1,1,0] [1,1,1,1,1]
              ((((1:ℕ):ℚ) + 1) * (pyint (List.getD [(1:ℚ),1,1,1,1] 0 0) : ℚ)) i) :=
  c5_smoothing_window [0,1,2,3,4] [0,1,1,1,0] [1,1,1,1,1] 1 (by decide)

/-- C5 counterexample: for `y=[0,3,0]`, `mp=[1.5,1.5,1.5]`, `k=1` the code
uses `expected_mp = (k+1)*int(1.5) = 2` and outputs `1/2` at index 0,
while the claim's `expected_mp = (k+1)*mp[0] = 3` would give 1, so the
output differs from the claim's formula with the untruncated target. -/
theorem c5_counterexample :
    (DiscreteFunction.get_plottable_data
        ⟨[0,1,2], [0,3,0], [mkRat 3 2, mkRat 3 2, mkRat 3 2]⟩ 1).2
      ≠ (List.range (List.length [(0:ℚ),3,0])).map (fun i =>
          claimSmoothAt [0,3,0] [mkRat 3 2, mkRat 3 2, mkRat 3 2]
            ((((1:ℕ):ℚ) + 1) * List.getD [mkRat 3 2, mkRat 3 2, mkRat 3 2] 0 0) i) := by
  with_unfolding_all decide


/-! ## Heap lemmas -/

theorem Heap.length_write (h : Heap) (i : ℕ) (v : List ℚ) :
    (h.write i v).arrs.length = h.arrs.length := by
  simp [Heap.write]

theorem Heap.length_alloc (h : Heap) (v : List ℚ) :
    (h.alloc v).1.arrs.length = h.arrs.length + 1 := by
  simp [Heap.alloc]

theorem Heap.read_write_ne (h : Heap) (i j : ℕ) (v : List ℚ) (hij : j ≠ i) :
    (h.write i v).read j = h.read j := by
  simp [Heap.write, Heap.read, List.getD_eq_getElem?_getD,
    List.getElem?_set_ne (by omega : i ≠ j)]

theorem Heap.read_alloc_old (h : Heap) (v : List ℚ) (i : ℕ) (hi : i < h.arrs.length) :
    (h.alloc v).1.read i = h.read i := by
  simp [Heap.alloc, Heap.read, List.getD_eq_getElem?_getD,
    List.getElem?_append_left hi]

theorem Heap.read_alloc_new (h : Heap) (v : List ℚ) :
    (h.alloc v).1.read h.arrs.length = v := by
  simp only [Heap.alloc, Heap.read, List.getD_eq_getElem?_getD]
  rw [List.getElem?_append_right (le_refl _)]
  simp

theorem pwcAdd_preserves (h : Heap) (o g : PwcObj)
    (impl : List ℚ → List ℚ → List ℚ → List ℚ → List ℚ × List ℚ)
    (r : Heap × PwcObj) (hr : PwcObj.add h o g impl = .ok r)
    (i : ℕ) (hi : i < h.arrs.length) : r.1.read i = h.read i := by
  unfold PwcObj.add at hr
  split at hr
  · exact (Except.noConfusion hr)
  · exact (Except.noConfusion hr)
  · split at hr
    · split at hr
      · exact (Except.noConfusion hr)
      · exact (Except.noConfusion hr)
      · split at hr
        · injection hr with h1
          subst h1
          rw [Heap.read_alloc_old _ _ i (by rw [Heap.length_alloc]; omega),
            Heap.read_alloc_old _ _ i hi]
        · exact (Except.noConfusion hr)
    · exact (Except.noConfusion hr)

theorem pwlAdd_preserves (h : Heap) (o g : PwlObj)
    (impl : List ℚ → List ℚ → List ℚ → List ℚ → List ℚ → List ℚ →
      List ℚ × List ℚ × List ℚ)
    (r : Heap × PwlObj) (hr : PwlObj.add h o g impl = .ok r)
    (i : ℕ) (hi : i < h.arrs.length) : r.1.read i = h.read i := by
  unfold PwlObj.add at hr
  split at hr
  · exact (Except.noConfusion hr)
  · exact (Except.noConfusion hr)
  · split at hr
    · split at hr
      · exact (Except.noConfusion hr)
      · exact (Except.noConfusion hr)
      · split at hr
        · injection hr with h1
          subst h1
          rw [Heap.read_alloc_old _ _ i
              (by rw [Heap.length_alloc, Heap.length_alloc]; omega),
            Heap.read_alloc_old _ _ i (by rw [Heap.length_alloc]; omega),
            Heap.read_alloc_old _ _ i hi]
        · exact (Except.noConfusion hr)
    · exact (Except.noConfusion hr)

theorem discAdd_preserves (h : Heap) (o g : DiscObj)
    (impl : List ℚ → List ℚ → List ℚ → List ℚ → List ℚ → List ℚ →
      List ℚ × List ℚ × List ℚ)
    (r : Heap × DiscObj) (hr : DiscObj.add h o g impl = .ok r)
    (i : ℕ) (hi : i < h.arrs.length) : r.1.read i = h.read i := by
  unfold DiscObj.add at hr
  split at hr
  · exact (Except.noConfusion hr)
  · exact (Except.noConfusion hr)
  · split at hr
    · split at hr
      · exact (Except.noConfusion hr)
      · exact (Except.noConfusion hr)
      · split at hr
        · injection hr with h1
          subst h1
          rw [Heap.read_alloc_old _ _ i
              (by rw [Heap.length_alloc, Heap.length_alloc]; omega),
            Heap.read_alloc_old _ _ i (by rw [Heap.length_alloc]; omega),
            Heap.read_alloc_old _ _ i hi]
        · exact (Except.noConfusion hr)
    · exact (Except.noConfusion hr)


theorem allclose_self (u : List ℚ) (eps : ℚ) (h : 0 ≤ eps) : allclose u u eps = true := by
  simp only [allclose, beq_self_eq_true, Bool.true_and]
  induction u with
  | nil => rfl
  | cons a t ih =>
    simp only [List.zipWith_cons_cons, List.all_cons, ih, Bool.and_true, id_eq,
      decide_eq_true_eq, sub_self, abs_zero]
    exact h

theorem pwc_copy_spec (h : Heap) (o : PwcObj) :
    PwcObj.copy h o
      = (((h.alloc (h.read o.xId)).1.alloc (h.read o.yId)).1,
         ⟨h.arrs.length, h.arrs.length + 1⟩) := by
  simp [PwcObj.copy, PwcObj.init, Heap.alloc]

theorem pwc_copy_reads (h : Heap) (o : PwcObj)
    (hx : o.xId < h.arrs.length) (hy : o.yId < h.arrs.length) :
    (PwcObj.copy h o).1.read o.xId = h.read o.xId
    ∧ (PwcObj.copy h o).1.read o.yId = h.read o.yId
    ∧ (PwcObj.copy h o).1.read (PwcObj.copy h o).2.xId = h.read o.xId
    ∧ (PwcObj.copy h o).1.read (PwcObj.copy h o).2.yId = h.read o.yId
    ∧ (PwcObj.copy h o).1.arrs.length = h.arrs.length + 2 := by
  rw [pwc_copy_spec]
  have l1 : (h.alloc (h.read o.xId)).1.arrs.length = h.arrs.length + 1 :=
    Heap.length_alloc _ _
  refine ⟨?_, ?_, ?_, ?_, ?_⟩
  · rw [Heap.read_alloc_old _ _ o.xId (by omega), Heap.read_alloc_old _ _ o.xId hx]
  · rw [Heap.read_alloc_old _ _ o.yId (by omega), Heap.read_alloc_old _ _ o.yId hy]
  · show ((h.alloc (h.read o.xId)).1.alloc (h.read o.yId)).1.read h.arrs.length
      = h.read o.xId
    rw [Heap.read_alloc_old _ _ h.arrs.length (by omega), Heap.read_alloc_new]
  · show ((h.alloc (h.read o.xId)).1.alloc (h.read o.yId)).1.read (h.arrs.length + 1)
      = h.read o.yId
    rw [show h.arrs.length + 1 = (h.alloc (h.read o.xId)).1.arrs.length from l1.symm,
      Heap.read_alloc_new]
  · rw [Heap.length_alloc, l1]


theorem pwl_copy_spec (h : Heap) (o : PwlObj) :
    PwlObj.copy h o
      = ((((h.alloc (h.read o.xId)).1.alloc (h.read o.y1Id)).1.alloc
            (h.read o.y2Id)).1,
         ⟨h.arrs.length, h.arrs.length + 1, h.arrs.length + 2⟩) := by
  simp [PwlObj.copy, PwlObj.init, Heap.alloc]

theorem pwl_copy_reads (h : Heap) (o : PwlObj)
    (hx : o.xId < h.arrs.length) (h1 : o.y1Id < h.arrs.length)
    (h2 : o.y2Id < h.arrs.length) :
    (PwlObj.copy h o).1.read o.xId = h.read o.xId
    ∧ (PwlObj.copy h o).1.read o.y1Id = h.read o.y1Id
    ∧ (PwlObj.copy h o).1.read o.y2Id = h.read o.y2Id
    ∧ (PwlObj.copy h o).1.read (PwlObj.copy h o).2.xId = h.read o.xId
    ∧ (PwlObj.copy h o).1.read (PwlObj.copy h o).2.y1Id = h.read o.y1Id
    ∧ (PwlObj.copy h o).1.read (PwlObj.copy h o).2.y2Id = h.read o.y2Id
    ∧ (PwlObj.copy h o).1.arrs.length = h.arrs.length + 3 := by
  rw [pwl_copy_spec]
  have l1 : (h.alloc (h.read o.xId)).1.arrs.length = h.arrs.length + 1 :=
    Heap.length_alloc _ _
  have l2 : ((h.alloc (h.read o.xId)).1.alloc (h.read o.y1Id)).1.arrs.length
      = h.arrs.length + 2 := by
    rw [Heap.length_alloc, l1]
  refine ⟨?_, ?_, ?_, ?_, ?_, ?_, ?_⟩
  · rw [Heap.read_alloc_old _ _ o.xId (by omega), Heap.read_alloc_old _ _ o.xId (by omega),
      Heap.read_alloc_old _ _ o.xId hx]
  · rw [Heap.read_alloc_old _ _ o.y1Id (by omega), Heap.read_alloc_old _ _ o.y1Id (by omega),
      Heap.read_alloc_old _ _ o.y1Id h1]
  · rw [Heap.read_alloc_old _ _ o.y2Id (by omega), Heap.read_alloc_old _ _ o.y2Id (by omega),
      Heap.read_alloc_old _ _ o.y2Id h2]
  · show (((h.alloc (h.read o.xId)).1.alloc (h.read o.y1Id)).1.alloc
        (h.read o.y2Id)).1.read h.arrs.length = h.read o.xId
    rw [Heap.read_alloc_old _ _ h.arrs.length (by omega),
      Heap.read_alloc_old _ _ h.arrs.length (by omega), Heap.read_alloc_new]
  · show (((h.alloc (h.read o.xId)).1.alloc (h.read o.y1Id)).1.alloc
        (h.read o.y2Id)).1.read (h.arrs.length + 1) = h.read o.y1Id
    rw [Heap.read_alloc_old _ _ (h.arrs.length + 1) (by omega),
      show h.arrs.length + 1 = (h.alloc (h.read o.xId)).1.arrs.length from l1.symm,
      Heap.read_alloc_new]
  · show (((h.alloc (h.read o.xId)).1.alloc (h.read o.y1Id)).1.alloc
        (h.read o.y2Id)).1.read (h.arrs.length + 2) = h.read o.y2Id
    rw [show h.arrs.length + 2
        = ((h.alloc (h.read o.xId)).1.alloc (h.read o.y1Id)).1.arrs.length from l2.symm,
      Heap.read_alloc_new]
  · rw [Heap.length_alloc, l2]

theorem disc_copy_spec (h : Heap) (o : DiscObj) :
    DiscObj.copy h o
      = ((((h.alloc (h.read o.xId)).1.alloc (h.read o.yId)).1.alloc
            (h.read o.mpId)).1,
         ⟨h.arrs.length, h.arrs.length + 1, h.arrs.length + 2⟩) := by
  simp [DiscObj.copy, DiscObj.init, Heap.alloc]

theorem disc_copy_reads (h : Heap) (o : DiscObj)
    (hx : o.xId < h.arrs.length) (h1 : o.yId < h.arrs.length)
    (h2 : o.mpId < h.arrs.length) :
    (DiscObj.copy h o).1.read o.xId = h.read o.xId
    ∧ (DiscObj.copy h o).1.read o.yId = h.read o.yId
    ∧ (DiscObj.copy h o).1.read o.mpId = h.read o.mpId
    ∧ (DiscObj.copy h o).1.read (DiscObj.copy h o).2.xId = h.read o.xId
    ∧ (DiscObj.copy h o).1.read (DiscObj.copy h o).2.yId = h.read o.yId
    ∧ (DiscObj.copy h o).1.read (DiscObj.copy h o).2.mpId = h.read o.mpId
    ∧ (DiscObj.copy h o).1.arrs.length = h.arrs.length + 3 := by
  rw [disc_copy_spec]
  have l1 : (h.alloc (h.read o.xId)).1.arrs.length = h.arrs.length + 1 :=
    Heap.length_alloc _ _
  have l2 : ((h.alloc (h.read o.xId)).1.alloc (h.read o.yId)).1.arrs.length
      = h.arrs.length + 2 := by
    rw [Heap.length_alloc, l1]
  refine ⟨?_, ?_, ?_, ?_, ?_, ?_, ?_⟩
  · rw [Heap.read_alloc_old _ _ o.xId (by omega), Heap.read_alloc_old _ _ o.xId (by omega),
      Heap.read_alloc_old _ _ o.xId hx]
  · rw [Heap.read_alloc_old _ _ o.yId (by omega), Heap.read_alloc_old _ _ o.yId (by omega),
      Heap.read_alloc_old _ _ o.yId h1]
  · rw [Heap.read_alloc_old _ _ o.mpId (by omega), Heap.read_alloc_old _ _ o.mpId (by omega),
      Heap.read_alloc_old _ _ o.mpId h2]
  · show (((h.alloc (h.read o.xId)).1.alloc (h.read o.yId)).1.alloc
        (h.read o.mpId)).1.read h.arrs.length = h.read o.xId
    rw [Heap.read_alloc_old _ _ h.arrs.length (by omega),
      Heap.read_alloc_old _ _ h.arrs.length (by omega), Heap.read_alloc_new]
  · show (((h.alloc (h.read o.xId)).1.alloc (h.read o.yId)).1.alloc
        (h.read o.mpId)).1.read (h.arrs.length + 1) = h.read o.yId
    rw [Heap.read_alloc_old _ _ (h.arrs.length + 1) (by omega),
      show h.arrs.length + 1 = (h.alloc (h.read o.xId)).1.arrs.length from l1.symm,
      Heap.read_alloc_new]
  · show (((h.alloc (h.read o.xId)).1.alloc (h.read o.yId)).1.alloc
        (h.read o.mpId)).1.read (h.arrs.length + 2) = h.read o.mpId
    rw [show h.arrs.length + 2
        = ((h.alloc (h.read o.xId)).1.alloc (h.read o.yId)).1.arrs.length from l2.symm,
      Heap.read_alloc_new]
  · rw [Heap.length_alloc, l2]

/-- C9: for every function of any of the three kinds (modelled as heap
objects over numpy-array storage), `copy()` yields an instance that is
`almost_equal` to the original and structurally independent, because the
constructor copies the supplied arrays into fresh storage: mutating the
copy via `mul_scalar` or `add` leaves the original's arrays unchanged
and mutating the original leaves the copy's arrays unchanged (the
`exMap` equations state this for `add` whether or not its domain assert
passes). -/
theorem c9_copy_independence :
    ∀ (h : Heap) (o g : PwcObj) (ol gl : PwlObj) (od gd : DiscObj) (fac : ℚ)
      (implC : List ℚ → List ℚ → List ℚ → List ℚ → List ℚ × List ℚ)
      (implL implD : List ℚ → List ℚ → List ℚ → List ℚ → List ℚ → List ℚ →
        List ℚ × List ℚ × List ℚ),
      o.xId < h.arrs.length → o.yId < h.arrs.length →
      ol.xId < h.arrs.length → ol.y1Id < h.arrs.length → ol.y2Id < h.arrs.length →
      od.xId < h.arrs.length → od.yId < h.arrs.length → od.mpId < h.arrs.length →
      PwcObj.almost_equal (PwcObj.copy h o).1 o (PwcObj.copy h o).2 (1/10^14) = true
      ∧ (PwcObj.mul_scalar (PwcObj.copy h o).1 (PwcObj.copy h o).2 fac).read o.xId
          = h.read o.xId
      ∧ (PwcObj.mul_scalar (PwcObj.copy h o).1 (PwcObj.copy h o).2 fac).read o.yId
          = h.read o.yId
      ∧ (PwcObj.mul_scalar (PwcObj.copy h o).1 o fac).read (PwcObj.copy h o).2.xId
          = (PwcObj.copy h o).1.read (PwcObj.copy h o).2.xId
      ∧ (PwcObj.mul_scalar (PwcObj.copy h o).1 o fac).read (PwcObj.copy h o).2.yId
          = (PwcObj.copy h o).1.read (PwcObj.copy h o).2.yId
      ∧ exMap (PwcObj.add (PwcObj.copy h o).1 (PwcObj.copy h o).2 g implC)
            (fun r => r.1.read o.xId)
          = exMap (PwcObj.add (PwcObj.copy h o).1 (PwcObj.copy h o).2 g implC)
            (fun _ => h.read o.xId)
      ∧ exMap (PwcObj.add (PwcObj.copy h o).1 (PwcObj.copy h o).2 g implC)
            (fun r => r.1.read o.yId)
          = exMap (PwcObj.add (PwcObj.copy h o).1 (PwcObj.copy h o).2 g implC)
            (fun _ => h.read o.yId)
      ∧ exMap (PwcObj.add (PwcObj.copy h o).1 o g implC)
            (fun r => r.1.read (PwcObj.copy h o).2.xId)
          = exMap (PwcObj.add (PwcObj.copy h o).1 o g implC)
            (fun _ => (PwcObj.copy h o).1.read (PwcObj.copy h o).2.xId)
      ∧ exMap (PwcObj.add (PwcObj.copy h o).1 o g implC)
            (fun r => r.1.read (PwcObj.copy h o).2.yId)
          = exMap (PwcObj.add (PwcObj.copy h o).1 o g implC)
            (fun _ => (PwcObj.copy h o).1.read (PwcObj.copy h o).2.yId)
      ∧ PwlObj.almost_equal (PwlObj.copy h ol).1 ol (PwlObj.copy h ol).2 (1/10^14) = true
      ∧ (PwlObj.mul_scalar (PwlObj.copy h ol).1 (PwlObj.copy h ol).2 fac).read ol.xId
          = h.read ol.xId
      ∧ (PwlObj.mul_scalar (PwlObj.copy h ol).1 (PwlObj.copy h ol).2 fac).read ol.y1Id
          = h.read ol.y1Id
      ∧ (PwlObj.mul_scalar (PwlObj.copy h ol).1 (PwlObj.copy h ol).2 fac).read ol.y2Id
          = h.read ol.y2Id
      ∧ (PwlObj.mul_scalar (PwlObj.copy h ol).1 ol fac).read (PwlObj.copy h ol).2.xId
          = (PwlObj.copy h ol).1.read (PwlObj.copy h ol).2.xId
      ∧ (PwlObj.mul_scalar (PwlObj.copy h ol).1 ol fac).read (PwlObj.copy h ol).2.y1Id
          = (PwlObj.copy h ol).1.read (PwlObj.copy h ol).2.y1Id
      ∧ (PwlObj.mul_scalar (PwlObj.copy h ol).1 ol fac).read (PwlObj.copy h ol).2.y2Id
          = (PwlObj.copy h ol).1.read (PwlObj.copy h ol).2.y2Id
      ∧ exMap (PwlObj.add (PwlObj.copy h ol).1 (PwlObj.copy h ol).2 gl implL)
            (fun r => r.1.read ol.xId)
          = exMap (PwlObj.add (PwlObj.copy h ol).1 (PwlObj.copy h ol).2 gl implL)
            (fun _ => h.read ol.xId)
      ∧ exMap (PwlObj.add (PwlObj.copy h ol).1 (PwlObj.copy h ol).2 gl implL)
            (fun r => r.1.read ol.y1Id)
          = exMap (PwlObj.add (PwlObj.copy h ol).1 (PwlObj.copy h ol).2 gl implL)
            (fun _ => h.read ol.y1Id)
      ∧ exMap (PwlObj.add (PwlObj.copy h ol).1 (PwlObj.copy h ol).2 gl implL)
            (fun r => r.1.read ol.y2Id)
          = exMap (PwlObj.add (PwlObj.copy h ol).1 (PwlObj.copy h ol).2 gl implL)
            (fun _ => h.read ol.y2Id)
      ∧ exMap (PwlObj.add (PwlObj.copy h ol).1 ol gl implL)
            (fun r => r.1.read (PwlObj.copy h ol).2.xId)
          = exMap (PwlObj.add (PwlObj.copy h ol).1 ol gl implL)
            (fun _ => (PwlObj.copy h ol).1.read (PwlObj.copy h ol).2.xId)
      ∧ exMap (PwlObj.add (PwlObj.copy h ol).1 ol gl implL)
            (fun r => r.1.read (PwlObj.copy h ol).2.y1Id)
          = exMap (PwlObj.add (PwlObj.copy h ol).1 ol gl implL)
            (fun _ => (PwlObj.copy h ol).1.read (PwlObj.copy h ol).2.y1Id)
      ∧ exMap (PwlObj.add (PwlObj.copy h ol).1 ol gl implL)
            (fun r => r.1.read (PwlObj.copy h ol).2.y2Id)
          = exMap (PwlObj.add (PwlObj.copy h ol).1 ol gl implL)
            (fun _ => (PwlObj.copy h ol).1.read (PwlObj.copy h ol).2.y2Id)
      ∧ DiscObj.almost_equal (DiscObj.copy h od).1 od (DiscObj.copy h od).2 (1/10^14) = true
      ∧ (DiscObj.mul_scalar (DiscObj.copy h od).1 (DiscObj.copy h od).2 fac).read od.xId
          = h.read od.xId
      ∧ (DiscObj.mul_scalar (DiscObj.copy h od).1 (DiscObj.copy h od).2 fac).read od.yId
          = h.read od.yId
      ∧ (DiscObj.mul_scalar (DiscObj.copy h od).1 (DiscObj.copy h od).2 fac).read od.mpId
          = h.read od.mpId
      ∧ (DiscObj.mul_scalar (DiscObj.copy h od).1 od fac).read (DiscObj.copy h od).2.xId
          = (DiscObj.copy h od).1.read (DiscObj.copy h od).2.xId
      ∧ (DiscObj.mul_scalar (DiscObj.copy h od).1 od fac).read (DiscObj.copy h od).2.yId
          = (DiscObj.copy h od).1.read (DiscObj.copy h od).2.yId
      ∧ (DiscObj.mul_scalar (DiscObj.copy h od).1 od fac).read (DiscObj.copy h od).2.mpId
          = (DiscObj.copy h od).1.read (DiscObj.copy h od).2.mpId
      ∧ exMap (DiscObj.add (DiscObj.copy h od).1 (DiscObj.copy h od).2 gd implD)
            (fun r => r.1.read od.xId)
          = exMap (DiscObj.add (DiscObj.copy h od).1 (DiscObj.copy h od).2 gd implD)
            (fun _ => h.read od.xId)
      ∧ exMap (DiscObj.add (DiscObj.copy h od).1 (DiscObj.copy h od).2 gd implD)
            (fun r => r.1.read od.yId)
          = exMap (DiscObj.add (DiscObj.copy h od).1 (DiscObj.copy h od).2 gd implD)
            (fun _ => h.read od.yId)
      ∧ exMap (DiscObj.add (DiscObj.copy h od).1 (DiscObj.copy h od).2 gd implD)
            (fun r => r.1.read od.mpId)
          = exMap (DiscObj.add (DiscObj.copy h od).1 (DiscObj.copy h od).2 gd implD)
            (fun _ => h.read od.mpId)
      ∧ exMap (DiscObj.add (DiscObj.copy h od).1 od gd implD)
            (fun r => r.1.read (DiscObj.copy h od).2.xId)
          = exMap (DiscObj.add (DiscObj.copy h od).1 od gd implD)
            (fun _ => (DiscObj.copy h od).1.read (DiscObj.copy h od).2.xId)
      ∧ exMap (DiscObj.add (DiscObj.copy h od).1 od gd implD)
            (fun r => r.1.read (DiscObj.copy h od).2.yId)
          = exMap (DiscObj.add (DiscObj.copy h od).1 od gd implD)
            (fun _ => (DiscObj.copy h od).1.read (DiscObj.copy h od).2.yId)
      ∧ exMap (DiscObj.add (DiscObj.copy h od).1 od gd implD)
            (fun r => r.1.read (DiscObj.copy h od).2.mpId)
          = exMap (DiscObj.add (DiscObj.copy h od).1 od gd implD)
            (fun _ => (DiscObj.copy h od).1.read (DiscObj.copy h od).2.mpId) := by
  intro h o g ol gl od gd fac implC implL implD hx hy lx l1 l2 dx dy dm
  have hrc := pwc_copy_reads h o hx hy
  have hrl := pwl_copy_reads h ol lx l1 l2
  have hrd := disc_copy_reads h od dx dy dm
  obtain ⟨c1, c2, c3, c4, c5⟩ := hrc
  obtain ⟨p1, p2, p3, p4, p5, p6, p7⟩ := hrl
  obtain ⟨d1, d2, d3, d4, d5, d6, d7⟩ := hrd
  rw [pwc_copy_spec] at c1 c2 c3 c4 c5 ⊢
  rw [pwl_copy_spec] at p1 p2 p3 p4 p5 p6 p7 ⊢
  rw [disc_copy_spec] at d1 d2 d3 d4 d5 d6 d7 ⊢
  refine ⟨?_, ?_, ?_, ?_, ?_, ?_, ?_, ?_, ?_, ?_, ?_, ?_, ?_, ?_, ?_, ?_, ?_,
    ?_, ?_, ?_, ?_, ?_, ?_, ?_, ?_, ?_, ?_, ?_, ?_, ?_, ?_, ?_, ?_, ?_, ?_⟩
  · simp only [PwcObj.almost_equal]
    rw [c1, c3, c2, c4, allclose_self _ _ (by norm_num),
      allclose_self _ _ (by norm_num)]
    rfl
  · simp only [PwcObj.mul_scalar]
    rw [Heap.read_write_ne _ _ _ _ (by omega)]
    exact c1
  · simp only [PwcObj.mul_scalar]
    rw [Heap.read_write_ne _ _ _ _ (by omega)]
    exact c2
  · simp only [PwcObj.mul_scalar]
    rw [Heap.read_write_ne _ _ _ _ (by omega)]
  · simp only [PwcObj.mul_scalar]
    rw [Heap.read_write_ne _ _ _ _ (by omega)]
  · cases hadd : PwcObj.add _ ⟨h.arrs.length, h.arrs.length + 1⟩ g implC with
    | error e => simp [exMap, hadd, Except.toOption]
    | ok r =>
      simp only [exMap, hadd, Except.toOption, Option.map]
      rw [pwcAdd_preserves _ _ _ _ r hadd o.xId (by rw [c5]; omega), c1]
  · cases hadd : PwcObj.add _ ⟨h.arrs.length, h.arrs.length + 1⟩ g implC with
    | error e => simp [exMap, hadd, Except.toOption]
    | ok r =>
      simp only [exMap, hadd, Except.toOption, Option.map]
      rw [pwcAdd_preserves _ _ _ _ r hadd o.yId (by rw [c5]; omega), c2]
  · cases hadd : PwcObj.add _ o g implC with
    | error e => simp [exMap, hadd, Except.toOption]
    | ok r =>
      simp only [exMap, hadd, Except.toOption, Option.map]
      rw [pwcAdd_preserves _ _ _ _ r hadd h.arrs.length (by rw [c5]; omega)]
  · cases hadd : PwcObj.add _ o g implC with
    | error e => simp [exMap, hadd, Except.toOption]
    | ok r =>
      simp only [exMap, hadd, Except.toOption, Option.map]
      rw [pwcAdd_preserves _ _ _ _ r hadd (h.arrs.length + 1) (by rw [c5]; omega)]
  · simp only [PwlObj.almost_equal]
    rw [p1, p4, p2, p5, p3, p6, allclose_self _ _ (by norm_num),
      allclose_self _ _ (by norm_num), allclose_self _ _ (by norm_num)]
    rfl
  · simp only [PwlObj.mul_scalar]
    rw [Heap.read_write_ne _ _ _ _ (by omega), Heap.read_write_ne _ _ _ _ (by omega)]
    exact p1
  · simp only [PwlObj.mul_scalar]
    rw [Heap.read_write_ne _ _ _ _ (by omega), Heap.read_write_ne _ _ _ _ (by omega)]
    exact p2
  · simp only [PwlObj.mul_scalar]
    rw [Heap.read_write_ne _ _ _ _ (by omega), Heap.read_write_ne _ _ _ _ (by omega)]
    exact p3
  · simp only [PwlObj.mul_scalar]
    rw [Heap.read_write_ne _ _ _ _ (by omega), Heap.read_write_ne _ _ _ _ (by omega)]
  · simp only [PwlObj.mul_scalar]
    rw [Heap.read_write_ne _ _ _ _ (by omega), Heap.read_write_ne _ _ _ _ (by omega)]
  · simp only [PwlObj.mul_scalar]
    rw [Heap.read_write_ne _ _ _ _ (by omega), Heap.read_write_ne _ _ _ _ (by omega)]
  · cases hadd : PwlObj.add _ ⟨h.arrs.length, h.arrs.length + 1, h.arrs.length + 2⟩ gl implL with
    | error e => simp [exMap, hadd, Except.toOption]
    | ok r =>
      simp only [exMap, hadd, Except.toOption, Option.map]
      rw [pwlAdd_preserves _ _ _ _ r hadd ol.xId (by rw [p7]; omega), p1]
  · cases hadd : PwlObj.add _ ⟨h.arrs.length, h.arrs.length + 1, h.arrs.length + 2⟩ gl implL with
    | error e => simp [exMap, hadd, Except.toOption]
    | ok r =>
      simp only [exMap, hadd, Except.toOption, Option.map]
      rw [pwlAdd_preserves _ _ _ _ r hadd ol.y1Id (by rw [p7]; omega), p2]
  · cases hadd : PwlObj.add _ ⟨h.arrs.length, h.arrs.length + 1, h.arrs.length + 2⟩ gl implL with
    | error e => simp [exMap, hadd, Except.toOption]
    | ok r =>
      simp only [exMap, hadd, Except.toOption, Option.map]
      rw [pwlAdd_preserves _ _ _ _ r hadd ol.y2Id (by rw [p7]; omega), p3]
  · cases hadd : PwlObj.add _ ol gl implL with
    | error e => simp [exMap, hadd, Except.toOption]
    | ok r =>
      simp only [exMap, hadd, Except.toOption, Option.map]
      rw [pwlAdd_preserves _ _ _ _ r hadd h.arrs.length (by rw [p7]; omega)]
  · cases hadd : PwlObj.add _ ol gl implL with
    | error e => simp [exMap, hadd, Except.toOption]
    | ok r =>
      simp only [exMap, hadd, Except.toOption, Option.map]
      rw [pwlAdd_preserves _ _ _ _ r hadd (h.arrs.length + 1) (by rw [p7]; omega)]
  · cases hadd : PwlObj.add _ ol gl implL with
    | error e => simp [exMap, hadd, Except.toOption]
    | ok r =>
      simp only [exMap, hadd, Except.toOption, Option.map]
      rw [pwlAdd_preserves _ _ _ _ r hadd (h.arrs.length + 2) (by rw [p7]; omega)]
  · simp only [DiscObj.almost_equal]
    rw [d1, d4, d2, d5, d3, d6, allclose_self _ _ (by norm_num),
      allclose_self _ _ (by norm_num), allclose_self _ _ (by norm_num)]
    rfl
  · simp only [DiscObj.mul_scalar]
    rw [Heap.read_write_ne _ _ _ _ (by omega)]
    exact d1
  · simp only [DiscObj.mul_scalar]
    rw [Heap.read_write_ne _ _ _ _ (by omega)]
    exact d2
  · simp only [DiscObj.mul_scalar]
    rw [Heap.read_write_ne _ _ _ _ (by omega)]
    exact d3
  · simp only [DiscObj.mul_scalar]
    rw [Heap.read_write_ne _ _ _ _ (by omega)]
  · simp only [DiscObj.mul_scalar]
    rw [Heap.read_write_ne _ _ _ _ (by omega)]
  · simp only [DiscObj.mul_scalar]
    rw [Heap.read_write_ne _ _ _ _ (by omega)]
  · cases hadd : DiscObj.add _ ⟨h.arrs.length, h.arrs.length + 1, h.arrs.length + 2⟩ gd implD with
    | error e => simp [exMap, hadd, Except.toOption]
    | ok r =>
      simp only [exMap, hadd, Except.toOption, Option.map]
      rw [discAdd_preserves _ _ _ _ r hadd od.xId (by rw [d7]; omega), d1]
  · cases hadd : DiscObj.add _ ⟨h.arrs.length, h.arrs.length + 1, h.arrs.length + 2⟩ gd implD with
    | error e => simp [exMap, hadd, Except.toOption]
    | ok r =>
      simp only [exMap, hadd, Except.toOption, Option.map]
      rw [discAdd_preserves _ _ _ _ r hadd od.yId (by rw [d7]; omega), d2]
  · cases hadd : DiscObj.add _ ⟨h.arrs.length, h.arrs.length + 1, h.arrs.length + 2⟩ gd implD with
    | error e => simp [exMap, hadd, Except.toOption]
    | ok r =>
      simp only [exMap, hadd, Except.toOption, Option.map]
      rw [discAdd_preserves _ _ _ _ r hadd od.mpId (by rw [d7]; omega), d3]
  · cases hadd : DiscObj.add _ od gd implD with
    | error e => simp [exMap, hadd, Except.toOption]
    | ok r =>
      simp only [exMap, hadd, Except.toOption, Option.map]
      rw [discAdd_preserves _ _ _ _ r hadd h.arrs.length (by rw [d7]; omega)]
  · cases hadd : DiscObj.add _ od gd implD with
    | error e => simp [exMap, hadd, Except.toOption]
    | ok r =>
      simp only [exMap, hadd, Except.toOption, Option.map]
      rw [discAdd_preserves _ _ _ _ r hadd (h.arrs.length + 1) (by rw [d7]; omega)]
  · cases hadd : DiscObj.add _ od gd implD with
    | error e => simp [exMap, hadd, Except.toOption]
    | ok r =>
      simp only [exMap, hadd, Except.toOption, Option.map]
      rw [discAdd_preserves _ _ _ _ r hadd (h.arrs.length + 2) (by rw [d7]; omega)]

/-- C9 witness: the independence statement applied to a concrete heap of
three arrays with a constant, a linear and a discrete object over them,
the identity-like merge backends and scale factor 2. -/
theorem c9_copy_independence_witness :
    PwcObj.almost_equal (PwcObj.copy (⟨[[0,1],[5,6],[7,8]]⟩ : Heap) (⟨0,1⟩ : PwcObj)).1 (⟨0,1⟩ : PwcObj) (PwcObj.copy (⟨[[0,1],[5,6],[7,8]]⟩ : Heap) (⟨0,1⟩ : PwcObj)).2 (1/10^14) = true
    ∧ (PwcObj.mul_scalar (PwcObj.copy (⟨[[0,1],[5,6],[7,8]]⟩ : Heap) (⟨0,1⟩ : PwcObj)).1 (PwcObj.copy (⟨[[0,1],[5,6],[7,8]]⟩ : Heap) (⟨0,1⟩ : PwcObj)).2 2).read (⟨0,1⟩ : PwcObj).xId
          = (⟨[[0,1],[5,6],[7,8]]⟩ : Heap).read (⟨0,1⟩ : PwcObj).xId
    ∧ (PwcObj.mul_scalar (PwcObj.copy (⟨[[0,1],[5,6],[7,8]]⟩ : Heap) (⟨0,1⟩ : PwcObj)).1 (PwcObj.copy (⟨[[0,1],[5,6],[7,8]]⟩ : Heap) (⟨0,1⟩ : PwcObj)).2 2).read (⟨0,1⟩ : PwcObj).yId
          = (⟨[[0,1],[5,6],[7,8]]⟩ : Heap).read (⟨0,1⟩ : PwcObj).yId
    ∧ (PwcObj.mul_scalar (PwcObj.copy (⟨[[0,1],[5,6],[7,8]]⟩ : Heap) (⟨0,1⟩ : PwcObj)).1 (⟨0,1⟩ : PwcObj) 2).read (PwcObj.copy (⟨[[0,1],[5,6],[7,8]]⟩ : Heap) (⟨0,1⟩ : PwcObj)).2.xId
          = (PwcObj.copy (⟨[[0,1],[5,6],[7,8]]⟩ : Heap) (⟨0,1⟩ : PwcObj)).1.read (PwcObj.copy (⟨[[0,1],[5,6],[7,8]]⟩ : Heap) (⟨0,1⟩ : PwcObj)).2.xId
    ∧ (PwcObj.mul_scalar (PwcObj.copy (⟨[[0,1],[5,6],[7,8]]⟩ : Heap) (⟨0,1⟩ : PwcObj)).1 (⟨0,1⟩ : PwcObj) 2).read (PwcObj.copy (⟨[[0,1],[5,6],[7,8]]⟩ : Heap) (⟨0,1⟩ : PwcObj)).2.yId
          = (PwcObj.copy (⟨[[0,1],[5,6],[7,8]]⟩ : Heap) (⟨0,1⟩ : PwcObj)).1.read (PwcObj.copy (⟨[[0,1],[5,6],[7,8]]⟩ : Heap) (⟨0,1⟩ : PwcObj)).2.yId
    ∧ exMap (PwcObj.add (PwcObj.copy (⟨[[0,1],[5,6],[7,8]]⟩ : Heap) (⟨0,1⟩ : PwcObj)).1 (PwcObj.copy (⟨[[0,1],[5,6],[7,8]]⟩ : Heap) (⟨0,1⟩ : PwcObj)).2 (⟨0,1⟩ : PwcObj) (fun x y _ _ => (x, y)))
            (fun r => r.1.read (⟨0,1⟩ : PwcObj).xId)
          = exMap (PwcObj.add (PwcObj.copy (⟨[[0,1],[5,6],[7,8]]⟩ : Heap) (⟨0,1⟩ : PwcObj)).1 (PwcObj.copy (⟨[[0,1],[5,6],[7,8]]⟩ : Heap) (⟨0,1⟩ : PwcObj)).2 (⟨0,1⟩ : PwcObj) (fun x y _ _ => (x, y)))
            (fun _ => (⟨[[0,1],[5,6],[7,8]]⟩ : Heap).read (⟨0,1⟩ : PwcObj).xId)
    ∧ exMap (PwcObj.add (PwcObj.copy (⟨[[0,1],[5,6],[7,8]]⟩ : Heap) (⟨0,1⟩ : PwcObj)).1 (PwcObj.copy (⟨[[0,1],[5,6],[7,8]]⟩ : Heap) (⟨0,1⟩ : PwcObj)).2 (⟨0,1⟩ : PwcObj) (fun x y _ _ => (x, y)))
            (fun r => r.1.read (⟨0,1⟩ : PwcObj).yId)
          = exMap (PwcObj.add (PwcObj.copy (⟨[[0,1],[5,6],[7,8]]⟩ : Heap) (⟨0,1⟩ : PwcObj)).1 (PwcObj.copy (⟨[[0,1],[5,6],[7,8]]⟩ : Heap) (⟨0,1⟩ : PwcObj)).2 (⟨0,1⟩ : PwcObj) (fun x y _ _ => (x, y)))
            (fun _ => (⟨[[0,1],[5,6],[7,8]]⟩ : Heap).read (⟨0,1⟩ : PwcObj).yId)
    ∧ exMap (PwcObj.add (PwcObj.copy (⟨[[0,1],[5,6],[7,8]]⟩ : Heap) (⟨0,1⟩ : PwcObj)).1 (⟨0,1⟩ : PwcObj) (⟨0,1⟩ : PwcObj) (fun x y _ _ => (x, y)))
            (fun r => r.1.read (PwcObj.copy (⟨[[0,1],[5,6],[7,8]]⟩ : Heap) (⟨0,1⟩ : PwcObj)).2.xId)
          = exMap (PwcObj.add (PwcObj.copy (⟨[[0,1],[5,6],[7,8]]⟩ : Heap) (⟨0,1⟩ : PwcObj)).1 (⟨0,1⟩ : PwcObj) (⟨0,1⟩ : PwcObj) (fun x y _ _ => (x, y)))
            (fun _ => (PwcObj.copy (⟨[[0,1],[5,6],[7,8]]⟩ : Heap) (⟨0,1⟩ : PwcObj)).1.read (PwcObj.copy (⟨[[0,1],[5,6],[7,8]]⟩ : Heap) (⟨0,1⟩ : PwcObj)).2.xId)
    ∧ exMap (PwcObj.add (PwcObj.copy (⟨[[0,1],[5,6],[7,8]]⟩ : Heap) (⟨0,1⟩ : PwcObj)).1 (⟨0,1⟩ : PwcObj) (⟨0,1⟩ : PwcObj) (fun x y _ _ => (x, y)))
            (fun r => r.1.read (PwcObj.copy (⟨[[0,1],[5,6],[7,8]]⟩ : Heap) (⟨0,1⟩ : PwcObj)).2.yId)
          = exMap (PwcObj.add (PwcObj.copy (⟨[[0,1],[5,6],[7,8]]⟩ : Heap) (⟨0,1⟩ : PwcObj)).1 (⟨0,1⟩ : PwcObj) (⟨0,1⟩ : PwcObj) (fun x y _ _ => (x, y)))
            (fun _ => (PwcObj.copy (⟨[[0,1],[5,6],[7,8]]⟩ : Heap) (⟨0,1⟩ : PwcObj)).1.read (PwcObj.copy (⟨[[0,1],[5,6],[7,8]]⟩ : Heap) (⟨0,1⟩ : PwcObj)).2.yId)
    ∧ PwlObj.almost_equal (PwlObj.copy (⟨[[0,1],[5,6],[7,8]]⟩ : Heap) (⟨0,1,2⟩ : PwlObj)).1 (⟨0,1,2⟩ : PwlObj) (PwlObj.copy (⟨[[0,1],[5,6],[7,8]]⟩ : Heap) (⟨0,1,2⟩ : PwlObj)).2 (1/10^14) = true
    ∧ (PwlObj.mul_scalar (PwlObj.copy (⟨[[0,1],[5,6],[7,8]]⟩ : Heap) (⟨0,1,2⟩ : PwlObj)).1 (PwlObj.copy (⟨[[0,1],[5,6],[7,8]]⟩ : Heap) (⟨0,1,2⟩ : PwlObj)).2 2).read (⟨0,1,2⟩ : PwlObj).xId
          = (⟨[[0,1],[5,6],[7,8]]⟩ : Heap).read (⟨0,1,2⟩ : PwlObj).xId
    ∧ (PwlObj.mul_scalar (PwlObj.copy (⟨[[0,1],[5,6],[7,8]]⟩ : Heap) (⟨0,1,2⟩ : PwlObj)).1 (PwlObj.copy (⟨[[0,1],[5,6],[7,8]]⟩ : Heap) (⟨0,1,2⟩ : PwlObj)).2 2).read (⟨0,1,2⟩ : PwlObj).y1Id
          = (⟨[[0,1],[5,6],[7,8]]⟩ : Heap).read (⟨0,1,2⟩ : PwlObj).y1Id
    ∧ (PwlObj.mul_scalar (PwlObj.copy (⟨[[0,1],[5,6],[7,8]]⟩ : Heap) (⟨0,1,2⟩ : PwlObj)).1 (PwlObj.copy (⟨[[0,1],[5,6],[7,8]]⟩ : Heap) (⟨0,1,2⟩ : PwlObj)).2 2).read (⟨0,1,2⟩ : PwlObj).y2Id
          = (⟨[[0,1],[5,6],[7,8]]⟩ : Heap).read (⟨0,1,2⟩ : PwlObj).y2Id
    ∧ (PwlObj.mul_scalar (PwlObj.copy (⟨[[0,1],[5,6],[7,8]]⟩ : Heap) (⟨0,1,2⟩ : PwlObj)).1 (⟨0,1,2⟩ : PwlObj) 2).read (PwlObj.copy (⟨[[0,1],[5,6],[7,8]]⟩ : Heap) (⟨0,1,2⟩ : PwlObj)).2.xId
          = (PwlObj.copy (⟨[[0,1],[5,6],[7,8]]⟩ : Heap) (⟨0,1,2⟩ : PwlObj)).1.read (PwlObj.copy (⟨[[0,1],[5,6],[7,8]]⟩ : Heap) (⟨0,1,2⟩ : PwlObj)).2.xId
    ∧ (PwlObj.mul_scalar (PwlObj.copy (⟨[[0,1],[5,6],[7,8]]⟩ : Heap) (⟨0,1,2⟩ : PwlObj)).1 (⟨0,1,2⟩ : PwlObj) 2).read (PwlObj.copy (⟨[[0,1],[5,6],[7,8]]⟩ : Heap) (⟨0,1,2⟩ : PwlObj)).2.y1Id
          = (PwlObj.copy (⟨[[0,1],[5,6],[7,8]]⟩ : Heap) (⟨0,1,2⟩ : PwlObj)).1.read (PwlObj.copy (⟨[[0,1],[5,6],[7,8]]⟩ : Heap) (⟨0,1,2⟩ : PwlObj)).2.y1Id
    ∧ (PwlObj.mul_scalar (PwlObj.copy (⟨[[0,1],[5,6],[7,8]]⟩ : Heap) (⟨0,1,2⟩ : PwlObj)).1 (⟨0,1,2⟩ : PwlObj) 2).read (PwlObj.copy (⟨[[0,1],[5,6],[7,8]]⟩ : Heap) (⟨0,1,2⟩ : PwlObj)).2.y2Id
          = (PwlObj.copy (⟨[[0,1],[5,6],[7,8]]⟩ : Heap) (⟨0,1,2⟩ : PwlObj)).1.read (PwlObj.copy (⟨[[0,1],[5,6],[7,8]]⟩ : Heap) (⟨0,1,2⟩ : PwlObj)).2.y2Id
    ∧ exMap (PwlObj.add (PwlObj.copy (⟨[[0,1],[5,6],[7,8]]⟩ : Heap) (⟨0,1,2⟩ : PwlObj)).1 (PwlObj.copy (⟨[[0,1],[5,6],[7,8]]⟩ : Heap) (⟨0,1,2⟩ : PwlObj)).2 (⟨0,1,2⟩ : PwlObj) (fun a b c _ _ _ => (a, b, c)))
            (fun r => r.1.read (⟨0,1,2⟩ : PwlObj).xId)
          = exMap (PwlObj.add (PwlObj.copy (⟨[[0,1],[5,6],[7,8]]⟩ : Heap) (⟨0,1,2⟩ : PwlObj)).1 (PwlObj.copy (⟨[[0,1],[5,6],[7,8]]⟩ : Heap) (⟨0,1,2⟩ : PwlObj)).2 (⟨0,1,2⟩ : PwlObj) (fun a b c _ _ _ => (a, b, c)))
            (fun _ => (⟨[[0,1],[5,6],[7,8]]⟩ : Heap).read (⟨0,1,2⟩ : PwlObj).xId)
    ∧ exMap (PwlObj.add (PwlObj.copy (⟨[[0,1],[5,6],[7,8]]⟩ : Heap) (⟨0,1,2⟩ : PwlObj)).1 (PwlObj.copy (⟨[[0,1],[5,6],[7,8]]⟩ : Heap) (⟨0,1,2⟩ : PwlObj)).2 (⟨0,1,2⟩ : PwlObj) (fun a b c _ _ _ => (a, b, c)))
            (fun r => r.1.read (⟨0,1,2⟩ : PwlObj).y1Id)
          = exMap (PwlObj.add (PwlObj.copy (⟨[[0,1],[5,6],[7,8]]⟩ : Heap) (⟨0,1,2⟩ : PwlObj)).1 (PwlObj.copy (⟨[[0,1],[5,6],[7,8]]⟩ : Heap) (⟨0,1,2⟩ : PwlObj)).2 (⟨0,1,2⟩ : PwlObj) (fun a b c _ _ _ => (a, b, c)))
            (fun _ => (⟨[[0,1],[5,6],[7,8]]⟩ : Heap).read (⟨0,1,2⟩ : PwlObj).y1Id)
    ∧ exMap (PwlObj.add (PwlObj.copy (⟨[[0,1],[5,6],[7,8]]⟩ : Heap) (⟨0,1,2⟩ : PwlObj)).1 (PwlObj.copy (⟨[[0,1],[5,6],[7,8]]⟩ : Heap) (⟨0,1,2⟩ : PwlObj)).2 (⟨0,1,2⟩ : PwlObj) (fun a b c _ _ _ => (a, b, c)))
            (fun r => r.1.read (⟨0,1,2⟩ : PwlObj).y2Id)
          = exMap (PwlObj.add (PwlObj.copy (⟨[[0,1],[5,6],[7,8]]⟩ : Heap) (⟨0,1,2⟩ : PwlObj)).1 (PwlObj.copy (⟨[[0,1],[5,6],[7,8]]⟩ : Heap) (⟨0,1,2⟩ : PwlObj)).2 (⟨0,1,2⟩ : PwlObj) (fun a b c _ _ _ => (a, b, c)))
            (fun _ => (⟨[[0,1],[5,6],[7,8]]⟩ : Heap).read (⟨0,1,2⟩ : PwlObj).y2Id)
    ∧ exMap (PwlObj.add (PwlObj.copy (⟨[[0,1],[5,6],[7,8]]⟩ : Heap) (⟨0,1,2⟩ : PwlObj)).1 (⟨0,1,2⟩ : PwlObj) (⟨0,1,2⟩ : PwlObj) (fun a b c _ _ _ => (a, b, c)))
            (fun r => r.1.read (PwlObj.copy (⟨[[0,1],[5,6],[7,8]]⟩ : Heap) (⟨0,1,2⟩ : PwlObj)).2.xId)
          = exMap (PwlObj.add (PwlObj.copy (⟨[[0,1],[5,6],[7,8]]⟩ : Heap) (⟨0,1,2⟩ : PwlObj)).1 (⟨0,1,2⟩ : PwlObj) (⟨0,1,2⟩ : PwlObj) (fun a b c _ _ _ => (a, b, c)))
            (fun _ => (PwlObj.copy (⟨[[0,1],[5,6],[7,8]]⟩ : Heap) (⟨0,1,2⟩ : PwlObj)).1.read (PwlObj.copy (⟨[[0,1],[5,6],[7,8]]⟩ : Heap) (⟨0,1,2⟩ : PwlObj)).2.xId)
    ∧ exMap (PwlObj.add (PwlObj.copy (⟨[[0,1],[5,6],[7,8]]⟩ : Heap) (⟨0,1,2⟩ : PwlObj)).1 (⟨0,1,2⟩ : PwlObj) (⟨0,1,2⟩ : PwlObj) (fun a b c _ _ _ => (a, b, c)))
            (fun r => r.1.read (PwlObj.copy (⟨[[0,1],[5,6],[7,8]]⟩ : Heap) (⟨0,1,2⟩ : PwlObj)).2.y1Id)
          = exMap (PwlObj.add (PwlObj.copy (⟨[[0,1],[5,6],[7,8]]⟩ : Heap) (⟨0,1,2⟩ : PwlObj)).1 (⟨0,1,2⟩ : PwlObj) (⟨0,1,2⟩ : PwlObj) (fun a b c _ _ _ => (a, b, c)))
            (fun _ => (PwlObj.copy (⟨[[0,1],[5,6],[7,8]]⟩ : Heap) (⟨0,1,2⟩ : PwlObj)).1.read (PwlObj.copy (⟨[[0,1],[5,6],[7,8]]⟩ : Heap) (⟨0,1,2⟩ : PwlObj)).2.y1Id)
    ∧ exMap (PwlObj.add (PwlObj.copy (⟨[[0,1],[5,6],[7,8]]⟩ : Heap) (⟨0,1,2⟩ : PwlObj)).1 (⟨0,1,2⟩ : PwlObj) (⟨0,1,2⟩ : PwlObj) (fun a b c _ _ _ => (a, b, c)))
            (fun r => r.1.read (PwlObj.copy (⟨[[0,1],[5,6],[7,8]]⟩ : Heap) (⟨0,1,2⟩ : PwlObj)).2.y2Id)
          = exMap (PwlObj.add (PwlObj.copy (⟨[[0,1],[5,6],[7,8]]⟩ : Heap) (⟨0,1,2⟩ : PwlObj)).1 (⟨0,1,2⟩ : PwlObj) (⟨0,1,2⟩ : PwlObj) (fun a b c _ _ _ => (a, b, c)))
            (fun _ => (PwlObj.copy (⟨[[0,1],[5,6],[7,8]]⟩ : Heap) (⟨0,1,2⟩ : PwlObj)).1.read (PwlObj.copy (⟨[[0,1],[5,6],[7,8]]⟩ : Heap) (⟨0,1,2⟩ : PwlObj)).2.y2Id)
    ∧ DiscObj.almost_equal (DiscObj.copy (⟨[[0,1],[5,6],[7,8]]⟩ : Heap) (⟨0,1,2⟩ : DiscObj)).1 (⟨0,1,2⟩ : DiscObj) (DiscObj.copy (⟨[[0,1],[5,6],[7,8]]⟩ : Heap) (⟨0,1,2⟩ : DiscObj)).2 (1/10^14) = true
    ∧ (DiscObj.mul_scalar (DiscObj.copy (⟨[[0,1],[5,6],[7,8]]⟩ : Heap) (⟨0,1,2⟩ : DiscObj)).1 (DiscObj.copy (⟨[[0,1],[5,6],[7,8]]⟩ : Heap) (⟨0,1,2⟩ : DiscObj)).2 2).read (⟨0,1,2⟩ : DiscObj).xId
          = (⟨[[0,1],[5,6],[7,8]]⟩ : Heap).read (⟨0,1,2⟩ : DiscObj).xId
    ∧ (DiscObj.mul_scalar (DiscObj.copy (⟨[[0,1],[5,6],[7,8]]⟩ : Heap) (⟨0,1,2⟩ : DiscObj)).1 (DiscObj.copy (⟨[[0,1],[5,6],[7,8]]⟩ : Heap) (⟨0,1,2⟩ : DiscObj)).2 2).read (⟨0,1,2⟩ : DiscObj).yId
          = (⟨[[0,1],[5,6],[7,8]]⟩ : Heap).read (⟨0,1,2⟩ : DiscObj).yId
    ∧ (DiscObj.mul_scalar (DiscObj.copy (⟨[[0,1],[5,6],[7,8]]⟩ : Heap) (⟨0,1,2⟩ : DiscObj)).1 (DiscObj.copy (⟨[[0,1],[5,6],[7,8]]⟩ : Heap) (⟨0,1,2⟩ : DiscObj)).2 2).read (⟨0,1,2⟩ : DiscObj).mpId
          = (⟨[[0,1],[5,6],[7,8]]⟩ : Heap).read (⟨0,1,2⟩ : DiscObj).mpId
    ∧ (DiscObj.mul_scalar (DiscObj.copy (⟨[[0,1],[5,6],[7,8]]⟩ : Heap) (⟨0,1,2⟩ : DiscObj)).1 (⟨0,1,2⟩ : DiscObj) 2).read (DiscObj.copy (⟨[[0,1],[5,6],[7,8]]⟩ : Heap) (⟨0,1,2⟩ : DiscObj)).2.xId
          = (DiscObj.copy (⟨[[0,1],[5,6],[7,8]]⟩ : Heap) (⟨0,1,2⟩ : DiscObj)).1.read (DiscObj.copy (⟨[[0,1],[5,6],[7,8]]⟩ : Heap) (⟨0,1,2⟩ : DiscObj)).2.xId
    ∧ (DiscObj.mul_scalar (DiscObj.copy (⟨[[0,1],[5,6],[7,8]]⟩ : Heap) (⟨0,1,2⟩ : DiscObj)).1 (⟨0,1,2⟩ : DiscObj) 2).read (DiscObj.copy (⟨[[0,1],[5,6],[7,8]]⟩ : Heap) (⟨0,1,2⟩ : DiscObj)).2.yId
          = (DiscObj.copy (⟨[[0,1],[5,6],[7,8]]⟩ : Heap) (⟨0,1,2⟩ : DiscObj)).1.read (DiscObj.copy (⟨[[0,1],[5,6],[7,8]]⟩ : Heap) (⟨0,1,2⟩ : DiscObj)).2.yId
    ∧ (DiscObj.mul_scalar (DiscObj.copy (⟨[[0,1],[5,6],[7,8]]⟩ : Heap) (⟨0,1,2⟩ : DiscObj)).1 (⟨0,1,2⟩ : DiscObj) 2).read (DiscObj.copy (⟨[[0,1],[5,6],[7,8]]⟩ : Heap) (⟨0,1,2⟩ : DiscObj)).2.mpId
          = (DiscObj.copy (⟨[[0,1],[5,6],[7,8]]⟩ : Heap) (⟨0,1,2⟩ : DiscObj)).1.read (DiscObj.copy (⟨[[0,1],[5,6],[7,8]]⟩ : Heap) (⟨0,1,2⟩ : DiscObj)).2.mpId
    ∧ exMap (DiscObj.add (DiscObj.copy (⟨[[0,1],[5,6],[7,8]]⟩ : Heap) (⟨0,1,2⟩ : DiscObj)).1 (DiscObj.copy (⟨[[0,1],[5,6],[7,8]]⟩ : Heap) (⟨0,1,2⟩ : DiscObj)).2 (⟨0,1,2⟩ : DiscObj) (fun a b c _ _ _ => (a, b, c)))
            (fun r => r.1.read (⟨0,1,2⟩ : DiscObj).xId)
          = exMap (DiscObj.add (DiscObj.copy (⟨[[0,1],[5,6],[7,8]]⟩ : Heap) (⟨0,1,2⟩ : DiscObj)).1 (DiscObj.copy (⟨[[0,1],[5,6],[7,8]]⟩ : Heap) (⟨0,1,2⟩ : DiscObj)).2 (⟨0,1,2⟩ : DiscObj) (fun a b c _ _ _ => (a, b, c)))
            (fun _ => (⟨[[0,1],[5,6],[7,8]]⟩ : Heap).read (⟨0,1,2⟩ : DiscObj).xId)
    ∧ exMap (DiscObj.add (DiscObj.copy (⟨[[0,1],[5,6],[7,8]]⟩ : Heap) (⟨0,1,2⟩ : DiscObj)).1 (DiscObj.copy (⟨[[0,1],[5,6],[7,8]]⟩ : Heap) (⟨0,1,2⟩ : DiscObj)).2 (⟨0,1,2⟩ : DiscObj) (fun a b c _ _ _ => (a, b, c)))
            (fun r => r.1.read (⟨0,1,2⟩ : DiscObj).yId)
          = exMap (DiscObj.add (DiscObj.copy (⟨[[0,1],[5,6],[7,8]]⟩ : Heap) (⟨0,1,2⟩ : DiscObj)).1 (DiscObj.copy (⟨[[0,1],[5,6],[7,8]]⟩ : Heap) (⟨0,1,2⟩ : DiscObj)).2 (⟨0,1,2⟩ : DiscObj) (fun a b c _ _ _ => (a, b, c)))
            (fun _ => (⟨[[0,1],[5,6],[7,8]]⟩ : Heap).read (⟨0,1,2⟩ : DiscObj).yId)
    ∧ exMap (DiscObj.add (DiscObj.copy (⟨[[0,1],[5,6],[7,8]]⟩ : Heap) (⟨0,1,2⟩ : DiscObj)).1 (DiscObj.copy (⟨[[0,1],[5,6],[7,8]]⟩ : Heap) (⟨0,1,2⟩ : DiscObj)).2 (⟨0,1,2⟩ : DiscObj) (fun a b c _ _ _ => (a, b, c)))
            (fun r => r.1.read (⟨0,1,2⟩ : DiscObj).mpId)
          = exMap (DiscObj.add (DiscObj.copy (⟨[[0,1],[5,6],[7,8]]⟩ : Heap) (⟨0,1,2⟩ : DiscObj)).1 (DiscObj.copy (⟨[[0,1],[5,6],[7,8]]⟩ : Heap) (⟨0,1,2⟩ : DiscObj)).2 (⟨0,1,2⟩ : DiscObj) (fun a b c _ _ _ => (a, b, c)))
            (fun _ => (⟨[[0,1],[5,6],[7,8]]⟩ : Heap).read (⟨0,1,2⟩ : DiscObj).mpId)
    ∧ exMap (DiscObj.add (DiscObj.copy (⟨[[0,1],[5,6],[7,8]]⟩ : Heap) (⟨0,1,2⟩ : DiscObj)).1 (⟨0,1,2⟩ : DiscObj) (⟨0,1,2⟩ : DiscObj) (fun a b c _ _ _ => (a, b, c)))
            (fun r => r.1.read (DiscObj.copy (⟨[[0,1],[5,6],[7,8]]⟩ : Heap) (⟨0,1,2⟩ : DiscObj)).2.xId)
          = exMap (DiscObj.add (DiscObj.copy (⟨[[0,1],[5,6],[7,8]]⟩ : Heap) (⟨0,1,2⟩ : DiscObj)).1 (⟨0,1,2⟩ : DiscObj) (⟨0,1,2⟩ : DiscObj) (fun a b c _ _ _ => (a, b, c)))
            (fun _ => (DiscObj.copy (⟨[[0,1],[5,6],[7,8]]⟩ : Heap) (⟨0,1,2⟩ : DiscObj)).1.read (DiscObj.copy (⟨[[0,1],[5,6],[7,8]]⟩ : Heap) (⟨0,1,2⟩ : DiscObj)).2.xId)
    ∧ exMap (DiscObj.add (DiscObj.copy (⟨[[0,1],[5,6],[7,8]]⟩ : Heap) (⟨0,1,2⟩ : DiscObj)).1 (⟨0,1,2⟩ : DiscObj) (⟨0,1,2⟩ : DiscObj) (fun a b c _ _ _ => (a, b, c)))
            (fun r => r.1.read (DiscObj.copy (⟨[[0,1],[5,6],[7,8]]⟩ : Heap) (⟨0,1,2⟩ : DiscObj)).2.yId)
          = exMap (DiscObj.add (DiscObj.copy (⟨[[0,1],[5,6],[7,8]]⟩ : Heap) (⟨0,1,2⟩ : DiscObj)).1 (⟨0,1,2⟩ : DiscObj) (⟨0,1,2⟩ : DiscObj) (fun a b c _ _ _ => (a, b, c)))
            (fun _ => (DiscObj.copy (⟨[[0,1],[5,6],[7,8]]⟩ : Heap) (⟨0,1,2⟩ : DiscObj)).1.read (DiscObj.copy (⟨[[0,1],[5,6],[7,8]]⟩ : Heap) (⟨0,1,2⟩ : DiscObj)).2.yId)
    ∧ exMap (DiscObj.add (DiscObj.copy (⟨[[0,1],[5,6],[7,8]]⟩ : Heap) (⟨0,1,2⟩ : DiscObj)).1 (⟨0,1,2⟩ : DiscObj) (⟨0,1,2⟩ : DiscObj) (fun a b c _ _ _ => (a, b, c)))
            (fun r => r.1.read (DiscObj.copy (⟨[[0,1],[5,6],[7,8]]⟩ : Heap) (⟨0,1,2⟩ : DiscObj)).2.mpId)
          = exMap (DiscObj.add (DiscObj.copy (⟨[[0,1],[5,6],[7,8]]⟩ : Heap) (⟨0,1,2⟩ : DiscObj)).1 (⟨0,1,2⟩ : DiscObj) (⟨0,1,2⟩ : DiscObj) (fun a b c _ _ _ => (a, b, c)))
            (fun _ => (DiscObj.copy (⟨[[0,1],[5,6],[7,8]]⟩ : Heap) (⟨0,1,2⟩ : DiscObj)).1.read (DiscObj.copy (⟨[[0,1],[5,6],[7,8]]⟩ : Heap) (⟨0,1,2⟩ : DiscObj)).2.mpId) :=
  c9_copy_independence ⟨[[0,1],[5,6],[7,8]]⟩ ⟨0,1⟩ ⟨0,1⟩ ⟨0,1,2⟩ ⟨0,1,2⟩
    ⟨0,1,2⟩ ⟨0,1,2⟩ 2
    (fun x y _ _ => (x, y)) (fun a b c _ _ _ => (a, b, c))
    (fun a b c _ _ _ => (a, b, c))
    (by decide) (by decide) (by decide) (by decide) (by decide) (by decide)
    (by decide) (by decide)


theorem Heap.read_write_self (h : Heap) (i : ℕ) (v : List ℚ) (hi : i < h.arrs.length) :
    (h.write i v).read i = v := by
  simp [Heap.write, Heap.read, List.getD_eq_getElem?_getD, List.getElem?_set_self hi]

theorem pwcAdd_ok (h : Heap) (o f : PwcObj)
    (impl : List ℚ → List ℚ → List ℚ → List ℚ → List ℚ × List ℚ) (α ω : ℚ)
    (h1 : pyget (h.read o.xId) 0 = .ok α) (h2 : pyget (h.read f.xId) 0 = .ok α)
    (h3 : pyget (h.read o.xId) (-1) = .ok ω) (h4 : pyget (h.read f.xId) (-1) = .ok ω) :
    PwcObj.add h o f impl
      = .ok (((h.alloc (impl (h.read o.xId) (h.read o.yId) (h.read f.xId)
            (h.read f.yId)).1).1.alloc
          (impl (h.read o.xId) (h.read o.yId) (h.read f.xId) (h.read f.yId)).2).1,
         ⟨h.arrs.length, h.arrs.length + 1⟩) := by
  unfold PwcObj.add
  rw [h1, h2, h3, h4]
  simp [Heap.alloc]

theorem pwc_copy_preserves (h : Heap) (o : PwcObj) (i : ℕ) (hi : i < h.arrs.length) :
    (PwcObj.copy h o).1.read i = h.read i := by
  rw [pwc_copy_spec]
  rw [Heap.read_alloc_old _ _ i (by rw [Heap.length_alloc]; omega),
    Heap.read_alloc_old _ _ i hi]

theorem pwlAdd_ok (h : Heap) (o f : PwlObj)
    (impl : List ℚ → List ℚ → List ℚ → List ℚ → List ℚ → List ℚ →
      List ℚ × List ℚ × List ℚ) (α ω : ℚ)
    (h1 : pyget (h.read o.xId) 0 = .ok α) (h2 : pyget (h.read f.xId) 0 = .ok α)
    (h3 : pyget (h.read o.xId) (-1) = .ok ω) (h4 : pyget (h.read f.xId) (-1) = .ok ω) :
    PwlObj.add h o f impl
      = .ok ((((h.alloc (impl (h.read o.xId) (h.read o.y1Id) (h.read o.y2Id)
            (h.read f.xId) (h.read f.y1Id) (h.read f.y2Id)).1).1.alloc
          (impl (h.read o.xId) (h.read o.y1Id) (h.read o.y2Id)
            (h.read f.xId) (h.read f.y1Id) (h.read f.y2Id)).2.1).1.alloc
          (impl (h.read o.xId) (h.read o.y1Id) (h.read o.y2Id)
            (h.read f.xId) (h.read f.y1Id) (h.read f.y2Id)).2.2).1,
         ⟨h.arrs.length, h.arrs.length + 1, h.arrs.length + 2⟩) := by
  unfold PwlObj.add
  rw [h1, h2, h3, h4]
  simp [Heap.alloc]

theorem discAdd_ok (h : Heap) (o f : DiscObj)
    (impl : List ℚ → List ℚ → List ℚ → List ℚ → List ℚ → List ℚ →
      List ℚ × List ℚ × List ℚ) (α ω : ℚ)
    (h1 : pyget (h.read o.xId) 0 = .ok α) (h2 : pyget (h.read f.xId) 0 = .ok α)
    (h3 : pyget (h.read o.xId) (-1) = .ok ω) (h4 : pyget (h.read f.xId) (-1) = .ok ω) :
    DiscObj.add h o f impl
      = .ok ((((h.alloc (impl (h.read o.xId) (h.read o.yId) (h.read o.mpId)
            (h.read f.xId) (h.read f.yId) (h.read f.mpId)).1).1.alloc
          (impl (h.read o.xId) (h.read o.yId) (h.read o.mpId)
            (h.read f.xId) (h.read f.yId) (h.read f.mpId)).2.1).1.alloc
          (impl (h.read o.xId) (h.read o.yId) (h.read o.mpId)
            (h.read f.xId) (h.read f.yId) (h.read f.mpId)).2.2).1,
         ⟨h.arrs.length, h.arrs.length + 1, h.arrs.length + 2⟩) := by
  unfold DiscObj.add
  rw [h1, h2, h3, h4]
  simp [Heap.alloc]

theorem pwl_copy_preserves (h : Heap) (o : PwlObj) (i : ℕ) (hi : i < h.arrs.length) :
    (PwlObj.copy h o).1.read i = h.read i := by
  rw [pwl_copy_spec]
  rw [Heap.read_alloc_old _ _ i
      (by rw [Heap.length_alloc, Heap.length_alloc]; omega),
    Heap.read_alloc_old _ _ i (by rw [Heap.length_alloc]; omega),
    Heap.read_alloc_old _ _ i hi]

theorem disc_copy_preserves (h : Heap) (o : DiscObj) (i : ℕ) (hi : i < h.arrs.length) :
    (DiscObj.copy h o).1.read i = h.read i := by
  rw [disc_copy_spec]
  rw [Heap.read_alloc_old _ _ i
      (by rw [Heap.length_alloc, Heap.length_alloc]; omega),
    Heap.read_alloc_old _ _ i (by rw [Heap.length_alloc]; omega),
    Heap.read_alloc_old _ _ i hi]

theorem foldAdd_spec (h0 : Heap) (α ω : ℚ)
    (impl : List ℚ → List ℚ → List ℚ → List ℚ → List ℚ × List ℚ)
    (himpl : ∀ x1 y1 x2 y2, pyget (impl x1 y1 x2 y2).1 0 = pyget x1 0
        ∧ pyget (impl x1 y1 x2 y2).1 (-1) = pyget x1 (-1)) :
    ∀ (ps : List PwcObj) (h : Heap) (o : PwcObj),
      h0.arrs.length ≤ h.arrs.length →
      (∀ i, i < h0.arrs.length → h.read i = h0.read i) →
      h0.arrs.length ≤ o.yId →
      o.xId + 1 = o.yId →
      o.yId < h.arrs.length →
      pyget (h.read o.xId) 0 = .ok α →
      pyget (h.read o.xId) (-1) = .ok ω →
      (∀ p ∈ ps, p.xId < h0.arrs.length ∧ p.yId < h0.arrs.length) →
      (∀ p ∈ ps, pyget (h0.read p.xId) 0 = .ok α
          ∧ pyget (h0.read p.xId) (-1) = .ok ω) →
      ∃ h' o',
        foldAdd h o ps impl = .ok (h', o')
        ∧ (h'.read o'.xId, h'.read o'.yId)
            = List.foldl (addContents impl) (h.read o.xId, h.read o.yId)
                (ps.map (fun p => (h0.read p.xId, h0.read p.yId)))
        ∧ (∀ i, i < h.arrs.length → h'.read i = h.read i)
        ∧ h.arrs.length ≤ h'.arrs.length
        ∧ h0.arrs.length ≤ o'.yId
        ∧ o'.xId + 1 = o'.yId
        ∧ o'.yId < h'.arrs.length := by
  intro ps
  induction ps with
  | nil =>
    intro h o hlen hpres hoy hxy hylt hα hω _ _
    exact ⟨h, o, rfl, by simp [addContents], fun i _ => rfl, le_refl _, hoy, hxy, hylt⟩
  | cons p rest ih =>
    intro h o hlen hpres hoy hxy hylt hα hω hids hep
    obtain ⟨hpx, hpy⟩ := hids p (List.mem_cons_self p rest)
    obtain ⟨hpα, hpω⟩ := hep p (List.mem_cons_self p rest)
    have hreadp : h.read p.xId = h0.read p.xId := hpres p.xId hpx
    have hadd := pwcAdd_ok h o p impl α ω hα (by rw [hreadp]; exact hpα)
      hω (by rw [hreadp]; exact hpω)
    set v1 := (impl (h.read o.xId) (h.read o.yId) (h.read p.xId) (h.read p.yId)).1
      with hv1
    set v2 := (impl (h.read o.xId) (h.read o.yId) (h.read p.xId) (h.read p.yId)).2
      with hv2
    set h2 := ((h.alloc v1).1.alloc v2).1 with hh2
    have hlen1 : (h.alloc v1).1.arrs.length = h.arrs.length + 1 := Heap.length_alloc _ _
    have hlen2 : h2.arrs.length = h.arrs.length + 2 := by
      rw [hh2, Heap.length_alloc, hlen1]
    have hr1 : h2.read h.arrs.length = v1 := by
      rw [hh2, Heap.read_alloc_old _ _ h.arrs.length (by omega), Heap.read_alloc_new]
    have hr2 : h2.read (h.arrs.length + 1) = v2 := by
      rw [hh2, show h.arrs.length + 1 = (h.alloc v1).1.arrs.length from hlen1.symm,
        Heap.read_alloc_new]
    have hpres2 : ∀ i, i < h.arrs.length → h2.read i = h.read i := by
      intro i hi
      rw [hh2, Heap.read_alloc_old _ _ i (by omega), Heap.read_alloc_old _ _ i hi]
    obtain ⟨h', o', hfold, hcont, hpres', hlen', hoy', hxy', hylt'⟩ :=
      ih h2 ⟨h.arrs.length, h.arrs.length + 1⟩
        (by omega)
        (fun i hi => by rw [hpres2 i (by omega)]; exact hpres i hi)
        (by show h0.arrs.length ≤ h.arrs.length + 1; omega)
        (by show h.arrs.length + 1 = h.arrs.length + 1; rfl)
        (by show h.arrs.length + 1 < h2.arrs.length; omega)
        (by show pyget (h2.read h.arrs.length) 0 = .ok α
            rw [hr1, hv1, (himpl _ _ _ _).1]
            exact hα)
        (by show pyget (h2.read h.arrs.length) (-1) = .ok ω
            rw [hr1, hv1, (himpl _ _ _ _).2]
            exact hω)
        (fun q hq => hids q (List.mem_cons_of_mem p hq))
        (fun q hq => hep q (List.mem_cons_of_mem p hq))
    refine ⟨h', o', ?_, ?_, ?_, by omega, hoy', hxy', hylt'⟩
    · show foldAdd h o (p :: rest) impl = .ok (h', o')
      unfold foldAdd
      rw [hadd]
      simp only [Except.bind, Bind.bind]
      exact hfold
    · have hreadpy : h.read p.yId = h0.read p.yId := hpres p.yId hpy
      have hinit : (h2.read (⟨h.arrs.length, h.arrs.length + 1⟩ : PwcObj).xId,
                    h2.read (⟨h.arrs.length, h.arrs.length + 1⟩ : PwcObj).yId)
          = addContents impl (h.read o.xId, h.read o.yId)
              (h0.read p.xId, h0.read p.yId) := by
        show (h2.read h.arrs.length, h2.read (h.arrs.length + 1)) = _
        rw [hr1, hr2]
        simp only [addContents, hv1, hv2, hreadp, hreadpy]
      rw [hcont, hinit, List.map_cons, List.foldl_cons]
    · intro i hi
      rw [hpres' i (by omega), hpres2 i hi]


theorem foldAddPwl_spec (h0 : Heap) (α ω : ℚ)
    (impl : List ℚ → List ℚ → List ℚ → List ℚ → List ℚ → List ℚ →
      List ℚ × List ℚ × List ℚ)
    (himpl : ∀ x1 y1 y2 x2 z1 z2, pyget (impl x1 y1 y2 x2 z1 z2).1 0 = pyget x1 0
        ∧ pyget (impl x1 y1 y2 x2 z1 z2).1 (-1) = pyget x1 (-1)) :
    ∀ (ps : List PwlObj) (h : Heap) (o : PwlObj),
      h0.arrs.length ≤ h.arrs.length →
      (∀ i, i < h0.arrs.length → h.read i = h0.read i) →
      h0.arrs.length ≤ o.y1Id →
      o.xId + 1 = o.y1Id →
      o.y1Id + 1 = o.y2Id →
      o.y2Id < h.arrs.length →
      pyget (h.read o.xId) 0 = .ok α →
      pyget (h.read o.xId) (-1) = .ok ω →
      (∀ p ∈ ps, p.xId < h0.arrs.length ∧ p.y1Id < h0.arrs.length
          ∧ p.y2Id < h0.arrs.length) →
      (∀ p ∈ ps, pyget (h0.read p.xId) 0 = .ok α
          ∧ pyget (h0.read p.xId) (-1) = .ok ω) →
      ∃ h' o',
        foldAddPwl h o ps impl = .ok (h', o')
        ∧ (h'.read o'.xId, h'.read o'.y1Id, h'.read o'.y2Id)
            = List.foldl (addContents3 impl)
                (h.read o.xId, h.read o.y1Id, h.read o.y2Id)
                (ps.map (fun p => (h0.read p.xId, h0.read p.y1Id, h0.read p.y2Id)))
        ∧ (∀ i, i < h.arrs.length → h'.read i = h.read i)
        ∧ h.arrs.length ≤ h'.arrs.length
        ∧ h0.arrs.length ≤ o'.y1Id
        ∧ o'.xId + 1 = o'.y1Id
        ∧ o'.y1Id + 1 = o'.y2Id
        ∧ o'.y2Id < h'.arrs.length := by
  intro ps
  induction ps with
  | nil =>
    intro h o hlen hpres h1y hxy hyz hzlt hα hω _ _
    exact ⟨h, o, rfl, by simp [addContents3], fun i _ => rfl, le_refl _,
      h1y, hxy, hyz, hzlt⟩
  | cons p rest ih =>
    intro h o hlen hpres h1y hxy hyz hzlt hα hω hids hep
    obtain ⟨hpx, hpy, hpz⟩ := hids p (List.mem_cons_self p rest)
    obtain ⟨hpα, hpω⟩ := hep p (List.mem_cons_self p rest)
    have hreadp : h.read p.xId = h0.read p.xId := hpres p.xId hpx
    have hreadp1 : h.read p.y1Id = h0.read p.y1Id := hpres p.y1Id hpy
    have hreadp2 : h.read p.y2Id = h0.read p.y2Id := hpres p.y2Id hpz
    have hadd := pwlAdd_ok h o p impl α ω hα (by rw [hreadp]; exact hpα)
      hω (by rw [hreadp]; exact hpω)
    set v := impl (h.read o.xId) (h.read o.y1Id) (h.read o.y2Id)
      (h.read p.xId) (h.read p.y1Id) (h.read p.y2Id) with hv
    set h2 := (((h.alloc v.1).1.alloc v.2.1).1.alloc v.2.2).1 with hh2
    have hlen1 : (h.alloc v.1).1.arrs.length = h.arrs.length + 1 :=
      Heap.length_alloc _ _
    have hlenB : ((h.alloc v.1).1.alloc v.2.1).1.arrs.length = h.arrs.length + 2 := by
      rw [Heap.length_alloc, hlen1]
    have hlen2 : h2.arrs.length = h.arrs.length + 3 := by
      rw [hh2, Heap.length_alloc, hlenB]
    have hr1 : h2.read h.arrs.length = v.1 := by
      rw [hh2, Heap.read_alloc_old _ _ h.arrs.length (by omega),
        Heap.read_alloc_old _ _ h.arrs.length (by omega), Heap.read_alloc_new]
    have hr2 : h2.read (h.arrs.length + 1) = v.2.1 := by
      rw [hh2, Heap.read_alloc_old _ _ (h.arrs.length + 1) (by omega),
        show h.arrs.length + 1 = (h.alloc v.1).1.arrs.length from hlen1.symm,
        Heap.read_alloc_new]
    have hr3 : h2.read (h.arrs.length + 2) = v.2.2 := by
      rw [hh2, show h.arrs.length + 2
          = ((h.alloc v.1).1.alloc v.2.1).1.arrs.length from hlenB.symm,
        Heap.read_alloc_new]
    have hpres2 : ∀ i, i < h.arrs.length → h2.read i = h.read i := by
      intro i hi
      rw [hh2, Heap.read_alloc_old _ _ i (by omega),
        Heap.read_alloc_old _ _ i (by omega), Heap.read_alloc_old _ _ i hi]
    obtain ⟨h', o', hfold, hcont, hpres', hlen', h1y', hxy', hyz', hzlt'⟩ :=
      ih h2 ⟨h.arrs.length, h.arrs.length + 1, h.arrs.length + 2⟩
        (by omega)
        (fun i hi => by rw [hpres2 i (by omega)]; exact hpres i hi)
        (by show h0.arrs.length ≤ h.arrs.length + 1; omega)
        (by show h.arrs.length + 1 = h.arrs.length + 1; rfl)
        (by show h.arrs.length + 1 + 1 = h.arrs.length + 2; rfl)
        (by show h.arrs.length + 2 < h2.arrs.length; omega)
        (by show pyget (h2.read h.arrs.length) 0 = .ok α
            rw [hr1, hv, (himpl _ _ _ _ _ _).1]
            exact hα)
        (by show pyget (h2.read h.arrs.length) (-1) = .ok ω
            rw [hr1, hv, (himpl _ _ _ _ _ _).2]
            exact hω)
        (fun q hq => hids q (List.mem_cons_of_mem p hq))
        (fun q hq => hep q (List.mem_cons_of_mem p hq))
    refine ⟨h', o', ?_, ?_, ?_, by omega, h1y', hxy', hyz', hzlt'⟩
    · show foldAddPwl h o (p :: rest) impl = .ok (h', o')
      unfold foldAddPwl
      rw [hadd]
      simp only [Except.bind, Bind.bind]
      exact hfold
    · have hinit : (h2.read (⟨h.arrs.length, h.arrs.length + 1,
            h.arrs.length + 2⟩ : PwlObj).xId,
          h2.read (⟨h.arrs.length, h.arrs.length + 1,
            h.arrs.length + 2⟩ : PwlObj).y1Id,
          h2.read (⟨h.arrs.length, h.arrs.length + 1,
            h.arrs.length + 2⟩ : PwlObj).y2Id)
          = addContents3 impl (h.read o.xId, h.read o.y1Id, h.read o.y2Id)
              (h0.read p.xId, h0.read p.y1Id, h0.read p.y2Id) := by
        show (h2.read h.arrs.length, h2.read (h.arrs.length + 1),
          h2.read (h.arrs.length + 2)) = _
        rw [hr1, hr2, hr3]
        simp only [addContents3, hv, hreadp, hreadp1, hreadp2]
      rw [hcont, hinit, List.map_cons, List.foldl_cons]
    · intro i hi
      rw [hpres' i (by omega), hpres2 i hi]

theorem foldAddDisc_spec (h0 : Heap) (α ω : ℚ)
    (impl : List ℚ → List ℚ → List ℚ → List ℚ → List ℚ → List ℚ →
      List ℚ × List ℚ × List ℚ)
    (himpl : ∀ x1 y1 y2 x2 z1 z2, pyget (impl x1 y1 y2 x2 z1 z2).1 0 = pyget x1 0
        ∧ pyget (impl x1 y1 y2 x2 z1 z2).1 (-1) = pyget x1 (-1)) :
    ∀ (ps : List DiscObj) (h : Heap) (o : DiscObj),
      h0.arrs.length ≤ h.arrs.length →
      (∀ i, i < h0.arrs.length → h.read i = h0.read i) →
      h0.arrs.length ≤ o.yId →
      o.xId + 1 = o.yId →
      o.yId + 1 = o.mpId →
      o.mpId < h.arrs.length →
      pyget (h.read o.xId) 0 = .ok α →
      pyget (h.read o.xId) (-1) = .ok ω →
      (∀ p ∈ ps, p.xId < h0.arrs.length ∧ p.yId < h0.arrs.length
          ∧ p.mpId < h0.arrs.length) →
      (∀ p ∈ ps, pyget (h0.read p.xId) 0 = .ok α
          ∧ pyget (h0.read p.xId) (-1) = .ok ω) →
      ∃ h' o',
        foldAddDisc h o ps impl = .ok (h', o')
        ∧ (h'.read o'.xId, h'.read o'.yId, h'.read o'.mpId)
            = List.foldl (addContents3 impl)
                (h.read o.xId, h.read o.yId, h.read o.mpId)
                (ps.map (fun p => (h0.read p.xId, h0.read p.yId, h0.read p.mpId)))
        ∧ (∀ i, i < h.arrs.length → h'.read i = h.read i)
        ∧ h.arrs.length ≤ h'.arrs.length
        ∧ h0.arrs.length ≤ o'.yId
        ∧ o'.xId + 1 = o'.yId
        ∧ o'.yId + 1 = o'.mpId
        ∧ o'.mpId < h'.arrs.length := by
  intro ps
  induction ps with
  | nil =>
    intro h o hlen hpres h1y hxy hyz hzlt hα hω _ _
    exact ⟨h, o, rfl, by simp [addContents3], fun i _ => rfl, le_refl _,
      h1y, hxy, hyz, hzlt⟩
  | cons p rest ih =>
    intro h o hlen hpres h1y hxy hyz hzlt hα hω hids hep
    obtain ⟨hpx, hpy, hpz⟩ := hids p (List.mem_cons_self p rest)
    obtain ⟨hpα, hpω⟩ := hep p (List.mem_cons_self p rest)
    have hreadp : h.read p.xId = h0.read p.xId := hpres p.xId hpx
    have hreadp1 : h.read p.yId = h0.read p.yId := hpres p.yId hpy
    have hreadp2 : h.read p.mpId = h0.read p.mpId := hpres p.mpId hpz
    have hadd := discAdd_ok h o p impl α ω hα (by rw [hreadp]; exact hpα)
      hω (by rw [hreadp]; exact hpω)
    set v := impl (h.read o.xId) (h.read o.yId) (h.read o.mpId)
      (h.read p.xId) (h.read p.yId) (h.read p.mpId) with hv
    set h2 := (((h.alloc v.1).1.alloc v.2.1).1.alloc v.2.2).1 with hh2
    have hlen1 : (h.alloc v.1).1.arrs.length = h.arrs.length + 1 :=
      Heap.length_alloc _ _
    have hlenB : ((h.alloc v.1).1.alloc v.2.1).1.arrs.length = h.arrs.length + 2 := by
      rw [Heap.length_alloc, hlen1]
    have hlen2 : h2.arrs.length = h.arrs.length + 3 := by
      rw [hh2, Heap.length_alloc, hlenB]
    have hr1 : h2.read h.arrs.length = v.1 := by
      rw [hh2, Heap.read_alloc_old _ _ h.arrs.length (by omega),
        Heap.read_alloc_old _ _ h.arrs.length (by omega), Heap.read_alloc_new]
    have hr2 : h2.read (h.arrs.length + 1) = v.2.1 := by
      rw [hh2, Heap.read_alloc_old _ _ (h.arrs.length + 1) (by omega),
        show h.arrs.length + 1 = (h.alloc v.1).1.arrs.length from hlen1.symm,
        Heap.read_alloc_new]
    have hr3 : h2.read (h.arrs.length + 2) = v.2.2 := by
      rw [hh2, show h.arrs.length + 2
          = ((h.alloc v.1).1.alloc v.2.1).1.arrs.length from hlenB.symm,
        Heap.read_alloc_new]
    have hpres2 : ∀ i, i < h.arrs.length → h2.read i = h.read i := by
      intro i hi
      rw [hh2, Heap.read_alloc_old _ _ i (by omega),
        Heap.read_alloc_old _ _ i (by omega), Heap.read_alloc_old _ _ i hi]
    obtain ⟨h', o', hfold, hcont, hpres', hlen', h1y', hxy', hyz', hzlt'⟩ :=
      ih h2 ⟨h.arrs.length, h.arrs.length + 1, h.arrs.length + 2⟩
        (by omega)
        (fun i hi => by rw [hpres2 i (by omega)]; exact hpres i hi)
        (by show h0.arrs.length ≤ h.arrs.length + 1; omega)
        (by show h.arrs.length + 1 = h.arrs.length + 1; rfl)
        (by show h.arrs.length + 1 + 1 = h.arrs.length + 2; rfl)
        (by show h.arrs.length + 2 < h2.arrs.length; omega)
        (by show pyget (h2.read h.arrs.length) 0 = .ok α
            rw [hr1, hv, (himpl _ _ _ _ _ _).1]
            exact hα)
        (by show pyget (h2.read h.arrs.length) (-1) = .ok ω
            rw [hr1, hv, (himpl _ _ _ _ _ _).2]
            exact hω)
        (fun q hq => hids q (List.mem_cons_of_mem p hq))
        (fun q hq => hep q (List.mem_cons_of_mem p hq))
    refine ⟨h', o', ?_, ?_, ?_, by omega, h1y', hxy', hyz', hzlt'⟩
    · show foldAddDisc h o (p :: rest) impl = .ok (h', o')
      unfold foldAddDisc
      rw [hadd]
      simp only [Except.bind, Bind.bind]
      exact hfold
    · have hinit : (h2.read (⟨h.arrs.length, h.arrs.length + 1,
            h.arrs.length + 2⟩ : DiscObj).xId,
          h2.read (⟨h.arrs.length, h.arrs.length + 1,
            h.arrs.length + 2⟩ : DiscObj).yId,
          h2.read (⟨h.arrs.length, h.arrs.length + 1,
            h.arrs.length + 2⟩ : DiscObj).mpId)
          = addContents3 impl (h.read o.xId, h.read o.yId, h.read o.mpId)
              (h0.read p.xId, h0.read p.yId, h0.read p.mpId) := by
        show (h2.read h.arrs.length, h2.read (h.arrs.length + 1),
          h2.read (h.arrs.length + 2)) = _
        rw [hr1, hr2, hr3]
        simp only [addContents3, hv, hreadp, hreadp1, hreadp2]
      rw [hcont, hinit, List.map_cons, List.foldl_cons]
    · intro i hi
      rw [hpres' i (by omega), hpres2 i hi]

/-- C8: `average_profile` fails its length assertion (the spec's
InsufficientInputError) whenever fewer than two profiles are supplied,
for each of the three profile kinds; for at least two profiles of one
kind over a common heap whose domain endpoints agree (and an
endpoint-preserving merge backend), it succeeds and the result's
contents are `mul_scalar(1/len(profiles))` applied to the left-to-right
fold of `add` starting from a copy of the first profile, while every
pre-existing array - in particular `profiles[0]`'s storage - is left
unchanged (the final conjunct of each block, for each index `i` of the
input heap). -/
theorem c8_average_profile :
    ∀ (h : Heap) (i : ℕ)
      (psC : List PwcObj)
      (implC : List ℚ → List ℚ → List ℚ → List ℚ → List ℚ × List ℚ)
      (αc ωc : ℚ)
      (psL : List PwlObj)
      (implL : List ℚ → List ℚ → List ℚ → List ℚ → List ℚ → List ℚ →
        List ℚ × List ℚ × List ℚ)
      (αl ωl : ℚ)
      (psD : List DiscObj)
      (implD : List ℚ → List ℚ → List ℚ → List ℚ → List ℚ → List ℚ →
        List ℚ × List ℚ × List ℚ)
      (αd ωd : ℚ),
      (∀ x1 y1 x2 y2, pyget (implC x1 y1 x2 y2).1 0 = pyget x1 0
          ∧ pyget (implC x1 y1 x2 y2).1 (-1) = pyget x1 (-1)) →
      (∀ p ∈ psC, p.xId < h.arrs.length ∧ p.yId < h.arrs.length) →
      (∀ p ∈ psC, pyget (h.read p.xId) 0 = .ok αc
          ∧ pyget (h.read p.xId) (-1) = .ok ωc) →
      (∀ x1 y1 y2 x2 z1 z2, pyget (implL x1 y1 y2 x2 z1 z2).1 0 = pyget x1 0
          ∧ pyget (implL x1 y1 y2 x2 z1 z2).1 (-1) = pyget x1 (-1)) →
      (∀ p ∈ psL, p.xId < h.arrs.length ∧ p.y1Id < h.arrs.length
          ∧ p.y2Id < h.arrs.length) →
      (∀ p ∈ psL, pyget (h.read p.xId) 0 = .ok αl
          ∧ pyget (h.read p.xId) (-1) = .ok ωl) →
      (∀ x1 y1 y2 x2 z1 z2, pyget (implD x1 y1 y2 x2 z1 z2).1 0 = pyget x1 0
          ∧ pyget (implD x1 y1 y2 x2 z1 z2).1 (-1) = pyget x1 (-1)) →
      (∀ p ∈ psD, p.xId < h.arrs.length ∧ p.yId < h.arrs.length
          ∧ p.mpId < h.arrs.length) →
      (∀ p ∈ psD, pyget (h.read p.xId) 0 = .ok αd
          ∧ pyget (h.read p.xId) (-1) = .ok ωd) →
      i < h.arrs.length →
      ((psC.length ≤ 1 → average_profile h psC implC = .error .assertFail)
       ∧ (2 ≤ psC.length →
          exOk (average_profile h psC implC) = true
          ∧ exMap (average_profile h psC implC) (fun r => r.1.read r.2.xId)
              = exMap (average_profile h psC implC) (fun _ =>
                  (mulContents (1 / (psC.length : ℚ))
                    (List.foldl (addContents implC)
                      (h.read psC.headI.xId, h.read psC.headI.yId)
                      ((psC.drop 1).map (fun p => (h.read p.xId, h.read p.yId))))).1)
          ∧ exMap (average_profile h psC implC) (fun r => r.1.read r.2.yId)
              = exMap (average_profile h psC implC) (fun _ =>
                  (mulContents (1 / (psC.length : ℚ))
                    (List.foldl (addContents implC)
                      (h.read psC.headI.xId, h.read psC.headI.yId)
                      ((psC.drop 1).map (fun p => (h.read p.xId, h.read p.yId))))).2)
          ∧ exMap (average_profile h psC implC) (fun r => r.1.read i)
              = exMap (average_profile h psC implC) (fun _ => h.read i)))
      ∧ ((psL.length ≤ 1 → average_profilePwl h psL implL = .error .assertFail)
       ∧ (2 ≤ psL.length →
          exOk (average_profilePwl h psL implL) = true
          ∧ exMap (average_profilePwl h psL implL) (fun r => r.1.read r.2.xId)
              = exMap (average_profilePwl h psL implL) (fun _ =>
                  (mulContentsPwl (1 / (psL.length : ℚ))
                    (List.foldl (addContents3 implL)
                      (h.read psL.headI.xId, h.read psL.headI.y1Id,
                        h.read psL.headI.y2Id)
                      ((psL.drop 1).map (fun p =>
                        (h.read p.xId, h.read p.y1Id, h.read p.y2Id))))).1)
          ∧ exMap (average_profilePwl h psL implL) (fun r => r.1.read r.2.y1Id)
              = exMap (average_profilePwl h psL implL) (fun _ =>
                  (mulContentsPwl (1 / (psL.length : ℚ))
                    (List.foldl (addContents3 implL)
                      (h.read psL.headI.xId, h.read psL.headI.y1Id,
                        h.read psL.headI.y2Id)
                      ((psL.drop 1).map (fun p =>
                        (h.read p.xId, h.read p.y1Id, h.read p.y2Id))))).2.1)
          ∧ exMap (average_profilePwl h psL implL) (fun r => r.1.read r.2.y2Id)
              = exMap (average_profilePwl h psL implL) (fun _ =>
                  (mulContentsPwl (1 / (psL.length : ℚ))
                    (List.foldl (addContents3 implL)
                      (h.read psL.headI.xId, h.read psL.headI.y1Id,
                        h.read psL.headI.y2Id)
                      ((psL.drop 1).map (fun p =>
                        (h.read p.xId, h.read p.y1Id, h.read p.y2Id))))).2.2)
          ∧ exMap (average_profilePwl h psL implL) (fun r => r.1.read i)
              = exMap (average_profilePwl h psL implL) (fun _ => h.read i)))
      ∧ ((psD.length ≤ 1 → average_profileDisc h psD implD = .error .assertFail)
       ∧ (2 ≤ psD.length →
          exOk (average_profileDisc h psD implD) = true
          ∧ exMap (average_profileDisc h psD implD) (fun r => r.1.read r.2.xId)
              = exMap (average_profileDisc h psD implD) (fun _ =>
                  (mulContentsDisc (1 / (psD.length : ℚ))
                    (List.foldl (addContents3 implD)
                      (h.read psD.headI.xId, h.read psD.headI.yId,
                        h.read psD.headI.mpId)
                      ((psD.drop 1).map (fun p =>
                        (h.read p.xId, h.read p.yId, h.read p.mpId))))).1)
          ∧ exMap (average_profileDisc h psD implD) (fun r => r.1.read r.2.yId)
              = exMap (average_profileDisc h psD implD) (fun _ =>
                  (mulContentsDisc (1 / (psD.length : ℚ))
                    (List.foldl (addContents3 implD)
                      (h.read psD.headI.xId, h.read psD.headI.yId,
                        h.read psD.headI.mpId)
                      ((psD.drop 1).map (fun p =>
                        (h.read p.xId, h.read p.yId, h.read p.mpId))))).2.1)
          ∧ exMap (average_profileDisc h psD implD) (fun r => r.1.read r.2.mpId)
              = exMap (average_profileDisc h psD implD) (fun _ =>
                  (mulContentsDisc (1 / (psD.length : ℚ))
                    (List.foldl (addContents3 implD)
                      (h.read psD.headI.xId, h.read psD.headI.yId,
                        h.read psD.headI.mpId)
                      ((psD.drop 1).map (fun p =>
                        (h.read p.xId, h.read p.yId, h.read p.mpId))))).2.2)
          ∧ exMap (average_profileDisc h psD implD) (fun r => r.1.read i)
              = exMap (average_profileDisc h psD implD) (fun _ => h.read i))) := by
  intro h i psC implC αc ωc psL implL αl ωl psD implD αd ωd
  intro himplC hidsC hepC himplL hidsL hepL himplD hidsD hepD hi
  refine ⟨?_, ?_, ?_⟩
  · match psC with
    | [] =>
      refine ⟨fun _ => rfl, fun hc => absurd hc (by simp)⟩
    | [p] =>
      refine ⟨fun _ => rfl, fun hc => absurd hc (by simp)⟩
    | p :: q :: rest =>
      constructor
      · intro hle
        exact absurd hle (by simp)
      · intro _
        have hpx := (hidsC p (by simp)).1
        have hpy := (hidsC p (by simp)).2
        obtain ⟨hc1, hc2, hc3, hc4, hc5⟩ := pwc_copy_reads h p hpx hpy
        obtain ⟨h', o', hfold, hcont, hpres', hlen', hoy', hxy', hylt'⟩ :=
          foldAdd_spec h αc ωc implC himplC (q :: rest)
            (PwcObj.copy h p).1 (PwcObj.copy h p).2
            (by rw [hc5]; omega)
            (fun j hj => pwc_copy_preserves h p j hj)
            (by rw [pwc_copy_spec]; exact Nat.le_succ _)
            (by rw [pwc_copy_spec])
            (by rw [pwc_copy_spec]; simp only [Heap.length_alloc]; omega)
            (by rw [hc3]; exact (hepC p (by simp)).1)
            (by rw [hc3]; exact (hepC p (by simp)).2)
            (fun r hr => hidsC r (by simp [hr]))
            (fun r hr => hepC r (by simp [hr]))
        have havg : average_profile h (p :: q :: rest) implC
            = .ok (PwcObj.mul_scalar h' o'
                (1 / (((p :: q :: rest).length : ℕ) : ℚ)), o') := by
          show Except.bind
              (foldAdd (PwcObj.copy h p).1 (PwcObj.copy h p).2 (q :: rest) implC)
              (fun r => Except.ok (PwcObj.mul_scalar r.1 r.2
                (1 / (((p :: q :: rest).length : ℕ) : ℚ)), r.2)) = _
          rw [hfold]
          rfl
        have hxv := congrArg Prod.fst hcont
        have hyv := congrArg Prod.snd hcont
        simp only at hxv hyv
        refine ⟨?_, ?_, ?_, ?_⟩
        · simp [exOk, havg]
        · simp only [havg, exMap, Except.toOption, Option.map]
          simp only [PwcObj.mul_scalar,
            Heap.read_write_ne _ _ _ _ (by omega : o'.xId ≠ o'.yId)]
          rw [hxv, hc3, hc4]
          simp [mulContents, List.headI]
        · simp only [havg, exMap, Except.toOption, Option.map]
          simp only [PwcObj.mul_scalar, Heap.read_write_self _ _ _ hylt']
          rw [hyv, hc3, hc4]
          simp [mulContents, List.headI]
        · simp only [havg, exMap, Except.toOption, Option.map]
          simp only [PwcObj.mul_scalar]
          rw [Heap.read_write_ne _ _ _ _ (by omega : i ≠ o'.yId),
            hpres' i (by rw [hc5]; omega), pwc_copy_preserves h p i hi]
  · match psL with
    | [] =>
      refine ⟨fun _ => rfl, fun hc => absurd hc (by simp)⟩
    | [p] =>
      refine ⟨fun _ => rfl, fun hc => absurd hc (by simp)⟩
    | p :: q :: rest =>
      constructor
      · intro hle
        exact absurd hle (by simp)
      · intro _
        have hpx := (hidsL p (by simp)).1
        have hp1 := (hidsL p (by simp)).2.1
        have hp2 := (hidsL p (by simp)).2.2
        obtain ⟨hc1, hc2, hc3, hc4, hc5, hc6, hc7⟩ := pwl_copy_reads h p hpx hp1 hp2
        obtain ⟨h', o', hfold, hcont, hpres', hlen', h1y', hxy', hyz', hzlt'⟩ :=
          foldAddPwl_spec h αl ωl implL himplL (q :: rest)
            (PwlObj.copy h p).1 (PwlObj.copy h p).2
            (by rw [hc7]; omega)
            (fun j hj => pwl_copy_preserves h p j hj)
            (by rw [pwl_copy_spec]; exact Nat.le_succ _)
            (by rw [pwl_copy_spec])
            (by rw [pwl_copy_spec])
            (by rw [pwl_copy_spec]; simp only [Heap.length_alloc]; omega)
            (by rw [hc4]; exact (hepL p (by simp)).1)
            (by rw [hc4]; exact (hepL p (by simp)).2)
            (fun r hr => hidsL r (by simp [hr]))
            (fun r hr => hepL r (by simp [hr]))
        have havg : average_profilePwl h (p :: q :: rest) implL
            = .ok (PwlObj.mul_scalar h' o'
                (1 / (((p :: q :: rest).length : ℕ) : ℚ)), o') := by
          show Except.bind
              (foldAddPwl (PwlObj.copy h p).1 (PwlObj.copy h p).2 (q :: rest) implL)
              (fun r => Except.ok (PwlObj.mul_scalar r.1 r.2
                (1 / (((p :: q :: rest).length : ℕ) : ℚ)), r.2)) = _
          rw [hfold]
          rfl
        have hxv := congrArg Prod.fst hcont
        have hy1v := congrArg (fun t => t.2.1) hcont
        have hy2v := congrArg (fun t => t.2.2) hcont
        simp only at hxv hy1v hy2v
        refine ⟨?_, ?_, ?_, ?_, ?_⟩
        · simp [exOk, havg]
        · simp only [havg, exMap, Except.toOption, Option.map]
          simp only [PwlObj.mul_scalar]
          rw [Heap.read_write_ne _ _ _ _ (by omega : o'.xId ≠ o'.y2Id),
            Heap.read_write_ne _ _ _ _ (by omega : o'.xId ≠ o'.y1Id)]
          rw [hxv, hc4, hc5, hc6]
          simp [mulContentsPwl, List.headI]
        · simp only [havg, exMap, Except.toOption, Option.map]
          simp only [PwlObj.mul_scalar]
          rw [Heap.read_write_ne _ _ _ _ (by omega : o'.y1Id ≠ o'.y2Id),
            Heap.read_write_self _ _ _ (by omega)]
          rw [hy1v, hc4, hc5, hc6]
          simp [mulContentsPwl, List.headI]
        · simp only [havg, exMap, Except.toOption, Option.map]
          simp only [PwlObj.mul_scalar]
          rw [Heap.read_write_self _ _ _ (by rw [Heap.length_write]; omega),
            Heap.read_write_ne _ _ _ _ (by omega : o'.y2Id ≠ o'.y1Id)]
          rw [hy2v, hc4, hc5, hc6]
          simp [mulContentsPwl, List.headI]
        · simp only [havg, exMap, Except.toOption, Option.map]
          simp only [PwlObj.mul_scalar]
          rw [Heap.read_write_ne _ _ _ _ (by omega : i ≠ o'.y2Id),
            Heap.read_write_ne _ _ _ _ (by omega : i ≠ o'.y1Id),
            hpres' i (by rw [hc7]; omega), pwl_copy_preserves h p i hi]
  · match psD with
    | [] =>
      refine ⟨fun _ => rfl, fun hc => absurd hc (by simp)⟩
    | [p] =>
      refine ⟨fun _ => rfl, fun hc => absurd hc (by simp)⟩
    | p :: q :: rest =>
      constructor
      · intro hle
        exact absurd hle (by simp)
      · intro _
        have hpx := (hidsD p (by simp)).1
        have hp1 := (hidsD p (by simp)).2.1
        have hp2 := (hidsD p (by simp)).2.2
        obtain ⟨hc1, hc2, hc3, hc4, hc5, hc6, hc7⟩ := disc_copy_reads h p hpx hp1 hp2
        obtain ⟨h', o', hfold, hcont, hpres', hlen', h1y', hxy', hyz', hzlt'⟩ :=
          foldAddDisc_spec h αd ωd implD himplD (q :: rest)
            (DiscObj.copy h p).1 (DiscObj.copy h p).2
            (by rw [hc7]; omega)
            (fun j hj => disc_copy_preserves h p j hj)
            (by rw [disc_copy_spec]; exact Nat.le_succ _)
            (by rw [disc_copy_spec])
            (by rw [disc_copy_spec])
            (by rw [disc_copy_spec]; simp only [Heap.length_alloc]; omega)
            (by rw [hc4]; exact (hepD p (by simp)).1)
            (by rw [hc4]; exact (hepD p (by simp)).2)
            (fun r hr => hidsD r (by simp [hr]))
            (fun r hr => hepD r (by simp [hr]))
        have havg : average_profileDisc h (p :: q :: rest) implD
            = .ok (DiscObj.mul_scalar h' o'
                (1 / (((p :: q :: rest).length : ℕ) : ℚ)), o') := by
          show Except.bind
              (foldAddDisc (DiscObj.copy h p).1 (DiscObj.copy h p).2 (q :: rest) implD)
              (fun r => Except.ok (DiscObj.mul_scalar r.1 r.2
                (1 / (((p :: q :: rest).length : ℕ) : ℚ)), r.2)) = _
          rw [hfold]
          rfl
        have hxv := congrArg Prod.fst hcont
        have hy1v := congrArg (fun t => t.2.1) hcont
        have hy2v := congrArg (fun t => t.2.2) hcont
        simp only at hxv hy1v hy2v
        refine ⟨?_, ?_, ?_, ?_, ?_⟩
        · simp [exOk, havg]
        · simp only [havg, exMap, Except.toOption, Option.map]
          simp only [DiscObj.mul_scalar]
          rw [Heap.read_write_ne _ _ _ _ (by omega : o'.xId ≠ o'.yId)]
          rw [hxv, hc4, hc5, hc6]
          simp [mulContentsDisc, List.headI]
        · simp only [havg, exMap, Except.toOption, Option.map]
          simp only [DiscObj.mul_scalar]
          rw [Heap.read_write_self _ _ _ (by omega)]
          rw [hy1v, hc4, hc5, hc6]
          simp [mulContentsDisc, List.headI]
        · simp only [havg, exMap, Except.toOption, Option.map]
          simp only [DiscObj.mul_scalar]
          rw [Heap.read_write_ne _ _ _ _ (by omega : o'.mpId ≠ o'.yId)]
          rw [hy2v, hc4, hc5, hc6]
          simp [mulContentsDisc, List.headI]
        · simp only [havg, exMap, Except.toOption, Option.map]
          simp only [DiscObj.mul_scalar]
          rw [Heap.read_write_ne _ _ _ _ (by omega : i ≠ o'.yId),
            hpres' i (by rw [hc7]; omega), disc_copy_preserves h p i hi]

/-- C8 witness: `average_profile` at each of the three kinds on two
concrete profiles per kind over one shared heap, with merge backends that
keep the breakpoints and add the value arrays; heap index 0 (the first
constant profile's breakpoint array) is checked unchanged in each block. -/
theorem c8_average_profile_witness :
    exOk (average_profile (⟨[[0,2],[1,1],[0,2],[3,3],[0,2],[1,1],[2,2],[0,2],[3,3],[4,4],[0,2],[1,1],[1,1],[0,2],[5,5],[1,1]]⟩ : Heap) [(⟨0,1⟩ : PwcObj), ⟨2,3⟩] (fun x y _ fy => (x, List.zipWith (· + ·) y fy))) = true
    ∧ exMap (average_profile (⟨[[0,2],[1,1],[0,2],[3,3],[0,2],[1,1],[2,2],[0,2],[3,3],[4,4],[0,2],[1,1],[1,1],[0,2],[5,5],[1,1]]⟩ : Heap) [(⟨0,1⟩ : PwcObj), ⟨2,3⟩] (fun x y _ fy => (x, List.zipWith (· + ·) y fy)))
          (fun r => r.1.read r.2.xId)
        = exMap (average_profile (⟨[[0,2],[1,1],[0,2],[3,3],[0,2],[1,1],[2,2],[0,2],[3,3],[4,4],[0,2],[1,1],[1,1],[0,2],[5,5],[1,1]]⟩ : Heap) [(⟨0,1⟩ : PwcObj), ⟨2,3⟩] (fun x y _ fy => (x, List.zipWith (· + ·) y fy)))
          (fun _ => (mulContents (1 / ([(⟨0,1⟩ : PwcObj), ⟨2,3⟩].length : ℚ))
              (List.foldl (addContents (fun x y _ fy => (x, List.zipWith (· + ·) y fy)))
                ((⟨[[0,2],[1,1],[0,2],[3,3],[0,2],[1,1],[2,2],[0,2],[3,3],[4,4],[0,2],[1,1],[1,1],[0,2],[5,5],[1,1]]⟩ : Heap).read [(⟨0,1⟩ : PwcObj), ⟨2,3⟩].headI.xId, (⟨[[0,2],[1,1],[0,2],[3,3],[0,2],[1,1],[2,2],[0,2],[3,3],[4,4],[0,2],[1,1],[1,1],[0,2],[5,5],[1,1]]⟩ : Heap).read [(⟨0,1⟩ : PwcObj), ⟨2,3⟩].headI.yId)
                (([(⟨0,1⟩ : PwcObj), ⟨2,3⟩].drop 1).map (fun p => ((⟨[[0,2],[1,1],[0,2],[3,3],[0,2],[1,1],[2,2],[0,2],[3,3],[4,4],[0,2],[1,1],[1,1],[0,2],[5,5],[1,1]]⟩ : Heap).read p.xId, (⟨[[0,2],[1,1],[0,2],[3,3],[0,2],[1,1],[2,2],[0,2],[3,3],[4,4],[0,2],[1,1],[1,1],[0,2],[5,5],[1,1]]⟩ : Heap).read p.yId))))).1)
    ∧ exMap (average_profile (⟨[[0,2],[1,1],[0,2],[3,3],[0,2],[1,1],[2,2],[0,2],[3,3],[4,4],[0,2],[1,1],[1,1],[0,2],[5,5],[1,1]]⟩ : Heap) [(⟨0,1⟩ : PwcObj), ⟨2,3⟩] (fun x y _ fy => (x, List.zipWith (· + ·) y fy)))
          (fun r => r.1.read r.2.yId)
        = exMap (average_profile (⟨[[0,2],[1,1],[0,2],[3,3],[0,2],[1,1],[2,2],[0,2],[3,3],[4,4],[0,2],[1,1],[1,1],[0,2],[5,5],[1,1]]⟩ : Heap) [(⟨0,1⟩ : PwcObj), ⟨2,3⟩] (fun x y _ fy => (x, List.zipWith (· + ·) y fy)))
          (fun _ => (mulContents (1 / ([(⟨0,1⟩ : PwcObj), ⟨2,3⟩].length : ℚ))
              (List.foldl (addContents (fun x y _ fy => (x, List.zipWith (· + ·) y fy)))
                ((⟨[[0,2],[1,1],[0,2],[3,3],[0,2],[1,1],[2,2],[0,2],[3,3],[4,4],[0,2],[1,1],[1,1],[0,2],[5,5],[1,1]]⟩ : Heap).read [(⟨0,1⟩ : PwcObj), ⟨2,3⟩].headI.xId, (⟨[[0,2],[1,1],[0,2],[3,3],[0,2],[1,1],[2,2],[0,2],[3,3],[4,4],[0,2],[1,1],[1,1],[0,2],[5,5],[1,1]]⟩ : Heap).read [(⟨0,1⟩ : PwcObj), ⟨2,3⟩].headI.yId)
                (([(⟨0,1⟩ : PwcObj), ⟨2,3⟩].drop 1).map (fun p => ((⟨[[0,2],[1,1],[0,2],[3,3],[0,2],[1,1],[2,2],[0,2],[3,3],[4,4],[0,2],[1,1],[1,1],[0,2],[5,5],[1,1]]⟩ : Heap).read p.xId, (⟨[[0,2],[1,1],[0,2],[3,3],[0,2],[1,1],[2,2],[0,2],[3,3],[4,4],[0,2],[1,1],[1,1],[0,2],[5,5],[1,1]]⟩ : Heap).read p.yId))))).2)
    ∧ exMap (average_profile (⟨[[0,2],[1,1],[0,2],[3,3],[0,2],[1,1],[2,2],[0,2],[3,3],[4,4],[0,2],[1,1],[1,1],[0,2],[5,5],[1,1]]⟩ : Heap) [(⟨0,1⟩ : PwcObj), ⟨2,3⟩] (fun x y _ fy => (x, List.zipWith (· + ·) y fy)))
          (fun r => r.1.read 0)
        = exMap (average_profile (⟨[[0,2],[1,1],[0,2],[3,3],[0,2],[1,1],[2,2],[0,2],[3,3],[4,4],[0,2],[1,1],[1,1],[0,2],[5,5],[1,1]]⟩ : Heap) [(⟨0,1⟩ : PwcObj), ⟨2,3⟩] (fun x y _ fy => (x, List.zipWith (· + ·) y fy)))
          (fun _ => (⟨[[0,2],[1,1],[0,2],[3,3],[0,2],[1,1],[2,2],[0,2],[3,3],[4,4],[0,2],[1,1],[1,1],[0,2],[5,5],[1,1]]⟩ : Heap).read 0)
    ∧ exOk (average_profilePwl (⟨[[0,2],[1,1],[0,2],[3,3],[0,2],[1,1],[2,2],[0,2],[3,3],[4,4],[0,2],[1,1],[1,1],[0,2],[5,5],[1,1]]⟩ : Heap) [(⟨4,5,6⟩ : PwlObj), ⟨7,8,9⟩] (fun x y1 y2 _ fy1 fy2 => (x, List.zipWith (· + ·) y1 fy1, List.zipWith (· + ·) y2 fy2))) = true
    ∧ exMap (average_profilePwl (⟨[[0,2],[1,1],[0,2],[3,3],[0,2],[1,1],[2,2],[0,2],[3,3],[4,4],[0,2],[1,1],[1,1],[0,2],[5,5],[1,1]]⟩ : Heap) [(⟨4,5,6⟩ : PwlObj), ⟨7,8,9⟩] (fun x y1 y2 _ fy1 fy2 => (x, List.zipWith (· + ·) y1 fy1, List.zipWith (· + ·) y2 fy2)))
          (fun r => r.1.read r.2.xId)
        = exMap (average_profilePwl (⟨[[0,2],[1,1],[0,2],[3,3],[0,2],[1,1],[2,2],[0,2],[3,3],[4,4],[0,2],[1,1],[1,1],[0,2],[5,5],[1,1]]⟩ : Heap) [(⟨4,5,6⟩ : PwlObj), ⟨7,8,9⟩] (fun x y1 y2 _ fy1 fy2 => (x, List.zipWith (· + ·) y1 fy1, List.zipWith (· + ·) y2 fy2)))
          (fun _ => (mulContentsPwl (1 / ([(⟨4,5,6⟩ : PwlObj), ⟨7,8,9⟩].length : ℚ))
              (List.foldl (addContents3 (fun x y1 y2 _ fy1 fy2 => (x, List.zipWith (· + ·) y1 fy1, List.zipWith (· + ·) y2 fy2)))
                ((⟨[[0,2],[1,1],[0,2],[3,3],[0,2],[1,1],[2,2],[0,2],[3,3],[4,4],[0,2],[1,1],[1,1],[0,2],[5,5],[1,1]]⟩ : Heap).read [(⟨4,5,6⟩ : PwlObj), ⟨7,8,9⟩].headI.xId, (⟨[[0,2],[1,1],[0,2],[3,3],[0,2],[1,1],[2,2],[0,2],[3,3],[4,4],[0,2],[1,1],[1,1],[0,2],[5,5],[1,1]]⟩ : Heap).read [(⟨4,5,6⟩ : PwlObj), ⟨7,8,9⟩].headI.y1Id,
                  (⟨[[0,2],[1,1],[0,2],[3,3],[0,2],[1,1],[2,2],[0,2],[3,3],[4,4],[0,2],[1,1],[1,1],[0,2],[5,5],[1,1]]⟩ : Heap).read [(⟨4,5,6⟩ : PwlObj), ⟨7,8,9⟩].headI.y2Id)
                (([(⟨4,5,6⟩ : PwlObj), ⟨7,8,9⟩].drop 1).map (fun p =>
                  ((⟨[[0,2],[1,1],[0,2],[3,3],[0,2],[1,1],[2,2],[0,2],[3,3],[4,4],[0,2],[1,1],[1,1],[0,2],[5,5],[1,1]]⟩ : Heap).read p.xId, (⟨[[0,2],[1,1],[0,2],[3,3],[0,2],[1,1],[2,2],[0,2],[3,3],[4,4],[0,2],[1,1],[1,1],[0,2],[5,5],[1,1]]⟩ : Heap).read p.y1Id, (⟨[[0,2],[1,1],[0,2],[3,3],[0,2],[1,1],[2,2],[0,2],[3,3],[4,4],[0,2],[1,1],[1,1],[0,2],[5,5],[1,1]]⟩ : Heap).read p.y2Id))))).1)
    ∧ exMap (average_profilePwl (⟨[[0,2],[1,1],[0,2],[3,3],[0,2],[1,1],[2,2],[0,2],[3,3],[4,4],[0,2],[1,1],[1,1],[0,2],[5,5],[1,1]]⟩ : Heap) [(⟨4,5,6⟩ : PwlObj), ⟨7,8,9⟩] (fun x y1 y2 _ fy1 fy2 => (x, List.zipWith (· + ·) y1 fy1, List.zipWith (· + ·) y2 fy2)))
          (fun r => r.1.read r.2.y1Id)
        = exMap (average_profilePwl (⟨[[0,2],[1,1],[0,2],[3,3],[0,2],[1,1],[2,2],[0,2],[3,3],[4,4],[0,2],[1,1],[1,1],[0,2],[5,5],[1,1]]⟩ : Heap) [(⟨4,5,6⟩ : PwlObj), ⟨7,8,9⟩] (fun x y1 y2 _ fy1 fy2 => (x, List.zipWith (· + ·) y1 fy1, List.zipWith (· + ·) y2 fy2)))
          (fun _ => (mulContentsPwl (1 / ([(⟨4,5,6⟩ : PwlObj), ⟨7,8,9⟩].length : ℚ))
              (List.foldl (addContents3 (fun x y1 y2 _ fy1 fy2 => (x, List.zipWith (· + ·) y1 fy1, List.zipWith (· + ·) y2 fy2)))
                ((⟨[[0,2],[1,1],[0,2],[3,3],[0,2],[1,1],[2,2],[0,2],[3,3],[4,4],[0,2],[1,1],[1,1],[0,2],[5,5],[1,1]]⟩ : Heap).read [(⟨4,5,6⟩ : PwlObj), ⟨7,8,9⟩].headI.xId, (⟨[[0,2],[1,1],[0,2],[3,3],[0,2],[1,1],[2,2],[0,2],[3,3],[4,4],[0,2],[1,1],[1,1],[0,2],[5,5],[1,1]]⟩ : Heap).read [(⟨4,5,6⟩ : PwlObj), ⟨7,8,9⟩].headI.y1Id,
                  (⟨[[0,2],[1,1],[0,2],[3,3],[0,2],[1,1],[2,2],[0,2],[3,3],[4,4],[0,2],[1,1],[1,1],[0,2],[5,5],[1,1]]⟩ : Heap).read [(⟨4,5,6⟩ : PwlObj), ⟨7,8,9⟩].headI.y2Id)
                (([(⟨4,5,6⟩ : PwlObj), ⟨7,8,9⟩].drop 1).map (fun p =>
                  ((⟨[[0,2],[1,1],[0,2],[3,3],[0,2],[1,1],[2,2],[0,2],[3,3],[4,4],[0,2],[1,1],[1,1],[0,2],[5,5],[1,1]]⟩ : Heap).read p.xId, (⟨[[0,2],[1,1],[0,2],[3,3],[0,2],[1,1],[2,2],[0,2],[3,3],[4,4],[0,2],[1,1],[1,1],[0,2],[5,5],[1,1]]⟩ : Heap).read p.y1Id, (⟨[[0,2],[1,1],[0,2],[3,3],[0,2],[1,1],[2,2],[0,2],[3,3],[4,4],[0,2],[1,1],[1,1],[0,2],[5,5],[1,1]]⟩ : Heap).read p.y2Id))))).2.1)
    ∧ exMap (average_profilePwl (⟨[[0,2],[1,1],[0,2],[3,3],[0,2],[1,1],[2,2],[0,2],[3,3],[4,4],[0,2],[1,1],[1,1],[0,2],[5,5],[1,1]]⟩ : Heap) [(⟨4,5,6⟩ : PwlObj), ⟨7,8,9⟩] (fun x y1 y2 _ fy1 fy2 => (x, List.zipWith (· + ·) y1 fy1, List.zipWith (· + ·) y2 fy2)))
          (fun r => r.1.read r.2.y2Id)
        = exMap (average_profilePwl (⟨[[0,2],[1,1],[0,2],[3,3],[0,2],[1,1],[2,2],[0,2],[3,3],[4,4],[0,2],[1,1],[1,1],[0,2],[5,5],[1,1]]⟩ : Heap) [(⟨4,5,6⟩ : PwlObj), ⟨7,8,9⟩] (fun x y1 y2 _ fy1 fy2 => (x, List.zipWith (· + ·) y1 fy1, List.zipWith (· + ·) y2 fy2)))
          (fun _ => (mulContentsPwl (1 / ([(⟨4,5,6⟩ : PwlObj), ⟨7,8,9⟩].length : ℚ))
              (List.foldl (addContents3 (fun x y1 y2 _ fy1 fy2 => (x, List.zipWith (· + ·) y1 fy1, List.zipWith (· + ·) y2 fy2)))
                ((⟨[[0,2],[1,1],[0,2],[3,3],[0,2],[1,1],[2,2],[0,2],[3,3],[4,4],[0,2],[1,1],[1,1],[0,2],[5,5],[1,1]]⟩ : Heap).read [(⟨4,5,6⟩ : PwlObj), ⟨7,8,9⟩].headI.xId, (⟨[[0,2],[1,1],[0,2],[3,3],[0,2],[1,1],[2,2],[0,2],[3,3],[4,4],[0,2],[1,1],[1,1],[0,2],[5,5],[1,1]]⟩ : Heap).read [(⟨4,5,6⟩ : PwlObj), ⟨7,8,9⟩].headI.y1Id,
                  (⟨[[0,2],[1,1],[0,2],[3,3],[0,2],[1,1],[2,2],[0,2],[3,3],[4,4],[0,2],[1,1],[1,1],[0,2],[5,5],[1,1]]⟩ : Heap).read [(⟨4,5,6⟩ : PwlObj), ⟨7,8,9⟩].headI.y2Id)
                (([(⟨4,5,6⟩ : PwlObj), ⟨7,8,9⟩].drop 1).map (fun p =>
                  ((⟨[[0,2],[1,1],[0,2],[3,3],[0,2],[1,1],[2,2],[0,2],[3,3],[4,4],[0,2],[1,1],[1,1],[0,2],[5,5],[1,1]]⟩ : Heap).read p.xId, (⟨[[0,2],[1,1],[0,2],[3,3],[0,2],[1,1],[2,2],[0,2],[3,3],[4,4],[0,2],[1,1],[1,1],[0,2],[5,5],[1,1]]⟩ : Heap).read p.y1Id, (⟨[[0,2],[1,1],[0,2],[3,3],[0,2],[1,1],[2,2],[0,2],[3,3],[4,4],[0,2],[1,1],[1,1],[0,2],[5,5],[1,1]]⟩ : Heap).read p.y2Id))))).2.2)
    ∧ exMap (average_profilePwl (⟨[[0,2],[1,1],[0,2],[3,3],[0,2],[1,1],[2,2],[0,2],[3,3],[4,4],[0,2],[1,1],[1,1],[0,2],[5,5],[1,1]]⟩ : Heap) [(⟨4,5,6⟩ : PwlObj), ⟨7,8,9⟩] (fun x y1 y2 _ fy1 fy2 => (x, List.zipWith (· + ·) y1 fy1, List.zipWith (· + ·) y2 fy2)))
          (fun r => r.1.read 0)
        = exMap (average_profilePwl (⟨[[0,2],[1,1],[0,2],[3,3],[0,2],[1,1],[2,2],[0,2],[3,3],[4,4],[0,2],[1,1],[1,1],[0,2],[5,5],[1,1]]⟩ : Heap) [(⟨4,5,6⟩ : PwlObj), ⟨7,8,9⟩] (fun x y1 y2 _ fy1 fy2 => (x, List.zipWith (· + ·) y1 fy1, List.zipWith (· + ·) y2 fy2)))
          (fun _ => (⟨[[0,2],[1,1],[0,2],[3,3],[0,2],[1,1],[2,2],[0,2],[3,3],[4,4],[0,2],[1,1],[1,1],[0,2],[5,5],[1,1]]⟩ : Heap).read 0)
    ∧ exOk (average_profileDisc (⟨[[0,2],[1,1],[0,2],[3,3],[0,2],[1,1],[2,2],[0,2],[3,3],[4,4],[0,2],[1,1],[1,1],[0,2],[5,5],[1,1]]⟩ : Heap) [(⟨10,11,12⟩ : DiscObj), ⟨13,14,15⟩] (fun x y mp _ fy fmp => (x, List.zipWith (· + ·) y fy, List.zipWith (· + ·) mp fmp))) = true
    ∧ exMap (average_profileDisc (⟨[[0,2],[1,1],[0,2],[3,3],[0,2],[1,1],[2,2],[0,2],[3,3],[4,4],[0,2],[1,1],[1,1],[0,2],[5,5],[1,1]]⟩ : Heap) [(⟨10,11,12⟩ : DiscObj), ⟨13,14,15⟩] (fun x y mp _ fy fmp => (x, List.zipWith (· + ·) y fy, List.zipWith (· + ·) mp fmp)))
          (fun r => r.1.read r.2.xId)
        = exMap (average_profileDisc (⟨[[0,2],[1,1],[0,2],[3,3],[0,2],[1,1],[2,2],[0,2],[3,3],[4,4],[0,2],[1,1],[1,1],[0,2],[5,5],[1,1]]⟩ : Heap) [(⟨10,11,12⟩ : DiscObj), ⟨13,14,15⟩] (fun x y mp _ fy fmp => (x, List.zipWith (· + ·) y fy, List.zipWith (· + ·) mp fmp)))
          (fun _ => (mulContentsDisc (1 / ([(⟨10,11,12⟩ : DiscObj), ⟨13,14,15⟩].length : ℚ))
              (List.foldl (addContents3 (fun x y mp _ fy fmp => (x, List.zipWith (· + ·) y fy, List.zipWith (· + ·) mp fmp)))
                ((⟨[[0,2],[1,1],[0,2],[3,3],[0,2],[1,1],[2,2],[0,2],[3,3],[4,4],[0,2],[1,1],[1,1],[0,2],[5,5],[1,1]]⟩ : Heap).read [(⟨10,11,12⟩ : DiscObj), ⟨13,14,15⟩].headI.xId, (⟨[[0,2],[1,1],[0,2],[3,3],[0,2],[1,1],[2,2],[0,2],[3,3],[4,4],[0,2],[1,1],[1,1],[0,2],[5,5],[1,1]]⟩ : Heap).read [(⟨10,11,12⟩ : DiscObj), ⟨13,14,15⟩].headI.yId,
                  (⟨[[0,2],[1,1],[0,2],[3,3],[0,2],[1,1],[2,2],[0,2],[3,3],[4,4],[0,2],[1,1],[1,1],[0,2],[5,5],[1,1]]⟩ : Heap).read [(⟨10,11,12⟩ : DiscObj), ⟨13,14,15⟩].headI.mpId)
                (([(⟨10,11,12⟩ : DiscObj), ⟨13,14,15⟩].drop 1).map (fun p =>
                  ((⟨[[0,2],[1,1],[0,2],[3,3],[0,2],[1,1],[2,2],[0,2],[3,3],[4,4],[0,2],[1,1],[1,1],[0,2],[5,5],[1,1]]⟩ : Heap).read p.xId, (⟨[[0,2],[1,1],[0,2],[3,3],[0,2],[1,1],[2,2],[0,2],[3,3],[4,4],[0,2],[1,1],[1,1],[0,2],[5,5],[1,1]]⟩ : Heap).read p.yId, (⟨[[0,2],[1,1],[0,2],[3,3],[0,2],[1,1],[2,2],[0,2],[3,3],[4,4],[0,2],[1,1],[1,1],[0,2],[5,5],[1,1]]⟩ : Heap).read p.mpId))))).1)
    ∧ exMap (average_profileDisc (⟨[[0,2],[1,1],[0,2],[3,3],[0,2],[1,1],[2,2],[0,2],[3,3],[4,4],[0,2],[1,1],[1,1],[0,2],[5,5],[1,1]]⟩ : Heap) [(⟨10,11,12⟩ : DiscObj), ⟨13,14,15⟩] (fun x y mp _ fy fmp => (x, List.zipWith (· + ·) y fy, List.zipWith (· + ·) mp fmp)))
          (fun r => r.1.read r.2.yId)
        = exMap (average_profileDisc (⟨[[0,2],[1,1],[0,2],[3,3],[0,2],[1,1],[2,2],[0,2],[3,3],[4,4],[0,2],[1,1],[1,1],[0,2],[5,5],[1,1]]⟩ : Heap) [(⟨10,11,12⟩ : DiscObj), ⟨13,14,15⟩] (fun x y mp _ fy fmp => (x, List.zipWith (· + ·) y fy, List.zipWith (· + ·) mp fmp)))
          (fun _ => (mulContentsDisc (1 / ([(⟨10,11,12⟩ : DiscObj), ⟨13,14,15⟩].length : ℚ))
              (List.foldl (addContents3 (fun x y mp _ fy fmp => (x, List.zipWith (· + ·) y fy, List.zipWith (· + ·) mp fmp)))
                ((⟨[[0,2],[1,1],[0,2],[3,3],[0,2],[1,1],[2,2],[0,2],[3,3],[4,4],[0,2],[1,1],[1,1],[0,2],[5,5],[1,1]]⟩ : Heap).read [(⟨10,11,12⟩ : DiscObj), ⟨13,14,15⟩].headI.xId, (⟨[[0,2],[1,1],[0,2],[3,3],[0,2],[1,1],[2,2],[0,2],[3,3],[4,4],[0,2],[1,1],[1,1],[0,2],[5,5],[1,1]]⟩ : Heap).read [(⟨10,11,12⟩ : DiscObj), ⟨13,14,15⟩].headI.yId,
                  (⟨[[0,2],[1,1],[0,2],[3,3],[0,2],[1,1],[2,2],[0,2],[3,3],[4,4],[0,2],[1,1],[1,1],[0,2],[5,5],[1,1]]⟩ : Heap).read [(⟨10,11,12⟩ : DiscObj), ⟨13,14,15⟩].headI.mpId)
                (([(⟨10,11,12⟩ : DiscObj), ⟨13,14,15⟩].drop 1).map (fun p =>
                  ((⟨[[0,2],[1,1],[0,2],[3,3],[0,2],[1,1],[2,2],[0,2],[3,3],[4,4],[0,2],[1,1],[1,1],[0,2],[5,5],[1,1]]⟩ : Heap).read p.xId, (⟨[[0,2],[1,1],[0,2],[3,3],[0,2],[1,1],[2,2],[0,2],[3,3],[4,4],[0,2],[1,1],[1,1],[0,2],[5,5],[1,1]]⟩ : Heap).read p.yId, (⟨[[0,2],[1,1],[0,2],[3,3],[0,2],[1,1],[2,2],[0,2],[3,3],[4,4],[0,2],[1,1],[1,1],[0,2],[5,5],[1,1]]⟩ : Heap).read p.mpId))))).2.1)
    ∧ exMap (average_profileDisc (⟨[[0,2],[1,1],[0,2],[3,3],[0,2],[1,1],[2,2],[0,2],[3,3],[4,4],[0,2],[1,1],[1,1],[0,2],[5,5],[1,1]]⟩ : Heap) [(⟨10,11,12⟩ : DiscObj), ⟨13,14,15⟩] (fun x y mp _ fy fmp => (x, List.zipWith (· + ·) y fy, List.zipWith (· + ·) mp fmp)))
          (fun r => r.1.read r.2.mpId)
        = exMap (average_profileDisc (⟨[[0,2],[1,1],[0,2],[3,3],[0,2],[1,1],[2,2],[0,2],[3,3],[4,4],[0,2],[1,1],[1,1],[0,2],[5,5],[1,1]]⟩ : Heap) [(⟨10,11,12⟩ : DiscObj), ⟨13,14,15⟩] (fun x y mp _ fy fmp => (x, List.zipWith (· + ·) y fy, List.zipWith (· + ·) mp fmp)))
          (fun _ => (mulContentsDisc (1 / ([(⟨10,11,12⟩ : DiscObj), ⟨13,14,15⟩].length : ℚ))
              (List.foldl (addContents3 (fun x y mp _ fy fmp => (x, List.zipWith (· + ·) y fy, List.zipWith (· + ·) mp fmp)))
                ((⟨[[0,2],[1,1],[0,2],[3,3],[0,2],[1,1],[2,2],[0,2],[3,3],[4,4],[0,2],[1,1],[1,1],[0,2],[5,5],[1,1]]⟩ : Heap).read [(⟨10,11,12⟩ : DiscObj), ⟨13,14,15⟩].headI.xId, (⟨[[0,2],[1,1],[0,2],[3,3],[0,2],[1,1],[2,2],[0,2],[3,3],[4,4],[0,2],[1,1],[1,1],[0,2],[5,5],[1,1]]⟩ : Heap).read [(⟨10,11,12⟩ : DiscObj), ⟨13,14,15⟩].headI.yId,
                  (⟨[[0,2],[1,1],[0,2],[3,3],[0,2],[1,1],[2,2],[0,2],[3,3],[4,4],[0,2],[1,1],[1,1],[0,2],[5,5],[1,1]]⟩ : Heap).read [(⟨10,11,12⟩ : DiscObj), ⟨13,14,15⟩].headI.mpId)
                (([(⟨10,11,12⟩ : DiscObj), ⟨13,14,15⟩].drop 1).map (fun p =>
                  ((⟨[[0,2],[1,1],[0,2],[3,3],[0,2],[1,1],[2,2],[0,2],[3,3],[4,4],[0,2],[1,1],[1,1],[0,2],[5,5],[1,1]]⟩ : Heap).read p.xId, (⟨[[0,2],[1,1],[0,2],[3,3],[0,2],[1,1],[2,2],[0,2],[3,3],[4,4],[0,2],[1,1],[1,1],[0,2],[5,5],[1,1]]⟩ : Heap).read p.yId, (⟨[[0,2],[1,1],[0,2],[3,3],[0,2],[1,1],[2,2],[0,2],[3,3],[4,4],[0,2],[1,1],[1,1],[0,2],[5,5],[1,1]]⟩ : Heap).read p.mpId))))).2.2)
    ∧ exMap (average_profileDisc (⟨[[0,2],[1,1],[0,2],[3,3],[0,2],[1,1],[2,2],[0,2],[3,3],[4,4],[0,2],[1,1],[1,1],[0,2],[5,5],[1,1]]⟩ : Heap) [(⟨10,11,12⟩ : DiscObj), ⟨13,14,15⟩] (fun x y mp _ fy fmp => (x, List.zipWith (· + ·) y fy, List.zipWith (· + ·) mp fmp)))
          (fun r => r.1.read 0)
        = exMap (average_profileDisc (⟨[[0,2],[1,1],[0,2],[3,3],[0,2],[1,1],[2,2],[0,2],[3,3],[4,4],[0,2],[1,1],[1,1],[0,2],[5,5],[1,1]]⟩ : Heap) [(⟨10,11,12⟩ : DiscObj), ⟨13,14,15⟩] (fun x y mp _ fy fmp => (x, List.zipWith (· + ·) y fy, List.zipWith (· + ·) mp fmp)))
          (fun _ => (⟨[[0,2],[1,1],[0,2],[3,3],[0,2],[1,1],[2,2],[0,2],[3,3],[4,4],[0,2],[1,1],[1,1],[0,2],[5,5],[1,1]]⟩ : Heap).read 0) := by
  have T := c8_average_profile (⟨[[0,2],[1,1],[0,2],[3,3],[0,2],[1,1],[2,2],[0,2],[3,3],[4,4],[0,2],[1,1],[1,1],[0,2],[5,5],[1,1]]⟩ : Heap) 0
    [(⟨0,1⟩ : PwcObj), ⟨2,3⟩] (fun x y _ fy => (x, List.zipWith (· + ·) y fy)) 0 2
    [(⟨4,5,6⟩ : PwlObj), ⟨7,8,9⟩]
    (fun x y1 y2 _ fy1 fy2 => (x, List.zipWith (· + ·) y1 fy1, List.zipWith (· + ·) y2 fy2)) 0 2
    [(⟨10,11,12⟩ : DiscObj), ⟨13,14,15⟩]
    (fun x y mp _ fy fmp => (x, List.zipWith (· + ·) y fy, List.zipWith (· + ·) mp fmp)) 0 2
    (fun _ _ _ _ => ⟨rfl, rfl⟩)
    (by with_unfolding_all decide)
    (by with_unfolding_all decide)
    (fun _ _ _ _ _ _ => ⟨rfl, rfl⟩)
    (by with_unfolding_all decide)
    (by with_unfolding_all decide)
    (fun _ _ _ _ _ _ => ⟨rfl, rfl⟩)
    (by with_unfolding_all decide)
    (by with_unfolding_all decide)
    (by with_unfolding_all decide)
  obtain ⟨TC, TL, TD⟩ := T
  obtain ⟨c1, c2, c3, c4⟩ := TC.2 (by decide)
  obtain ⟨l1, l2, l3, l4, l5⟩ := TL.2 (by decide)
  obtain ⟨d1, d2, d3, d4, d5⟩ := TD.2 (by decide)
  exact ⟨c1, c2, c3, c4, l1, l2, l3, l4, l5, d1, d2, d3, d4, d5⟩

end PySpike
